import Mathlib

/-!
# DXGrabber: the frame acquisition and conversion pipeline of `grabber.cpp`

A shallow embedding of `src/grabber.cpp`.  The members of `class grabber` become
the fields of the structure `grabber`; every method is a function on a `Machine`
(the object together with the process state around it).  Everything the program
obtains from Direct3D, DXGI and the duplication backend (`DDAImpl`) is read from
a `World`, which fixes the answer of each external call in advance, so that a
statement quantified over all worlds is a statement about every backend
behaviour.

Machine integers: `INT` and `HRESULT` are 32-bit signed, `UINT` is 32-bit
unsigned.  They are embedded as `Int`, every arithmetic result being reduced by
`toINT` / `toUINT`.
-/

namespace DXGrabber

set_option autoImplicit false

/-! ## Platform types and constants -/

abbrev HRESULT := Int
abbrev BYTE := Fin 256

/-- The success code `S_OK` of the Windows SDK. -/
def S_OK : HRESULT := 0

/-- The code `DXGI_ERROR_WAIT_TIMEOUT` of the Windows SDK, `0x887A0027` read as a
32-bit signed integer. -/
def DXGI_ERROR_WAIT_TIMEOUT : HRESULT := -2005270489

/-- The Windows SDK test `FAILED(hr)`: the code is negative. -/
def FAILED (hr : HRESULT) : Bool := decide (hr < 0)

/-- The Windows SDK test `SUCCEEDED(hr)`: the code is not negative. -/
def SUCCEEDED (hr : HRESULT) : Bool := decide (0 ≤ hr)

/-- The value of a 32-bit signed `INT` holding the mathematical integer `z`
(two's complement wrap-around). -/
def toINT (z : Int) : Int := (z + 2147483648) % 4294967296 - 2147483648

/-- The value of a 32-bit `UINT` holding the mathematical integer `z`. -/
def toUINT (z : Int) : Int := z % 4294967296

/-- Addition of two `INT`s. -/
def INT_add (a b : Int) : Int := toINT (a + b)

/-- Multiplication of two `INT`s. -/
def INT_mul (a b : Int) : Int := toINT (a * b)

/-- Subtraction of two `INT`s. -/
def INT_sub (a b : Int) : Int := toINT (a - b)

/-- Addition of two `UINT`s. -/
def UINT_add (a b : Int) : Int := toUINT (a + b)

/-- Multiplication of two `UINT`s. -/
def UINT_mul (a b : Int) : Int := toUINT (a * b)

/-! ## Memory -/

/-- One byte of the output image.  The program stores either a plain `BYTE`, or
one of the four bytes of a `float`; a float is kept by its exact value. -/
inductive Cell
  | byte (b : BYTE)
  | float_part (value : ℚ) (k : Nat)
deriving DecidableEq, Repr

/-- The expression `(float)b / 255.0F` of `grabber::save`: the conversion of a
byte to `float` is exact, and the one division is taken over the exact
rationals (its rounding to the nearest `float` is not modelled). -/
def sample_value (b : BYTE) : ℚ := (b.val : ℚ) / 255

/-- The four bytes of the float of value `v`. -/
def float_cells (v : ℚ) : List Cell :=
  [Cell.float_part v 0, Cell.float_part v 1, Cell.float_part v 2, Cell.float_part v 3]

/-- A heap block made by `new BYTE[n]`: the identity of the allocation and its
bytes. -/
structure OutputImage where
  id : Nat
  cells : List Cell
deriving DecidableEq, Repr

/-- An `ID3D11Texture2D`: its description and its texels, four bytes `B, G, R, A`
per pixel, rows one after the other. -/
structure Texture2D where
  width : Nat
  height : Nat
  bits : List BYTE
deriving DecidableEq, Repr

/-- The `DDAImpl` object made by `new DDAImpl(device, device_context)`. -/
structure DDAImpl where
  device : Option Nat
  device_context : Option Nat
deriving DecidableEq, Repr

/-- Reading `p[i]` from a mapped block: defined only inside the block. -/
def read_byte (bits : List BYTE) (i : Int) : Option BYTE :=
  if 0 ≤ i then bits.get? i.toNat else none

/-- Writing `p[i] = c` into a heap block: defined only inside the block. -/
def write_cell (cells : List Cell) (i : Int) (c : Cell) : Option (List Cell) :=
  if 0 ≤ i ∧ i < cells.length then some (cells.set i.toNat c) else none

/-- Writing `((float*)p)[i] = v`: the four bytes `4*i .. 4*i+3`. -/
def write_float (cells : List Cell) (i : Int) (v : ℚ) : Option (List Cell) :=
  match write_cell cells (4 * i) (Cell.float_part v 0) with
  | none => none
  | some c1 =>
    match write_cell c1 (4 * i + 1) (Cell.float_part v 1) with
    | none => none
    | some c2 =>
      match write_cell c2 (4 * i + 2) (Cell.float_part v 2) with
      | none => none
      | some c3 => write_cell c3 (4 * i + 3) (Cell.float_part v 3)

/-- The loop `for (INT i = start; ...; ++i)` running `count` times over a state
that a step may leave undefined. -/
def for_loop {σ : Type} (body : Int → σ → Option σ) : Nat → Int → σ → Option σ
  | 0, _, s => some s
  | k + 1, i, s =>
    match body i s with
    | none => none
    | some s1 => for_loop body k (i + 1) s1

/-! ## The object, the process and the outside world -/

/-- The data members of `class grabber`. -/
structure grabber where
  dda_wrapper : Option DDAImpl
  device : Option Nat
  device_context : Option Nat
  duplication_texture : Option Texture2D
  output_texture : Option Texture2D
  output_image : Option OutputImage
  output_image_length : Int
  duplication_width : Nat
  duplication_height : Nat
deriving DecidableEq, Repr

/-- What the program does, in order. -/
inductive Event
  | init
  | create_device (driver_type_index : Nat) (hr : HRESULT)
  | new_dda
  | dda_init (hr : HRESULT)
  | capture (hr : HRESULT) (accumulated_frames : Int)
  | cleanup (end_flag : Bool)
  | delete_dda
  | save (format : Int)
  | new_image (id : Nat) (length : Int)
  | delete_image (id : Nat)
  | fopen (filepath : String)
deriving DecidableEq, Repr

/-- A `grabber` object and the state of the process around it: how many times
`init`, `capture` and `save` have run, the next fresh allocation, what has been
done so far, and the files written. -/
structure Machine where
  g : grabber
  n_init : Nat
  n_capture : Nat
  n_save : Nat
  next_alloc : Nat
  trace : List Event
  files : List (String × List Cell)
deriving DecidableEq, Repr

/-- The answer of one `D3D11CreateDevice` call. -/
structure DeviceOutcome where
  hr : HRESULT
  device : Option Nat
  device_context : Option Nat

/-- The answer of one `DDAImpl::GetCapturedFrame` call: the status, the texture
pointer and the frame counter it leaves in its two out-parameters. -/
structure CaptureOutcome where
  hr : HRESULT
  texture : Option Texture2D
  accumulated_frames : Int

/-- The statuses of the Direct3D calls of one `save`. -/
structure StagingOutcome where
  create_texture : HRESULT
  query_interface : HRESULT
  map : HRESULT
  unmap : HRESULT

/-- The behaviour of everything outside `grabber.cpp`: the answer of the `i`-th
driver type in the `n`-th `init`, of `DDAImpl::Init` in the `n`-th `init`, of
the `n`-th `GetCapturedFrame` (given the timeout), of the Direct3D calls of the
`n`-th `save`, and of `fopen` on a path. -/
structure World where
  D3D11CreateDevice : Nat → Nat → DeviceOutcome
  dda_Init : Nat → HRESULT
  GetCapturedFrame : Nat → Int → CaptureOutcome
  staging : Nat → StagingOutcome
  fopen : String → Bool

/-- Why a run has no result. -/
inductive Fault
  | undefined_behaviour
  | out_of_fuel
deriving DecidableEq, Repr

/-- Appending an event to the record of the process. -/
def Machine.log (m : Machine) (e : Event) : Machine :=
  { m with trace := m.trace ++ [e] }

/-! ## `class grabber` -/

/-- The loop of `grabber::init_dxgi` over the remaining driver types. -/
def init_dxgi_loop (w : World) (n : Nat) : List Nat → HRESULT → Machine → HRESULT × Machine
  | [], hr, m => (hr, m)
  | i :: rest, _, m =>
    let o := w.D3D11CreateDevice n i
    let m1 : Machine :=
      { m with g := { m.g with device := o.device, device_context := o.device_context },
               trace := m.trace ++ [Event.create_device i o.hr] }
    if SUCCEEDED o.hr then (o.hr, m1) else init_dxgi_loop w n rest o.hr m1

/-- The method `grabber::init_dxgi`, in the `n`-th `init`. -/
def grabber.init_dxgi (w : World) (n : Nat) (m : Machine) : HRESULT × Machine :=
  init_dxgi_loop w n [0, 1, 2] S_OK m

/-- The method `grabber::init_duplication`, in the `n`-th `init`. -/
def grabber.init_duplication (w : World) (n : Nat) (m : Machine) : HRESULT × Machine :=
  match m.g.dda_wrapper with
  | none =>
    let hr := w.dda_Init n
    ( hr,
      { m with g := { m.g with dda_wrapper := some (DDAImpl.mk m.g.device m.g.device_context) },
               trace := m.trace ++ [Event.new_dda, Event.dda_init hr] } )
  | some _ => (S_OK, m)

/-- The method `grabber::init_output_texture`, with the status `create` that
`CreateTexture2D` would answer. -/
def grabber.init_output_texture (create : HRESULT) (m : Machine) :
    Except Fault (HRESULT × Machine) :=
  match m.g.output_texture with
  | some _ => .ok (S_OK, m)
  | none =>
    match m.g.duplication_texture with
    | none => .error Fault.undefined_behaviour
    | some d =>
      match m.g.device with
      | none => .error Fault.undefined_behaviour
      | some _ =>
        let g1 : grabber :=
          { m.g with duplication_width := d.width, duplication_height := d.height }
        let g2 : grabber :=
          if SUCCEEDED create then
            { g1 with output_texture := some (Texture2D.mk d.width d.height
                (List.replicate (4 * d.width * d.height) 0)) }
          else g1
        .ok (create, { m with g := g2 })

/-- The method `grabber::init_output_image`. -/
def grabber.init_output_image (m : Machine) (width height bytes_per_pixel : Int) :
    Except Fault Machine :=
  let new_output_image_length := INT_mul (INT_mul width height) bytes_per_pixel
  let m1 : Machine :=
    match m.g.output_image with
    | some img =>
      if m.g.output_image_length ≠ new_output_image_length then
        { m with g := { m.g with output_image := none },
                 trace := m.trace ++ [Event.delete_image img.id] }
      else m
    | none => m
  match m1.g.output_image with
  | some _ => .ok m1
  | none =>
    if new_output_image_length < 0 then .error Fault.undefined_behaviour
    else
      let img : OutputImage :=
        OutputImage.mk m1.next_alloc
          (List.replicate new_output_image_length.toNat (Cell.byte 0))
      .ok { m1 with g := { m1.g with output_image_length := new_output_image_length,
                                     output_image := some img },
                    next_alloc := m1.next_alloc + 1,
                    trace := m1.trace ++ [Event.new_image m1.next_alloc new_output_image_length] }

/-- The method `grabber::init`. -/
def grabber.init (w : World) (m : Machine) : HRESULT × Machine :=
  let n := m.n_init
  let m0 : Machine := { m with n_init := m.n_init + 1, trace := m.trace ++ [Event.init] }
  match grabber.init_dxgi w n m0 with
  | (hr, m1) =>
    if FAILED hr then (hr, m1)
    else
      match grabber.init_duplication w n m1 with
      | (hr2, m2) => (hr2, m2)

/-- The method `grabber::capture`: the status and the value left in
`accumulated_frames`. -/
def grabber.capture (w : World) (m : Machine) (wait : Int) :
    Except Fault ((HRESULT × Int) × Machine) :=
  match m.g.dda_wrapper with
  | none => .error Fault.undefined_behaviour
  | some _ =>
    let o := w.GetCapturedFrame m.n_capture wait
    .ok ( (o.hr, o.accumulated_frames),
          { m with g := { m.g with duplication_texture := o.texture },
                   n_capture := m.n_capture + 1,
                   trace := m.trace ++ [Event.capture o.hr o.accumulated_frames] } )

/-- The index `in_row_start` of `grabber::save`: `INT + INT`, times and plus in
`UINT`, stored in an `INT`. -/
def in_row_start (output_image_y y : Int) (duplication_width : Nat) (output_image_x : Int) :
    Int :=
  toINT (UINT_add (UINT_mul (toUINT (INT_add output_image_y y)) (duplication_width : Int))
    (toUINT output_image_x))

/-- The body of the inner loop of `case 0` of `grabber::save`, on the pair of
the image bytes and `out_index`. -/
def save_rgb_pixel (output_texture_data : List BYTE) (row_start : Int) (x : Int)
    (s : List Cell × Int) : Option (List Cell × Int) :=
  let inPixelStart := INT_add row_start x
  match read_byte output_texture_data (INT_add (INT_mul inPixelStart 4) 2) with
  | none => none
  | some r =>
    match write_cell s.1 s.2 (Cell.byte r) with
    | none => none
    | some c1 =>
      match read_byte output_texture_data (INT_add (INT_mul inPixelStart 4) 1) with
      | none => none
      | some gr =>
        match write_cell c1 (INT_add s.2 1) (Cell.byte gr) with
        | none => none
        | some c2 =>
          match read_byte output_texture_data (INT_mul inPixelStart 4) with
          | none => none
          | some b =>
            match write_cell c2 (INT_add (INT_add s.2 1) 1) (Cell.byte b) with
            | none => none
            | some c3 => some (c3, INT_add (INT_add (INT_add s.2 1) 1) 1)

/-- The body of the outer loop of `case 0` of `grabber::save`. -/
def save_rgb_row (output_texture_data : List BYTE) (duplication_width : Nat)
    (output_image_x output_image_y output_image_width : Int) (y : Int)
    (s : List Cell × Int) : Option (List Cell × Int) :=
  for_loop
    (save_rgb_pixel output_texture_data
      (in_row_start output_image_y y duplication_width output_image_x))
    output_image_width.toNat 0 s

/-- The two loops of `case 0` of `grabber::save`, from `out_index = 0`. -/
def save_rgb (output_texture_data : List BYTE) (duplication_width : Nat)
    (output_image_x output_image_y output_image_width output_image_height : Int)
    (cells : List Cell) : Option (List Cell × Int) :=
  for_loop
    (save_rgb_row output_texture_data duplication_width output_image_x output_image_y
      output_image_width)
    output_image_height.toNat 0 (cells, 0)

/-- The body of the innermost loop of `case 1` of `grabber::save`. -/
def save_darknet_pixel (output_texture_data : List BYTE) (row_start : Int) (c : Int) (x : Int)
    (s : List Cell × Int) : Option (List Cell × Int) :=
  let in_index := INT_add (INT_mul (INT_add row_start x) 4) (INT_sub 2 c)
  match read_byte output_texture_data in_index with
  | none => none
  | some v =>
    match write_float s.1 s.2 (sample_value v) with
    | none => none
    | some c1 => some (c1, INT_add s.2 1)

/-- The body of the loop over `y` of `case 1` of `grabber::save`. -/
def save_darknet_row (output_texture_data : List BYTE) (duplication_width : Nat)
    (output_image_x output_image_y output_image_width : Int) (c : Int) (y : Int)
    (s : List Cell × Int) : Option (List Cell × Int) :=
  for_loop
    (save_darknet_pixel output_texture_data
      (in_row_start output_image_y y duplication_width output_image_x) c)
    output_image_width.toNat 0 s

/-- The body of the loop over `c` of `case 1` of `grabber::save`. -/
def save_darknet_plane (output_texture_data : List BYTE) (duplication_width : Nat)
    (output_image_x output_image_y output_image_width output_image_height : Int) (c : Int)
    (s : List Cell × Int) : Option (List Cell × Int) :=
  for_loop
    (save_darknet_row output_texture_data duplication_width output_image_x output_image_y
      output_image_width c)
    output_image_height.toNat 0 s

/-- The three loops of `case 1` of `grabber::save`, from `out_index = 0`. -/
def save_darknet (output_texture_data : List BYTE) (duplication_width : Nat)
    (output_image_x output_image_y output_image_width output_image_height : Int)
    (cells : List Cell) : Option (List Cell × Int) :=
  for_loop
    (save_darknet_plane output_texture_data duplication_width output_image_x output_image_y
      output_image_width output_image_height)
    3 0 (cells, 0)

/-- The `switch (format)` of `grabber::save`, reading the mapped bytes
`output_texture_data`. -/
def grabber.save_switch (m : Machine) (output_texture_data : List BYTE)
    (output_image_x output_image_y output_image_width output_image_height format : Int) :
    Except Fault Machine :=
  if format = 0 then
    match grabber.init_output_image m output_image_width output_image_height 3 with
    | .error f => .error f
    | .ok m1 =>
      match m1.g.output_image with
      | none => .error Fault.undefined_behaviour
      | some img =>
        match save_rgb output_texture_data m1.g.duplication_width output_image_x
            output_image_y output_image_width output_image_height img.cells with
        | none => .error Fault.undefined_behaviour
        | some (cells, _) =>
          .ok { m1 with g := { m1.g with output_image := some (OutputImage.mk img.id cells) } }
  else if format = 1 then
    match grabber.init_output_image m output_image_width output_image_height 12 with
    | .error f => .error f
    | .ok m1 =>
      match m1.g.output_image with
      | none => .error Fault.undefined_behaviour
      | some img =>
        match save_darknet output_texture_data m1.g.duplication_width output_image_x
            output_image_y output_image_width output_image_height img.cells with
        | none => .error Fault.undefined_behaviour
        | some (cells, _) =>
          .ok { m1 with g := { m1.g with output_image := some (OutputImage.mk img.id cells) } }
  else
    match m.g.output_image with
    | some img =>
      .ok { m with g := { m.g with output_image := none, output_image_length := 0 },
                   trace := m.trace ++ [Event.delete_image img.id] }
    | none => .ok { m with g := { m.g with output_image_length := 0 } }

/-- The call `device_context->CopyResource(output_texture, duplication_texture)`:
Direct3D copies the texels when the two textures have the same dimensions. -/
def CopyResource (dst src : Texture2D) : Texture2D :=
  if dst.width = src.width ∧ dst.height = src.height then { dst with bits := src.bits }
  else dst

/-- The method `grabber::save`. -/
def grabber.save (w : World) (m : Machine)
    (output_image_x output_image_y output_image_width output_image_height format : Int) :
    Except Fault (HRESULT × Machine) :=
  let o := w.staging m.n_save
  let m0 : Machine := { m with n_save := m.n_save + 1, trace := m.trace ++ [Event.save format] }
  match grabber.init_output_texture o.create_texture m0 with
  | .error f => .error f
  | .ok (hr, m1) =>
    if FAILED hr then .ok (hr, m1)
    else
      match m1.g.device_context, m1.g.output_texture, m1.g.duplication_texture with
      | some _, some out, some dup =>
        let m2 : Machine :=
          { m1 with g := { m1.g with output_texture := some (CopyResource out dup),
                                     duplication_texture := none } }
        if FAILED o.query_interface then .ok (o.query_interface, m2)
        else if FAILED o.map then .ok (o.map, m2)
        else if FAILED o.unmap then .ok (o.unmap, m2)
        else
          match grabber.save_switch m2 (CopyResource out dup).bits output_image_x
              output_image_y output_image_width output_image_height format with
          | .error f => .error f
          | .ok m3 => .ok (o.unmap, m3)
      | _, _, _ => .error Fault.undefined_behaviour

/-- The method `grabber::cleanup`. -/
def grabber.cleanup (m : Machine) (end_flag : Bool) : Machine :=
  let m0 : Machine := m.log (Event.cleanup end_flag)
  let m1 : Machine :=
    match m0.g.dda_wrapper with
    | some _ =>
      { m0 with g := { m0.g with dda_wrapper := none }, trace := m0.trace ++ [Event.delete_dda] }
    | none => m0
  let m2 : Machine := { m1 with g := { m1.g with duplication_texture := none } }
  if end_flag then
    let m3 : Machine :=
      { m2 with g := { m2.g with output_texture := none, device := none,
                                 device_context := none } }
    match m3.g.output_image with
    | some img =>
      { m3 with g := { m3.g with output_image := none },
                trace := m3.trace ++ [Event.delete_image img.id] }
    | none => m3
  else m2

/-- The constructor `grabber()`: every member has its default initialiser, except
`output_image_length`, which has none and holds whatever was in memory. -/
def grabber.new (uninitialised : Int) : grabber :=
  { dda_wrapper := none, device := none, device_context := none,
    duplication_texture := none, output_texture := none, output_image := none,
    output_image_length := uninitialised, duplication_width := 0, duplication_height := 0 }

/-! ## The exported functions -/

/-- The function `create`, in a fresh process: the new object, or null. -/
def create (w : World) (uninitialised : Int) : Option Machine :=
  let m0 : Machine :=
    { g := grabber.new uninitialised, n_init := 0, n_capture := 0, n_save := 0,
      next_alloc := 0, trace := [], files := [] }
  match grabber.init w m0 with
  | (hr, m1) => if hr ≠ S_OK then none else some m1

/-- The function `release`: the destructor runs `cleanup(true)`. -/
def release (handle : Option Machine) : Option Machine :=
  match handle with
  | none => none
  | some m => some (grabber.cleanup m true)

/-- What `grab` hands back: the returned pointer (with the bytes behind it at
that moment) and the value stored in `*frames`. -/
structure GrabResult where
  data : Option OutputImage
  frames : Int
deriving DecidableEq, Repr

/-- One pass through the body of the `do ... while` of `grab`: `none` when the
body returns `nullptr`, otherwise the value of `accumulated_frames` on reaching
the loop condition. -/
def grab_attempt (w : World) (timeout : Int) (m : Machine) :
    Except Fault (Option Int × Machine) :=
  match grabber.capture w m timeout with
  | .error f => .error f
  | .ok ((hr, accumulated_frames), m1) =>
    if hr = DXGI_ERROR_WAIT_TIMEOUT then .ok (none, m1)
    else if FAILED hr then
      match grabber.init w (grabber.cleanup m1 true) with
      | (hr2, m3) =>
        if FAILED hr2 then .ok (none, m3)
        else
          match grabber.capture w m3 timeout with
          | .error f => .error f
          | .ok ((hr3, accumulated_frames3), m4) =>
            if FAILED hr3 then .ok (none, m4) else .ok (some accumulated_frames3, m4)
    else .ok (some accumulated_frames, m1)

/-- The `do ... while (wait && accumulated_frames <= 0)` of `grab`, allowed at
most `fuel` passes: `none` when a pass returns `nullptr`, otherwise the value of
`accumulated_frames` on leaving the loop. -/
def grab_loop (w : World) (timeout : Int) (wait : Bool) :
    Nat → Machine → Except Fault (Option Int × Machine)
  | 0, _ => .error Fault.out_of_fuel
  | fuel + 1, m =>
    match grab_attempt w timeout m with
    | .error f => .error f
    | .ok (none, m1) => .ok (none, m1)
    | .ok (some accumulated_frames, m1) =>
      if wait ∧ accumulated_frames ≤ 0 then grab_loop w timeout wait fuel m1
      else .ok (some accumulated_frames, m1)

/-- The function `grab`.  The pointer argument `handle` is null (`none`) or is
the object with the process around it. -/
def grab (w : World) (fuel : Nat) (handle : Option Machine)
    (x y width height format timeout : Int) (wait : Bool) :
    Except Fault (GrabResult × Option Machine) :=
  match handle with
  | none => .ok (GrabResult.mk none 0, none)
  | some m =>
    if width ≤ 0 ∨ height ≤ 0 then .ok (GrabResult.mk none 0, some m)
    else
      match grab_loop w timeout wait fuel m with
      | .error f => .error f
      | .ok (none, m1) => .ok (GrabResult.mk none 0, some m1)
      | .ok (some accumulated_frames, m1) =>
        match grabber.save w m1 x y width height format with
        | .error f => .error f
        | .ok (hr, m2) =>
          if FAILED hr then .ok (GrabResult.mk none 0, some m2)
          else .ok (GrabResult.mk m2.g.output_image accumulated_frames, some m2)

/-- The bytes that `fprintf(fp, "P6\n%d %d\n255\n", width, height)` writes. -/
def ppm_header (width height : Int) : List Cell :=
  ("P6\n" ++ toString width ++ " " ++ toString height ++ "\n255\n").toList.map
    (fun c => Cell.byte (Fin.ofNat c.toNat))

/-- The call `fwrite(&data[start], 1, 3, fp)`: three bytes of the image appended
to the file, defined only inside the image. -/
def fwrite3 (data : List Cell) (start : Int) (file : List Cell) : Option (List Cell) :=
  if 0 ≤ start then
    match data.get? start.toNat, data.get? (start.toNat + 1), data.get? (start.toNat + 2) with
    | some a, some b, some c => some (file ++ [a, b, c])
    | _, _, _ => none
  else none

/-- The body of the loop over `row` of the function `save`. -/
def save_file_row (data : List Cell) (width : Int) (row : Int) (file : List Cell) :
    Option (List Cell) :=
  for_loop (fun col f => fwrite3 data (INT_mul 3 (INT_add (INT_mul row width) col)) f)
    width.toNat 0 file

/-- The exported function `save`, which writes a PPM file. -/
def save (w : World) (fuel : Nat) (handle : Option Machine)
    (x y width height format timeout : Int) (filepath : String) :
    Except Fault (Bool × Option Machine) :=
  match grab w fuel handle x y width height format timeout true with
  | .error f => .error f
  | .ok (r, p) =>
    match r.data, p with
    | some data, some m =>
      if format = 0 then
        if w.fopen filepath then
          match for_loop (save_file_row data.cells width) height.toNat 0
              (ppm_header width height) with
          | none => .error Fault.undefined_behaviour
          | some file =>
            .ok (true, some { m with files := (filepath, file) :: m.files,
                                      trace := m.trace ++ [Event.fopen filepath] })
        else .error Fault.undefined_behaviour
      else .ok (false, p)
    | _, _ => .ok (false, p)

/-! ## Definitions used to state the results -/

/-- The block `L` laid over `cs` from position `k`. -/
def splice (cs : List Cell) (k : Nat) (L : List Cell) : List Cell :=
  cs.take k ++ L ++ cs.drop (k + L.length)

/-- The blocks `blk s, blk (s+1), ..., blk (s+n-1)` one after the other. -/
def cat (blk : Int → List Cell) : Nat → Int → List Cell
  | 0, _ => []
  | n + 1, s => blk s ++ cat blk n (s + 1)

/-- The three bytes that `case 0` stores for the source pixel number `p`. -/
def rgb_block (bits : List BYTE) (p : Int) : List Cell :=
  [Cell.byte (bits.getD (p * 4 + 2).toNat 0), Cell.byte (bits.getD (p * 4 + 1).toNat 0),
   Cell.byte (bits.getD (p * 4).toNat 0)]

/-- The bytes that `case 0` stores for `n` pixels of a row starting at source
pixel `rs`. -/
def rgb_row (bits : List BYTE) (rs : Int) (n : Nat) : List Cell :=
  cat (fun x => rgb_block bits (rs + x)) n 0

/-- The bytes that `case 0` stores for `n` rows of `wd` pixels, the first row
being row `oy` of the source. -/
def rgb_image (bits : List BYTE) (W : Nat) (ox oy : Int) (wd n : Nat) : List Cell :=
  cat (fun y => rgb_row bits ((oy + y) * W + ox) wd) n 0

/-- The four bytes that `case 1` stores for channel `c` of the source pixel `p`. -/
def darknet_block (bits : List BYTE) (c p : Int) : List Cell :=
  float_cells (sample_value (bits.getD (p * 4 + (2 - c)).toNat 0))

/-- The bytes that `case 1` stores for channel `c` of `n` pixels of a row
starting at source pixel `rs`. -/
def darknet_row (bits : List BYTE) (c rs : Int) (n : Nat) : List Cell :=
  cat (fun x => darknet_block bits c (rs + x)) n 0

/-- The bytes that `case 1` stores for channel `c`: `n` rows of `wd` pixels. -/
def darknet_plane (bits : List BYTE) (W : Nat) (ox oy : Int) (wd n : Nat) (c : Int) :
    List Cell :=
  cat (fun y => darknet_row bits c ((oy + y) * W + ox) wd) n 0

/-- The bytes that `case 1` stores: the planes of channels `0, 1, 2`. -/
def darknet_image (bits : List BYTE) (W : Nat) (ox oy : Int) (wd ht : Nat) : List Cell :=
  cat (fun c => darknet_plane bits W ox oy wd ht c) 3 0

/-- The recorded length of the output image is the length of its block. -/
def buffer_ok (g : grabber) : Prop :=
  ∀ img, g.output_image = some img → (img.cells.length : Int) = g.output_image_length

/-- Every Direct3D call of a `save` succeeds. -/
def staging_ok (o : StagingOutcome) : Prop :=
  FAILED o.create_texture = false ∧ FAILED o.query_interface = false
    ∧ FAILED o.map = false ∧ FAILED o.unmap = false

/-- The staging texture of the session, if there is one, has the dimensions
`W × H`, and `duplication_width` is `W`. -/
def staging_matches (g : grabber) (W H : Nat) : Prop :=
  ∀ t, g.output_texture = some t → t.width = W ∧ t.height = H ∧ g.duplication_width = W

/-- A frame of 2 × 2 pixels whose sixteen texel bytes are `1, ..., 16`. -/
def frame2x2 : Texture2D :=
  Texture2D.mk 2 2 [1, 2, 3, 4, 5, 6, 7, 8, 9, 10, 11, 12, 13, 14, 15, 16]

/-- A world in which every external call succeeds and every capture delivers
`frame2x2` with one accumulated frame. -/
def healthy_world : World :=
  { D3D11CreateDevice := fun _ _ => DeviceOutcome.mk 0 (some 1) (some 2),
    dda_Init := fun _ => 0,
    GetCapturedFrame := fun _ _ => CaptureOutcome.mk 0 (some frame2x2) 1,
    staging := fun _ => StagingOutcome.mk 0 0 0 0,
    fopen := fun _ => true }

/-- A session right after a successful `init` and a successful `capture` of
`frame2x2`. -/
def captured_machine : Machine :=
  { g := { dda_wrapper := some (DDAImpl.mk (some 1) (some 2)), device := some 1,
           device_context := some 2, duplication_texture := some frame2x2,
           output_texture := none, output_image := none, output_image_length := 0,
           duplication_width := 0, duplication_height := 0 },
    n_init := 1, n_capture := 1, n_save := 0, next_alloc := 0, trace := [], files := [] }

/-- The second machine differs from the first at most in the device, the device
context, the backend, the count of `init` calls and the record of events. -/
def init_frame (m m1 : Machine) : Prop :=
  m1.n_capture = m.n_capture ∧ m1.n_save = m.n_save ∧ m1.next_alloc = m.next_alloc
    ∧ m1.files = m.files ∧ m1.g.output_image = m.g.output_image
    ∧ m1.g.output_image_length = m.g.output_image_length
    ∧ m1.g.output_texture = m.g.output_texture
    ∧ m1.g.duplication_texture = m.g.duplication_texture
    ∧ m1.g.duplication_width = m.g.duplication_width

/-- The second machine has the same backend, device, device context, files and
counts of `init` and `capture` calls as the first. -/
def save_frame (m m1 : Machine) : Prop :=
  m1.n_init = m.n_init ∧ m1.n_capture = m.n_capture ∧ m1.files = m.files
    ∧ m1.g.dda_wrapper = m.g.dda_wrapper ∧ m1.g.device = m.g.device
    ∧ m1.g.device_context = m.g.device_context

/-- What `save` leaves as output image, by format: for the formats 0 and 1 an
image, the recorded length being `w * h * bpp` computed in `INT`; for any other
format no image and the recorded length 0. -/
def output_shape (g : grabber) (wd ht format : Int) : Prop :=
  (format = 0 → g.output_image ≠ none ∧ g.output_image_length = INT_mul (INT_mul wd ht) 3)
  ∧ (format = 1 → g.output_image ≠ none
      ∧ g.output_image_length = INT_mul (INT_mul wd ht) 12)
  ∧ (format ≠ 0 → format ≠ 1 → g.output_image = none ∧ g.output_image_length = 0)

/-- The number of bytes of a pixel of the output image: 3 for format 0, 12
otherwise. -/
def bytes_per_pixel (format : Int) : Int := if format = 0 then 3 else 12

/-- The session after one call of `capture` with the given timeout. -/
def captured (w : World) (timeout : Int) (m : Machine) : Machine :=
  { m with g := { m.g with
             duplication_texture := (w.GetCapturedFrame m.n_capture timeout).texture },
           n_capture := m.n_capture + 1,
           trace := m.trace ++ [Event.capture (w.GetCapturedFrame m.n_capture timeout).hr
             (w.GetCapturedFrame m.n_capture timeout).accumulated_frames] }

/-- The session after the recovery sequence of `grab`: `cleanup()` (the default
argument `true`) followed by `init()`, run after a capture. -/
def recovered (w : World) (timeout : Int) (m : Machine) : HRESULT × Machine :=
  grabber.init w (grabber.cleanup (captured w timeout m) true)

/-- What the loop of `grab` may change in a session: it runs no `save`, writes no
file and allocates nothing; it may only release the output image; and when it
runs no `init` it leaves everything but the captured frame as it was. -/
def pass_frame (m m1 : Machine) : Prop :=
  m1.n_save = m.n_save ∧ m1.files = m.files ∧ m1.next_alloc = m.next_alloc
    ∧ m.n_init ≤ m1.n_init ∧ m.n_capture < m1.n_capture
    ∧ m1.g.output_image_length = m.g.output_image_length
    ∧ (m1.g.output_image = m.g.output_image ∨ m1.g.output_image = none)
    ∧ (m1.n_init = m.n_init →
        m1.g.output_image = m.g.output_image ∧ m1.g.output_texture = m.g.output_texture
          ∧ m1.g.duplication_width = m.g.duplication_width ∧ m1.g.device = m.g.device
          ∧ m1.g.device_context = m.g.device_context
          ∧ m1.g.dda_wrapper = m.g.dda_wrapper)

/-- A capture with which the loop of `grab` ends: it succeeded and, when `wait`
is set, it accumulated at least one frame. -/
def accepted (wait : Bool) (o : CaptureOutcome) : Prop :=
  FAILED o.hr = false ∧ (wait = true → 0 < o.accumulated_frames)

/-- The session is initialised and can convert a captured frame of `W × H`
pixels: it has a backend, a device and a device context, its staging texture (if
any) has these dimensions, and the recorded length of its output image is
right. -/
def usable (g : grabber) (W H : Nat) : Prop :=
  g.dda_wrapper ≠ none ∧ g.device ≠ none ∧ g.device_context ≠ none
    ∧ staging_matches g W H ∧ buffer_ok g

/-- The `k`-th capture (with the given timeout) succeeds and delivers the
`W × H` frame `bits`, addressable with 32-bit indices, with the count `af`. -/
def delivers (w : World) (k : Nat) (t : Int) (W H : Nat) (bits : List BYTE) (af : Int) :
    Prop :=
  FAILED (w.GetCapturedFrame k t).hr = false
    ∧ (w.GetCapturedFrame k t).texture = some (Texture2D.mk W H bits)
    ∧ (w.GetCapturedFrame k t).accumulated_frames = af
    ∧ bits.length = 4 * W * H ∧ bits.length < 2147483648

/-- The region `(x, y, wd, ht)` is not empty and lies inside a frame of `W × H`
pixels. -/
def in_frame (x y wd ht : Int) (W H : Nat) : Prop :=
  0 ≤ x ∧ 0 ≤ y ∧ 0 < wd ∧ 0 < ht ∧ x + wd ≤ W ∧ y + ht ≤ H

/-- The bytes that the conversion of the region of the frame `bits` has to
produce: interleaved R, G, B for format 0, three planes of floats otherwise. -/
def converted (format : Int) (bits : List BYTE) (W : Nat) (x y wd ht : Int) : List Cell :=
  if format = 0 then rgb_image bits W x y wd.toNat ht.toNat
  else darknet_image bits W x y wd.toNat ht.toNat

/-- A world in which every external call succeeds, every `init` makes a new
device, and every capture delivers `frame2x2` with one accumulated frame, except
the capture number 1, which fails with `E_FAIL`. -/
def recovering_world : World :=
  { D3D11CreateDevice := fun n _ => DeviceOutcome.mk 0 (some (2 * n + 1)) (some (2 * n + 2)),
    dda_Init := fun _ => 0,
    GetCapturedFrame := fun k _ =>
      if k = 1 then CaptureOutcome.mk (-2147467259) none 0
      else CaptureOutcome.mk 0 (some frame2x2) 1,
    staging := fun _ => StagingOutcome.mk 0 0 0 0,
    fopen := fun _ => true }

/-- The session that `create` makes in `recovering_world`, after one `grab` of
the whole `frame2x2` with format 0. -/
def grabbed_session : Machine :=
  { g := { dda_wrapper := some (DDAImpl.mk (some 1) (some 2)), device := some 1,
           device_context := some 2, duplication_texture := none,
           output_texture := some frame2x2,
           output_image := some (OutputImage.mk 0
             [Cell.byte 3, Cell.byte 2, Cell.byte 1, Cell.byte 7, Cell.byte 6, Cell.byte 5,
              Cell.byte 11, Cell.byte 10, Cell.byte 9, Cell.byte 15, Cell.byte 14, Cell.byte 13]),
           output_image_length := 12, duplication_width := 2, duplication_height := 2 },
    n_init := 1, n_capture := 1, n_save := 1, next_alloc := 1,
    trace := [Event.init, Event.create_device 0 0, Event.new_dda, Event.dda_init 0,
              Event.capture 0 1, Event.save 0, Event.new_image 0 12],
    files := [] }

/-- A world in which every external call succeeds, except that the captures
number 0 and 2 fail with `E_FAIL`; the capture number 1 delivers a frame with no
accumulated frame, every later one a frame with one accumulated frame. -/
def flaky_world : World :=
  { D3D11CreateDevice := fun n _ => DeviceOutcome.mk 0 (some (2 * n + 1)) (some (2 * n + 2)),
    dda_Init := fun _ => 0,
    GetCapturedFrame := fun k _ =>
      if k = 0 ∨ k = 2 then CaptureOutcome.mk (-2147467259) none 0
      else if k = 1 then CaptureOutcome.mk 0 (some frame2x2) 0
      else CaptureOutcome.mk 0 (some frame2x2) 1,
    staging := fun _ => StagingOutcome.mk 0 0 0 0,
    fopen := fun _ => true }

/-- The session `grabbed_session` after a second `grab` of the whole frame in
`recovering_world`, in which the capture number 1 failed and the recovery
succeeded. -/
def recovered_session : Machine :=
  { g := { dda_wrapper := some (DDAImpl.mk (some 3) (some 4)), device := some 3,
           device_context := some 4, duplication_texture := none,
           output_texture := some frame2x2,
           output_image := some (OutputImage.mk 1
             [Cell.byte 3, Cell.byte 2, Cell.byte 1, Cell.byte 7, Cell.byte 6, Cell.byte 5,
              Cell.byte 11, Cell.byte 10, Cell.byte 9, Cell.byte 15, Cell.byte 14, Cell.byte 13]),
           output_image_length := 12, duplication_width := 2, duplication_height := 2 },
    n_init := 2, n_capture := 3, n_save := 2, next_alloc := 2,
    trace := [Event.init, Event.create_device 0 0, Event.new_dda, Event.dda_init 0,
              Event.capture 0 1, Event.save 0, Event.new_image 0 12,
              Event.capture (-2147467259) 0, Event.cleanup true, Event.delete_dda,
              Event.delete_image 0, Event.init, Event.create_device 0 0, Event.new_dda,
              Event.dda_init 0, Event.capture 0 1, Event.save 0, Event.new_image 1 12],
    files := [] }

/-- A world in which every capture reports `DXGI_ERROR_WAIT_TIMEOUT`. -/
def timeout_world : World :=
  { healthy_world with
    GetCapturedFrame := fun _ _ => CaptureOutcome.mk DXGI_ERROR_WAIT_TIMEOUT none 0 }

/-- A world in which every external call succeeds, every `init` makes a new
device, and every capture delivers `frame2x2` with one accumulated frame, except
the captures number 1 and 2, which fail with `E_FAIL`. -/
def broken_world : World :=
  { D3D11CreateDevice := fun n _ => DeviceOutcome.mk 0 (some (2 * n + 1)) (some (2 * n + 2)),
    dda_Init := fun _ => 0,
    GetCapturedFrame := fun k _ =>
      if k = 1 ∨ k = 2 then CaptureOutcome.mk (-2147467259) none 0
      else CaptureOutcome.mk 0 (some frame2x2) 1,
    staging := fun _ => StagingOutcome.mk 0 0 0 0,
    fopen := fun _ => true }

/-- The sessions that the program can reach in the world `w`: an object fresh
from its constructor, and what `init`, `cleanup`, `capture`, `save`, `grab` and
the exported `save` make of a reachable session when they return. -/
inductive Reachable (w : World) : Machine → Prop
  | fresh (m : Machine) (uninitialised : Int) (h : m.g = grabber.new uninitialised) :
      Reachable w m
  | init (m : Machine) (h : Reachable w m) : Reachable w (grabber.init w m).2
  | cleanup (m : Machine) (end_flag : Bool) (h : Reachable w m) :
      Reachable w (grabber.cleanup m end_flag)
  | capture (m m1 : Machine) (t : Int) (r : HRESULT × Int) (h : Reachable w m)
      (hc : grabber.capture w m t = .ok (r, m1)) : Reachable w m1
  | save (m m1 : Machine) (x y wd ht format : Int) (hr : HRESULT) (h : Reachable w m)
      (hs : grabber.save w m x y wd ht format = .ok (hr, m1)) : Reachable w m1
  | grab (m m1 : Machine) (fuel : Nat) (x y wd ht format t : Int) (wait : Bool)
      (r : GrabResult) (h : Reachable w m)
      (hg : DXGrabber.grab w fuel (some m) x y wd ht format t wait = .ok (r, some m1)) :
      Reachable w m1
  | save_file (m m1 : Machine) (fuel : Nat) (x y wd ht format t : Int) (path : String)
      (b : Bool) (h : Reachable w m)
      (hg : DXGrabber.save w fuel (some m) x y wd ht format t path = .ok (b, some m1)) :
      Reachable w m1

/-- A frame of 2 × 2 pixels whose texel bytes are `101, ..., 116`. -/
def other_frame2x2 : Texture2D :=
  Texture2D.mk 2 2 [101, 102, 103, 104, 105, 106, 107, 108, 109, 110, 111, 112, 113, 114,
    115, 116]

/-- The session that `create` makes in `healthy_world` (and in
`recovering_world`). -/
def created_session : Machine :=
  { g := { dda_wrapper := some (DDAImpl.mk (some 1) (some 2)), device := some 1,
           device_context := some 2, duplication_texture := none, output_texture := none,
           output_image := none, output_image_length := 0, duplication_width := 0,
           duplication_height := 0 },
    n_init := 1, n_capture := 0, n_save := 0, next_alloc := 0,
    trace := [Event.init, Event.create_device 0 0, Event.new_dda, Event.dda_init 0],
    files := [] }

/-- The session `grabbed_session` after a second `grab` of the whole frame with
format 0 in `healthy_world`. -/
def regrabbed_session : Machine :=
  { grabbed_session with
    n_capture := 2, n_save := 2,
    trace := grabbed_session.trace ++ [Event.capture 0 1, Event.save 0] }

/-- The session `grabbed_session` after a second `grab`, of the region of one
pixel at the origin with format 0, in `healthy_world`. -/
def resized_session : Machine :=
  { grabbed_session with
    g := { grabbed_session.g with
      output_image := some (OutputImage.mk 1 [Cell.byte 3, Cell.byte 2, Cell.byte 1]),
      output_image_length := 3 },
    n_capture := 2, n_save := 2, next_alloc := 2,
    trace := grabbed_session.trace ++ [Event.capture 0 1, Event.save 0, Event.delete_image 0,
      Event.new_image 1 3] }

/-- The session `created_session` after a `grab` of the whole `frame2x2` with
format 1 in `healthy_world`: its image holds the twelve floats of the frame. -/
def float_session : Machine :=
  { created_session with
    g := { created_session.g with
      output_texture := some frame2x2,
      output_image := some (OutputImage.mk 0 (converted 1 frame2x2.bits 2 0 0 2 2)),
      output_image_length := 48, duplication_width := 2, duplication_height := 2 },
    n_capture := 1, n_save := 1, next_alloc := 1,
    trace := created_session.trace ++ [Event.capture 0 1, Event.save 1,
      Event.new_image 0 48] }

/-- The session `created_session` after the exported `save` has written the
whole `frame2x2` to `frame.ppm` in `healthy_world`: the file holds the eleven
bytes of `P6\n2 2\n255\n` and the twelve bytes of the image. -/
def written_session : Machine :=
  { grabbed_session with
    files := [("frame.ppm",
      [Cell.byte 80, Cell.byte 54, Cell.byte 10, Cell.byte 50, Cell.byte 32, Cell.byte 50,
       Cell.byte 10, Cell.byte 50, Cell.byte 53, Cell.byte 53, Cell.byte 10,
       Cell.byte 3, Cell.byte 2, Cell.byte 1, Cell.byte 7, Cell.byte 6, Cell.byte 5,
       Cell.byte 11, Cell.byte 10, Cell.byte 9, Cell.byte 15, Cell.byte 14, Cell.byte 13])],
    trace := grabbed_session.trace ++ [Event.fopen "frame.ppm"] }

/-! ## Results -/

theorem toINT_eq (z : Int) (h0 : -2147483648 ≤ z) (h1 : z < 2147483648) : toINT z = z := by
  unfold toINT; omega

theorem toUINT_eq (z : Int) (h0 : 0 ≤ z) (h1 : z < 4294967296) : toUINT z = z := by
  unfold toUINT; omega

theorem INT_add_eq (a b : Int) (h0 : -2147483648 ≤ a + b) (h1 : a + b < 2147483648) :
    INT_add a b = a + b := toINT_eq _ h0 h1

theorem INT_mul_eq (a b : Int) (h0 : -2147483648 ≤ a * b) (h1 : a * b < 2147483648) :
    INT_mul a b = a * b := toINT_eq _ h0 h1

theorem length_splice (cs : List Cell) (k : Nat) (L : List Cell) (h : k + L.length ≤ cs.length) :
    (splice cs k L).length = cs.length := by
  simp [splice]; omega

theorem splice_nil (cs : List Cell) (k : Nat) : splice cs k [] = cs := by
  simp [splice]

theorem splice_splice (cs : List Cell) (k : Nat) (A B : List Cell)
    (h : k + A.length + B.length ≤ cs.length) :
    splice (splice cs k A) (k + A.length) B = splice cs k (A ++ B) := by
  apply List.ext_get?
  intro n
  simp only [splice, List.get?_eq_getElem?, List.getElem?_append, List.length_append,
    List.length_take, List.length_drop, List.getElem?_take, List.getElem?_drop]
  have h1 : min k cs.length = k := by omega
  simp only [h1]
  split_ifs <;> first | rfl | omega | (congr 1; omega)

theorem length_cat (blk : Int → List Cell) (d : Nat) :
    ∀ (n : Nat) (s : Int), (∀ i : Nat, i < n → (blk (s + i)).length = d) →
      (cat blk n s).length = n * d
  | 0, _, _ => by simp [cat]
  | n + 1, s, h => by
    have h0 := h 0 (by omega)
    have ih := length_cat blk d n (s + 1) (fun i hi => by
      have := h (i + 1) (by omega)
      rwa [show s + 1 + (i : Int) = s + ((i + 1 : Nat) : Int) by push_cast; ring])
    simp only [cat, List.length_append, ih]
    simp at h0
    rw [h0]; ring

theorem get?_cat (blk : Int → List Cell) (d : Nat) :
    ∀ (n : Nat) (s : Int), (∀ i : Nat, i < n → (blk (s + i)).length = d) →
      ∀ i j : Nat, i < n → j < d → (cat blk n s).get? (i * d + j) = (blk (s + i)).get? j
  | 0, _, _ => by intro i j hi; omega
  | n + 1, s, h => by
    intro i j hi hj
    have h0 := h 0 (by omega)
    simp at h0
    cases i with
    | zero =>
      simp only [cat, Nat.zero_mul, Nat.zero_add, List.get?_eq_getElem?]
      rw [List.getElem?_append_left (by omega)]
      simp
    | succ i =>
      have ih := get?_cat blk d n (s + 1) (fun i hi => by
        have := h (i + 1) (by omega)
        rwa [show s + 1 + (i : Int) = s + ((i + 1 : Nat) : Int) by push_cast; ring]) i j
          (by omega) hj
      simp only [cat, List.get?_eq_getElem?] at ih ⊢
      rw [List.getElem?_append_right (by rw [h0]; nlinarith)]
      have e3 : (i + 1) * d + j - (blk s).length = i * d + j := by
        have : (i + 1) * d = i * d + d := by ring
        omega
      rw [e3, ih, show s + 1 + (i : Int) = s + ((i + 1 : Nat) : Int) by push_cast; ring]

/-- A loop whose `i`-th pass lays the block `blk i` (of `u * d` cells) at cell
`u * k` and advances the index `k` by `d` lays all the blocks in order. -/
theorem for_loop_blocks (body : Int → List Cell × Int → Option (List Cell × Int))
    (blk : Int → List Cell) (u d : Nat) :
    ∀ (n : Nat) (s : Int) (cs : List Cell) (k : Int), 0 ≤ k →
      (∀ i : Nat, i < n → (blk (s + i)).length = u * d) →
      (∀ i : Nat, i < n → ∀ (cs1 : List Cell) (k1 : Int), 0 ≤ k1 → cs1.length = cs.length →
        u * (k1.toNat + d) ≤ cs1.length →
        body (s + i) (cs1, k1) = some (splice cs1 (u * k1.toNat) (blk (s + i)), k1 + d)) →
      u * (k.toNat + n * d) ≤ cs.length →
      for_loop body n s (cs, k)
        = some (splice cs (u * k.toNat) (cat blk n s), k + (n * d : Nat))
  | 0, s, cs, k, _, _, _, _ => by simp [for_loop, cat, splice_nil]
  | n + 1, s, cs, k, hk, hlen, hbody, hfit => by
    have hl0 := hlen 0 (by omega)
    simp only [Nat.cast_zero, add_zero] at hl0
    have hb0 := hbody 0 (by omega) cs k hk rfl (by
      have : u * (k.toNat + d) ≤ u * (k.toNat + (n + 1) * d) :=
        Nat.mul_le_mul_left _ (by nlinarith)
      omega)
    simp only [Nat.cast_zero, add_zero] at hb0
    have hfit2 : u * k.toNat + u * d + u * (n * d) ≤ cs.length := by
      have : u * (k.toNat + (n + 1) * d) = u * k.toNat + u * d + u * (n * d) := by ring
      omega
    have hls : (splice cs (u * k.toNat) (blk s)).length = cs.length :=
      length_splice _ _ _ (by rw [hl0]; omega)
    have hkd : (k + (d : Int)).toNat = k.toNat + d := by omega
    have ih := for_loop_blocks body blk u d n (s + 1) (splice cs (u * k.toNat) (blk s))
      (k + d) (by omega)
      (fun i hi => by
        have := hlen (i + 1) (by omega)
        rwa [show s + 1 + (i : Int) = s + ((i + 1 : Nat) : Int) by push_cast; ring])
      (fun i hi cs1 k1 hk1 hc hf => by
        have := hbody (i + 1) (by omega) cs1 k1 hk1 (by rw [hc, hls]) hf
        rwa [show s + 1 + (i : Int) = s + ((i + 1 : Nat) : Int) by push_cast; ring])
      (by rw [hls, hkd]
          have : u * (k.toNat + d + n * d) = u * k.toNat + u * d + u * (n * d) := by ring
          omega)
    rw [for_loop, hb0]
    simp only []
    rw [ih, hkd]
    have hcl := length_cat blk (u * d) n (s + 1) (fun i hi => by
        have := hlen (i + 1) (by omega)
        rwa [show s + 1 + (i : Int) = s + ((i + 1 : Nat) : Int) by push_cast; ring])
    have e2 : u * (k.toNat + d) = u * k.toNat + (blk s).length := by rw [hl0]; ring
    have e4 : n * (u * d) = u * (n * d) := by ring
    rw [e2, splice_splice _ _ _ _ (by rw [hl0, hcl]; omega)]
    have e5 : k + (d : Int) + ((n * d : Nat) : Int) = k + (((n + 1) * d : Nat) : Int) := by
      push_cast; ring
    rw [e5]
    rfl

theorem read_byte_eq (bits : List BYTE) (i : Int) (h0 : 0 ≤ i) (h : i.toNat < bits.length) :
    read_byte bits i = some (bits.getD i.toNat 0) := by
  rw [read_byte, if_pos h0]
  simp [List.getD, List.getElem?_eq_getElem h]

theorem write_cell_eq (cs : List Cell) (k : Int) (c : Cell) (h0 : 0 ≤ k)
    (h : k.toNat < cs.length) :
    write_cell cs k c = some (splice cs k.toNat [c]) := by
  have h1 : 0 ≤ k ∧ k < (cs.length : Int) := by omega
  rw [write_cell, if_pos h1, splice]
  simp [List.set_eq_take_append_cons_drop, h]

theorem save_rgb_pixel_eq (bits : List BYTE) (rs x : Int) (cs : List Cell) (k : Int)
    (hrs : 0 ≤ rs) (hx : 0 ≤ x) (hk0 : 0 ≤ k)
    (hb : (rs + x) * 4 + 3 ≤ bits.length) (hbl : bits.length < 2147483648)
    (hk : k.toNat + 3 ≤ cs.length) (hcl : cs.length < 2147483648) :
    save_rgb_pixel bits rs x (cs, k)
      = some (splice cs k.toNat (rgb_block bits (rs + x)), k + (3 : Nat)) := by
  rw [save_rgb_pixel]
  simp only []
  rw [INT_add_eq rs x (by omega) (by omega), INT_mul_eq (rs + x) 4 (by omega) (by omega),
    INT_add_eq ((rs + x) * 4) 2 (by omega) (by omega),
    INT_add_eq ((rs + x) * 4) 1 (by omega) (by omega),
    INT_add_eq k 1 (by omega) (by omega), INT_add_eq (k + 1) 1 (by omega) (by omega),
    INT_add_eq (k + 1 + 1) 1 (by omega) (by omega)]
  rw [read_byte_eq _ _ (by omega) (by omega), read_byte_eq _ _ (by omega) (by omega),
    read_byte_eq _ _ (by omega) (by omega)]
  simp only []
  rw [write_cell_eq _ _ _ (by omega) (by omega)]
  simp only []
  have l1 : (splice cs k.toNat [Cell.byte (bits.getD ((rs + x) * 4 + 2).toNat 0)]).length
      = cs.length := length_splice _ _ _ (by simp; omega)
  rw [write_cell_eq _ _ _ (by omega) (by rw [l1]; omega)]
  simp only []
  have s1 := splice_splice cs k.toNat [Cell.byte (bits.getD ((rs + x) * 4 + 2).toNat 0)]
    [Cell.byte (bits.getD ((rs + x) * 4 + 1).toNat 0)] (by simp; omega)
  simp only [List.length_singleton] at s1
  have t1 : (k + 1).toNat = k.toNat + 1 := by omega
  rw [t1, s1]
  have l2 : (splice cs k.toNat ([Cell.byte (bits.getD ((rs + x) * 4 + 2).toNat 0)] ++
      [Cell.byte (bits.getD ((rs + x) * 4 + 1).toNat 0)])).length = cs.length :=
    length_splice _ _ _ (by simp; omega)
  rw [write_cell_eq _ _ _ (by omega) (by rw [l2]; omega)]
  have s2 := splice_splice cs k.toNat ([Cell.byte (bits.getD ((rs + x) * 4 + 2).toNat 0)] ++
      [Cell.byte (bits.getD ((rs + x) * 4 + 1).toNat 0)])
    [Cell.byte (bits.getD ((rs + x) * 4).toNat 0)] (by simp; omega)
  simp only [List.length_append, List.length_singleton] at s2
  have t2 : (k + 1 + 1).toNat = k.toNat + 1 + 1 := by omega
  rw [t2, s2]
  have e5 : k + 1 + 1 + 1 = k + ((3 : Nat) : Int) := by push_cast; ring
  rw [e5]
  rfl

theorem in_row_start_eq (oy y ox : Int) (W : Nat) (hoy : 0 ≤ oy) (hy : 0 ≤ y) (hox : 0 ≤ ox)
    (h : (oy + y) * W + ox < 2147483648) (hW : 0 < W) :
    in_row_start oy y W ox = (oy + y) * W + ox := by
  have h1 : oy + y ≤ (oy + y) * W := by
    have : (1 : Int) ≤ W := by exact_mod_cast hW
    nlinarith
  have h3 : (0 : Int) ≤ (oy + y) * W := by positivity
  rw [in_row_start, INT_add_eq _ _ (by omega) (by omega), toUINT_eq (oy + y) (by omega) (by omega),
    UINT_mul, toUINT_eq _ h3 (by omega), toUINT_eq ox (by omega) (by omega), UINT_add,
    toUINT_eq _ (by omega) (by omega), toINT_eq _ (by omega) (by omega)]

theorem length_rgb_row (bits : List BYTE) (rs : Int) (n : Nat) :
    (rgb_row bits rs n).length = n * 3 :=
  length_cat _ 3 n 0 (fun _ _ => rfl)

theorem save_rgb_row_eq (bits : List BYTE) (W : Nat) (ox oy wd y : Int) (cs : List Cell)
    (k : Int) (hW : 0 < W) (hox : 0 ≤ ox) (hoy : 0 ≤ oy) (hwd : 0 ≤ wd) (hy : 0 ≤ y)
    (hk0 : 0 ≤ k)
    (hb : ((oy + y) * W + ox + wd) * 4 ≤ bits.length) (hbl : bits.length < 2147483648)
    (hk : k.toNat + wd.toNat * 3 ≤ cs.length) (hcl : cs.length < 2147483648) :
    save_rgb_row bits W ox oy wd y (cs, k)
      = some (splice cs k.toNat (rgb_row bits ((oy + y) * W + ox) wd.toNat),
          k + (wd.toNat * 3 : Nat)) := by
  have h3 : (0 : Int) ≤ (oy + y) * W := by positivity
  rw [save_rgb_row, in_row_start_eq oy y ox W hoy hy hox (by omega) hW]
  have := for_loop_blocks (save_rgb_pixel bits ((oy + y) * W + ox))
    (fun x => rgb_block bits ((oy + y) * W + ox + x)) 1 3 wd.toNat 0 cs k hk0 (fun _ _ => rfl)
    (fun i hi cs1 k1 hk1 hc hf => by
      simp only [Nat.one_mul, zero_add] at hf ⊢
      exact save_rgb_pixel_eq bits _ i cs1 k1 (by omega) (by omega) hk1 (by omega) hbl hf
        (by omega))
    (by omega)
  simp only [Nat.one_mul] at this
  exact this

theorem length_rgb_image (bits : List BYTE) (W : Nat) (ox oy : Int) (wd n : Nat) :
    (rgb_image bits W ox oy wd n).length = n * (wd * 3) :=
  length_cat _ (wd * 3) n 0 (fun _ _ => length_rgb_row _ _ _)

theorem save_rgb_eq (bits : List BYTE) (W H : Nat) (ox oy wd ht : Int) (cs : List Cell)
    (hox : 0 ≤ ox) (hoy : 0 ≤ oy) (hw : 0 < wd)
    (hx : ox + wd ≤ W) (hy : oy + ht ≤ H)
    (hb : bits.length = 4 * W * H) (hbl : bits.length < 2147483648)
    (hc : cs.length = ht.toNat * (wd.toNat * 3)) :
    save_rgb bits W ox oy wd ht cs
      = some (rgb_image bits W ox oy wd.toNat ht.toNat,
          0 + ((ht.toNat * (wd.toNat * 3) : Nat) : Int)) := by
  have hW : 0 < W := by omega
  have hle : ht.toNat * wd.toNat ≤ H * W := Nat.mul_le_mul (by omega) (by omega)
  have hcl : cs.length < 2147483648 := by
    have e1 : 4 * W * H = 4 * (H * W) := by ring
    have e2 : ht.toNat * (wd.toNat * 3) = 3 * (ht.toNat * wd.toNat) := by ring
    omega
  have hrow : ∀ i : Nat, i < ht.toNat →
      ((oy + (0 + (i : Int))) * W + ox + wd) * 4 ≤ bits.length := by
    intro i hi
    have h0 : oy + (i : Int) + 1 ≤ H := by omega
    have h1 : (oy + (i : Int) + 1) * W ≤ (H : Int) * W :=
      Int.mul_le_mul_of_nonneg_right h0 (by omega)
    have h2 : (oy + (i : Int) + 1) * W = (oy + i) * W + W := by ring
    have h3 : ((4 * W * H : Nat) : Int) = 4 * ((H : Int) * W) := by push_cast; ring
    have h4 : (bits.length : Int) = 4 * ((H : Int) * W) := by rw [hb, h3]
    rw [zero_add]
    omega
  have := for_loop_blocks (save_rgb_row bits W ox oy wd)
    (fun y => rgb_row bits ((oy + y) * W + ox) wd.toNat) 1 (wd.toNat * 3) ht.toNat 0 cs 0
    (le_refl 0)
    (fun i _ => by simp [length_rgb_row])
    (fun i hi cs1 k1 hk1 hc1 hf => by
      simp only [Nat.one_mul] at hf ⊢
      exact save_rgb_row_eq bits W ox oy wd _ cs1 k1 hW hox hoy (by omega) (by omega) hk1
        (hrow i hi) hbl hf (by omega))
    (by simp only [Nat.one_mul, Int.toNat_zero, Nat.zero_add]; omega)
  rw [save_rgb, this]
  have hl : (cat (fun y : Int => rgb_row bits ((oy + y) * W + ox) wd.toNat) ht.toNat 0).length
      = cs.length := by
    rw [length_cat _ (wd.toNat * 3) ht.toNat 0 (fun i _ => by simp [length_rgb_row]), hc]
  have hs : splice cs (1 * (0 : Int).toNat)
      (cat (fun y : Int => rgb_row bits ((oy + y) * W + ox) wd.toNat) ht.toNat 0)
      = rgb_image bits W ox oy wd.toNat ht.toNat := by
    rw [splice, hl]
    simp [rgb_image]
  rw [hs]

theorem get?_rgb_image (bits : List BYTE) (W : Nat) (ox oy : Int) (wd ht r c k : Nat)
    (hr : r < ht) (hc : c < wd) (hk : k < 3) :
    (rgb_image bits W ox oy wd ht).get? (3 * (r * wd + c) + k)
      = (rgb_block bits ((oy + (r : Int)) * W + ox + (c : Int))).get? k := by
  have e : 3 * (r * wd + c) + k = r * (wd * 3) + (c * 3 + k) := by ring
  have hj : c * 3 + k < wd * 3 := by omega
  rw [e, rgb_image,
    get?_cat _ (wd * 3) ht 0 (fun i _ => by simp [length_rgb_row]) r (c * 3 + k) hr hj]
  simp only [zero_add]
  rw [rgb_row, get?_cat (fun x : Int => rgb_block bits ((oy + (r : Int)) * W + ox + x)) 3 wd 0
    (fun _ _ => rfl) c k hc hk]
  simp only [zero_add]

theorem write_float_eq (cs : List Cell) (k : Int) (b : ℚ) (h0 : 0 ≤ k)
    (h : 4 * (k.toNat + 1) ≤ cs.length) :
    write_float cs k b = some (splice cs (4 * k.toNat) (float_cells b)) := by
  have t0 : (4 * k).toNat = 4 * k.toNat := by omega
  have t1 : (4 * k + 1).toNat = 4 * k.toNat + 1 := by omega
  have t2 : (4 * k + 2).toNat = 4 * k.toNat + 1 + 1 := by omega
  have t3 : (4 * k + 3).toNat = 4 * k.toNat + 1 + 1 + 1 := by omega
  rw [write_float, write_cell_eq _ _ _ (by omega) (by omega)]
  simp only []
  have l1 : (splice cs (4 * k).toNat [Cell.float_part b 0]).length = cs.length :=
    length_splice _ _ _ (by simp; omega)
  rw [write_cell_eq _ _ _ (by omega) (by rw [l1]; omega)]
  simp only []
  have s1 := splice_splice cs (4 * k.toNat) [Cell.float_part b 0] [Cell.float_part b 1]
    (by simp; omega)
  simp only [List.length_singleton] at s1
  rw [t0, t1, s1]
  have l2 : (splice cs (4 * k.toNat) ([Cell.float_part b 0] ++ [Cell.float_part b 1])).length
      = cs.length := length_splice _ _ _ (by simp; omega)
  rw [write_cell_eq _ _ _ (by omega) (by rw [l2]; omega)]
  simp only []
  have s2 := splice_splice cs (4 * k.toNat) ([Cell.float_part b 0] ++ [Cell.float_part b 1])
    [Cell.float_part b 2] (by simp; omega)
  simp only [List.length_append, List.length_singleton] at s2
  rw [t2, s2]
  have l3 : (splice cs (4 * k.toNat) ([Cell.float_part b 0] ++ [Cell.float_part b 1]
      ++ [Cell.float_part b 2])).length = cs.length := length_splice _ _ _ (by simp; omega)
  rw [write_cell_eq _ _ _ (by omega) (by rw [l3]; omega)]
  have s3 := splice_splice cs (4 * k.toNat) ([Cell.float_part b 0] ++ [Cell.float_part b 1]
      ++ [Cell.float_part b 2]) [Cell.float_part b 3] (by simp; omega)
  simp only [List.length_append, List.length_singleton] at s3
  rw [t3, s3]
  rfl

theorem save_darknet_pixel_eq (bits : List BYTE) (rs c x : Int) (cs : List Cell) (k : Int)
    (hrs : 0 ≤ rs) (hx : 0 ≤ x) (hk0 : 0 ≤ k) (hc0 : 0 ≤ c) (hc : c ≤ 2)
    (hb : (rs + x) * 4 + 3 ≤ bits.length) (hbl : bits.length < 2147483648)
    (hk : 4 * (k.toNat + 1) ≤ cs.length) (hcl : cs.length < 2147483648) :
    save_darknet_pixel bits rs c x (cs, k)
      = some (splice cs (4 * k.toNat) (darknet_block bits c (rs + x)), k + (1 : Nat)) := by
  rw [save_darknet_pixel]
  simp only []
  rw [INT_add_eq rs x (by omega) (by omega), INT_mul_eq (rs + x) 4 (by omega) (by omega),
    INT_sub, toINT_eq (2 - c) (by omega) (by omega),
    INT_add_eq ((rs + x) * 4) (2 - c) (by omega) (by omega),
    INT_add_eq k 1 (by omega) (by omega),
    read_byte_eq _ _ (by omega) (by omega)]
  simp only []
  rw [write_float_eq _ _ _ hk0 hk]
  rfl

theorem length_darknet_block (bits : List BYTE) (c p : Int) :
    (darknet_block bits c p).length = 4 * 1 := rfl

theorem length_darknet_row (bits : List BYTE) (c rs : Int) (n : Nat) :
    (darknet_row bits c rs n).length = 4 * n := by
  rw [darknet_row, length_cat (fun x : Int => darknet_block bits c (rs + x)) 4 n 0
    (fun _ _ => rfl)]; ring

theorem save_darknet_row_eq (bits : List BYTE) (W : Nat) (ox oy wd c y : Int)
    (cs : List Cell) (k : Int) (hW : 0 < W) (hox : 0 ≤ ox) (hoy : 0 ≤ oy) (hwd : 0 ≤ wd)
    (hy : 0 ≤ y) (hk0 : 0 ≤ k) (hc0 : 0 ≤ c) (hc : c ≤ 2)
    (hb : ((oy + y) * W + ox + wd) * 4 ≤ bits.length) (hbl : bits.length < 2147483648)
    (hk : 4 * (k.toNat + wd.toNat) ≤ cs.length) (hcl : cs.length < 2147483648) :
    save_darknet_row bits W ox oy wd c y (cs, k)
      = some (splice cs (4 * k.toNat) (darknet_row bits c ((oy + y) * W + ox) wd.toNat),
          k + (wd.toNat : Int)) := by
  have h3 : (0 : Int) ≤ (oy + y) * W := by positivity
  rw [save_darknet_row, in_row_start_eq oy y ox W hoy hy hox (by omega) hW]
  have := for_loop_blocks (save_darknet_pixel bits ((oy + y) * W + ox) c)
    (fun x => darknet_block bits c ((oy + y) * W + ox + x)) 4 1 wd.toNat 0 cs k hk0
    (fun _ _ => rfl)
    (fun i hi cs1 k1 hk1 hc1 hf => by
      simp only [zero_add] at hf ⊢
      exact save_darknet_pixel_eq bits _ c i cs1 k1 (by omega) (by omega) hk1 hc0 hc
        (by omega) hbl hf (by omega))
    (by omega)
  simp only [Nat.mul_one] at this
  exact this

theorem length_darknet_plane (bits : List BYTE) (W : Nat) (ox oy : Int) (wd n : Nat) (c : Int) :
    (darknet_plane bits W ox oy wd n c).length = 4 * (n * wd) := by
  rw [darknet_plane, length_cat _ (4 * wd) n 0 (fun _ _ => length_darknet_row _ _ _ _)]; ring

theorem save_darknet_plane_eq (bits : List BYTE) (W H : Nat) (ox oy wd ht c : Int)
    (cs : List Cell) (k : Int) (hox : 0 ≤ ox) (hoy : 0 ≤ oy) (hw : 0 < wd)
    (hx : ox + wd ≤ W) (hy : oy + ht ≤ H) (hk0 : 0 ≤ k) (hc0 : 0 ≤ c) (hc : c ≤ 2)
    (hb : bits.length = 4 * W * H) (hbl : bits.length < 2147483648)
    (hk : 4 * (k.toNat + ht.toNat * wd.toNat) ≤ cs.length) (hcl : cs.length < 2147483648) :
    save_darknet_plane bits W ox oy wd ht c (cs, k)
      = some (splice cs (4 * k.toNat) (darknet_plane bits W ox oy wd.toNat ht.toNat c),
          k + ((ht.toNat * wd.toNat : Nat) : Int)) := by
  have hW : 0 < W := by omega
  have hrow : ∀ i : Nat, i < ht.toNat →
      ((oy + (0 + (i : Int))) * W + ox + wd) * 4 ≤ bits.length := by
    intro i hi
    have h0 : oy + (i : Int) + 1 ≤ H := by omega
    have h1 : (oy + (i : Int) + 1) * W ≤ (H : Int) * W :=
      Int.mul_le_mul_of_nonneg_right h0 (by omega)
    have h2 : (oy + (i : Int) + 1) * W = (oy + i) * W + W := by ring
    have h3 : ((4 * W * H : Nat) : Int) = 4 * ((H : Int) * W) := by push_cast; ring
    have h4 : (bits.length : Int) = 4 * ((H : Int) * W) := by rw [hb, h3]
    rw [zero_add]
    omega
  rw [save_darknet_plane]
  exact for_loop_blocks (save_darknet_row bits W ox oy wd c)
    (fun y => darknet_row bits c ((oy + y) * W + ox) wd.toNat) 4 wd.toNat ht.toNat 0 cs k hk0
    (fun i _ => length_darknet_row _ _ _ _)
    (fun i hi cs1 k1 hk1 hc1 hf => by
      exact save_darknet_row_eq bits W ox oy wd c _ cs1 k1 hW hox hoy (by omega) (by omega)
        hk1 hc0 hc (hrow i hi) hbl hf (by omega))
    hk

theorem save_darknet_eq (bits : List BYTE) (W H : Nat) (ox oy wd ht : Int) (cs : List Cell)
    (hox : 0 ≤ ox) (hoy : 0 ≤ oy) (hw : 0 < wd)
    (hx : ox + wd ≤ W) (hy : oy + ht ≤ H)
    (hb : bits.length = 4 * W * H) (hbl : bits.length < 2147483648)
    (hc : cs.length = 4 * (3 * (ht.toNat * wd.toNat))) (hcl : cs.length < 2147483648) :
    save_darknet bits W ox oy wd ht cs
      = some (darknet_image bits W ox oy wd.toNat ht.toNat,
          0 + ((3 * (ht.toNat * wd.toNat) : Nat) : Int)) := by
  have := for_loop_blocks (save_darknet_plane bits W ox oy wd ht)
    (fun c => darknet_plane bits W ox oy wd.toNat ht.toNat c) 4 (ht.toNat * wd.toNat) 3 0 cs 0
    (le_refl 0)
    (fun i _ => length_darknet_plane _ _ _ _ _ _ _)
    (fun i hi cs1 k1 hk1 hc1 hf => by
      exact save_darknet_plane_eq bits W H ox oy wd ht _ cs1 k1 hox hoy hw hx hy hk1
        (by omega) (by omega) hb hbl hf (by omega))
    (by simp only [Int.toNat_zero, Nat.zero_add]; omega)
  rw [save_darknet, this]
  have hl : (cat (fun c : Int => darknet_plane bits W ox oy wd.toNat ht.toNat c) 3 0).length
      = cs.length := by
    rw [length_cat _ (4 * (ht.toNat * wd.toNat)) 3 0
      (fun i _ => length_darknet_plane _ _ _ _ _ _ _), hc]
    ring
  have hs : splice cs (4 * (0 : Int).toNat)
      (cat (fun c : Int => darknet_plane bits W ox oy wd.toNat ht.toNat c) 3 0)
      = darknet_image bits W ox oy wd.toNat ht.toNat := by
    rw [splice, hl]
    simp [darknet_image]
  rw [hs]

theorem init_output_image_spec (m : Machine) (wd ht bpp : Int) (hinv : buffer_ok m.g)
    (h0 : 0 ≤ wd * ht) (h1 : wd * ht < 2147483648)
    (h2 : 0 ≤ wd * ht * bpp) (h3 : wd * ht * bpp < 2147483648) :
    ∃ img na tr,
      grabber.init_output_image m wd ht bpp
        = .ok { m with g := { m.g with output_image := some img,
                                       output_image_length := wd * ht * bpp },
                       next_alloc := na, trace := tr }
      ∧ img.cells.length = (wd * ht * bpp).toNat := by
  have e1 : INT_mul (INT_mul wd ht) bpp = wd * ht * bpp := by
    rw [INT_mul_eq wd ht (by omega) (by omega), INT_mul_eq _ _ (by omega) (by omega)]
  obtain ⟨g, ni, nc, ns, na, tr, fs⟩ := m
  obtain ⟨dda, dev, ctx, dup, otex, oimg, olen, dw, dh⟩ := g
  rw [grabber.init_output_image, e1]
  cases oimg with
  | none =>
    simp only []
    rw [if_neg (by omega)]
    exact ⟨_, _, _, rfl, by simp⟩
  | some img =>
    by_cases hl : olen = wd * ht * bpp
    · simp only [hl, ne_eq, not_true_eq_false, if_false]
      refine ⟨img, na, tr, ?_, ?_⟩
      · rfl
      · have := hinv img rfl
        simp only [] at this
        omega
    · simp only [ne_eq, hl, not_false_eq_true, if_true]
      rw [if_neg (by omega)]
      exact ⟨_, _, _, rfl, by simp⟩

theorem save_prefix (w : World) (m : Machine) (x y wd ht format : Int) (W H : Nat)
    (bits : List BYTE)
    (hdev : m.g.device ≠ none) (hctx : m.g.device_context ≠ none)
    (hdup : m.g.duplication_texture = some (Texture2D.mk W H bits))
    (htex : staging_matches m.g W H)
    (hst : staging_ok (w.staging m.n_save)) :
    ∃ dh,
      grabber.save w m x y wd ht format =
        match grabber.save_switch
          { m with g := { m.g with duplication_texture := none,
                                   output_texture := some (Texture2D.mk W H bits),
                                   duplication_width := W, duplication_height := dh },
                   n_save := m.n_save + 1, trace := m.trace ++ [Event.save format] }
          bits x y wd ht format with
        | .error f => .error f
        | .ok m3 => .ok ((w.staging m.n_save).unmap, m3) := by
  obtain ⟨g, ni, nc, ns, na, tr, fs⟩ := m
  obtain ⟨dda, dev, ctx, dup, otex, oimg, olen, dw, dh⟩ := g
  obtain ⟨h1, h2, h3, h4⟩ := hst
  simp only [FAILED, decide_eq_false_iff_not, not_lt] at hdev hctx hdup htex h1 h2 h3 h4
  obtain ⟨d, rfl⟩ := Option.ne_none_iff_exists'.mp hdev
  obtain ⟨c, rfl⟩ := Option.ne_none_iff_exists'.mp hctx
  subst hdup
  cases otex with
  | none =>
    refine ⟨H, ?_⟩
    simp [grabber.save, grabber.init_output_texture, SUCCEEDED, FAILED, CopyResource, h1, h2, h3, h4,
      not_lt.mpr h1, not_lt.mpr h2, not_lt.mpr h3, not_lt.mpr h4]
    try (generalize grabber.save_switch _ _ _ _ _ _ _ = r; cases r <;> rfl)
  | some t =>
    obtain ⟨tw, th, tb⟩ := t
    obtain ⟨e1, e2, e3⟩ := htex _ rfl
    simp only [] at e1 e2 e3
    subst e1 e2 e3
    refine ⟨dh, ?_⟩
    simp [grabber.save, grabber.init_output_texture, SUCCEEDED, FAILED, CopyResource, S_OK, h1, h2, h3,
      h4, not_lt.mpr h1, not_lt.mpr h2, not_lt.mpr h3, not_lt.mpr h4]
    try (generalize grabber.save_switch _ _ _ _ _ _ _ = r; cases r <;> rfl)

theorem toNat_area (wd ht : Int) (c : Nat) (hw : 0 ≤ wd) (hh : 0 ≤ ht) :
    (wd * ht * (c : Int)).toNat = ht.toNat * (wd.toNat * c) := by
  obtain ⟨a, rfl⟩ := Int.eq_ofNat_of_zero_le hw
  obtain ⟨b, rfl⟩ := Int.eq_ofNat_of_zero_le hh
  have e : ((a : Int) * (b : Int) * (c : Int)) = ((b * (a * c) : Nat) : Int) := by
    push_cast; ring
  rw [e, Int.toNat_ofNat, Int.toNat_ofNat, Int.toNat_ofNat]

theorem area_le (wd ht ox oy : Int) (W H : Nat) (hox : 0 ≤ ox) (hoy : 0 ≤ oy) (hw : 0 < wd)
    (hh : 0 < ht) (hx : ox + wd ≤ W) (hy : oy + ht ≤ H) :
    0 ≤ wd * ht ∧ wd * ht ≤ (W : Int) * H := by
  constructor
  · positivity
  · exact Int.mul_le_mul (by omega) (by omega) (by omega) (by omega)

theorem save_switch_rgb (m : Machine) (bits : List BYTE) (x y wd ht : Int) (W H : Nat)
    (hdw : m.g.duplication_width = W) (hinv : buffer_ok m.g)
    (hox : 0 ≤ x) (hoy : 0 ≤ y) (hw : 0 < wd) (hh : 0 < ht)
    (hx : x + wd ≤ W) (hy : y + ht ≤ H)
    (hb : bits.length = 4 * W * H) (hbl : bits.length < 2147483648) :
    ∃ id na tr,
      grabber.save_switch m bits x y wd ht 0
        = .ok { m with g := { m.g with
                  output_image := some (OutputImage.mk id
                    (rgb_image bits W x y wd.toNat ht.toNat)),
                  output_image_length := wd * ht * 3 },
                       next_alloc := na, trace := tr } := by
  obtain ⟨ha0, ha1⟩ := area_le wd ht x y W H hox hoy hw hh hx hy
  have hWH : ((4 * W * H : Nat) : Int) = 4 * ((W : Int) * H) := by push_cast; ring
  have hbi : (bits.length : Int) = 4 * ((W : Int) * H) := by rw [hb, hWH]
  obtain ⟨img, na, tr, h1, h2⟩ := init_output_image_spec m wd ht 3 hinv ha0 (by omega)
    (by omega) (by omega)
  have h3 : img.cells.length = ht.toNat * (wd.toNat * 3) := by
    rw [h2]; exact toNat_area wd ht 3 (by omega) (by omega)
  have h4 := save_rgb_eq bits W H x y wd ht img.cells hox hoy hw hx hy hb hbl h3
  rw [grabber.save_switch, if_pos rfl, h1]
  simp only []
  rw [hdw, h4]
  exact ⟨img.id, na, tr, rfl⟩

theorem save_switch_darknet (m : Machine) (bits : List BYTE) (x y wd ht : Int) (W H : Nat)
    (hdw : m.g.duplication_width = W) (hinv : buffer_ok m.g)
    (hox : 0 ≤ x) (hoy : 0 ≤ y) (hw : 0 < wd) (hh : 0 < ht)
    (hx : x + wd ≤ W) (hy : y + ht ≤ H)
    (hb : bits.length = 4 * W * H) (hbl : bits.length < 2147483648)
    (hfit : wd * ht * 12 < 2147483648) :
    ∃ id na tr,
      grabber.save_switch m bits x y wd ht 1
        = .ok { m with g := { m.g with
                  output_image := some (OutputImage.mk id
                    (darknet_image bits W x y wd.toNat ht.toNat)),
                  output_image_length := wd * ht * 12 },
                       next_alloc := na, trace := tr } := by
  obtain ⟨ha0, ha1⟩ := area_le wd ht x y W H hox hoy hw hh hx hy
  obtain ⟨img, na, tr, h1, h2⟩ := init_output_image_spec m wd ht 12 hinv ha0 (by omega)
    (by omega) hfit
  have h3 : img.cells.length = 4 * (3 * (ht.toNat * wd.toNat)) := by
    have e : (wd * ht * 12).toNat = ht.toNat * (wd.toNat * 12) :=
      toNat_area wd ht 12 (by omega) (by omega)
    rw [h2, e]; ring
  have h5 : img.cells.length < 2147483648 := by
    have : (((wd * ht * 12).toNat : Nat) : Int) = wd * ht * 12 :=
      Int.toNat_of_nonneg (by omega)
    omega
  have h4 := save_darknet_eq bits W H x y wd ht img.cells hox hoy hw hx hy hb hbl h3 h5
  rw [grabber.save_switch, if_neg (by decide), if_pos rfl, h1]
  simp only []
  rw [hdw, h4]
  exact ⟨img.id, na, tr, rfl⟩

theorem get?_eq_some_getD (bits : List BYTE) (i : Nat) (h : i < bits.length) :
    bits.get? i = some (bits.getD i 0) := by
  simp [List.getD, List.getElem?_eq_getElem h]

theorem save_rgb_state (w : World) (m : Machine) (x y wd ht : Int) (W H : Nat)
    (bits : List BYTE)
    (hdev : m.g.device ≠ none) (hctx : m.g.device_context ≠ none)
    (hdup : m.g.duplication_texture = some (Texture2D.mk W H bits))
    (htex : staging_matches m.g W H) (hinv : buffer_ok m.g)
    (hst : staging_ok (w.staging m.n_save))
    (hox : 0 ≤ x) (hoy : 0 ≤ y) (hw : 0 < wd) (hh : 0 < ht)
    (hx : x + wd ≤ W) (hy : y + ht ≤ H)
    (hb : bits.length = 4 * W * H) (hbl : bits.length < 2147483648) :
    ∃ dh id na tr,
      grabber.save w m x y wd ht 0 = .ok ((w.staging m.n_save).unmap,
        { m with g := { m.g with duplication_texture := none,
                                 output_texture := some (Texture2D.mk W H bits),
                                 duplication_width := W, duplication_height := dh,
                                 output_image := some (OutputImage.mk id
                                   (rgb_image bits W x y wd.toNat ht.toNat)),
                                 output_image_length := wd * ht * 3 },
                 n_save := m.n_save + 1, next_alloc := na, trace := tr }) := by
  obtain ⟨dh, hp⟩ := save_prefix w m x y wd ht 0 W H bits hdev hctx hdup htex hst
  obtain ⟨id, na, tr, hs⟩ := save_switch_rgb
    { m with g := { m.g with duplication_texture := none,
                             output_texture := some (Texture2D.mk W H bits),
                             duplication_width := W, duplication_height := dh },
             n_save := m.n_save + 1, trace := m.trace ++ [Event.save 0] }
    bits x y wd ht W H rfl (fun img h => hinv img h) hox hoy hw hh hx hy hb hbl
  rw [hp, hs]
  exact ⟨dh, id, na, tr, rfl⟩

theorem save_darknet_state (w : World) (m : Machine) (x y wd ht : Int) (W H : Nat)
    (bits : List BYTE)
    (hdev : m.g.device ≠ none) (hctx : m.g.device_context ≠ none)
    (hdup : m.g.duplication_texture = some (Texture2D.mk W H bits))
    (htex : staging_matches m.g W H) (hinv : buffer_ok m.g)
    (hst : staging_ok (w.staging m.n_save))
    (hox : 0 ≤ x) (hoy : 0 ≤ y) (hw : 0 < wd) (hh : 0 < ht)
    (hx : x + wd ≤ W) (hy : y + ht ≤ H)
    (hb : bits.length = 4 * W * H) (hbl : bits.length < 2147483648)
    (hfit : wd * ht * 12 < 2147483648) :
    ∃ dh id na tr,
      grabber.save w m x y wd ht 1 = .ok ((w.staging m.n_save).unmap,
        { m with g := { m.g with duplication_texture := none,
                                 output_texture := some (Texture2D.mk W H bits),
                                 duplication_width := W, duplication_height := dh,
                                 output_image := some (OutputImage.mk id
                                   (darknet_image bits W x y wd.toNat ht.toNat)),
                                 output_image_length := wd * ht * 12 },
                 n_save := m.n_save + 1, next_alloc := na, trace := tr }) := by
  obtain ⟨dh, hp⟩ := save_prefix w m x y wd ht 1 W H bits hdev hctx hdup htex hst
  obtain ⟨id, na, tr, hs⟩ := save_switch_darknet
    { m with g := { m.g with duplication_texture := none,
                             output_texture := some (Texture2D.mk W H bits),
                             duplication_width := W, duplication_height := dh },
             n_save := m.n_save + 1, trace := m.trace ++ [Event.save 1] }
    bits x y wd ht W H rfl (fun img h => hinv img h) hox hoy hw hh hx hy hb hbl hfit
  rw [hp, hs]
  exact ⟨dh, id, na, tr, rfl⟩

/-- The source pixel of row `r`, column `c` of a region lies inside a frame that
contains the region. -/
theorem source_pixel_in_range (x y wd ht : Int) (W H r c : Nat)
    (hox : 0 ≤ x) (hoy : 0 ≤ y) (hx : x + wd ≤ W) (hy : y + ht ≤ H)
    (hr : r < ht.toNat) (hc : c < wd.toNat) :
    ((y + (r : Int)) * W + x + (c : Int)
        = (((y.toNat + r) * W + (x.toNat + c) : Nat) : Int))
      ∧ 4 * ((y.toNat + r) * W + (x.toNat + c)) + 3 < 4 * W * H := by
  constructor
  · push_cast
    rw [Int.toNat_of_nonneg hoy, Int.toNat_of_nonneg hox]; ring
  · have h1 : (y.toNat + r + 1) * W ≤ H * W := Nat.mul_le_mul_right _ (by omega)
    have h2 : (y.toNat + r + 1) * W = (y.toNat + r) * W + W := by ring
    have h3 : 4 * W * H = 4 * (H * W) := by ring
    omega

/-- C1: `grabber::save` with format 0, on a session holding a captured `W × H`
BGRA frame `bits` (addressable with 32-bit indices) and a region inside it,
succeeds and leaves an output image of exactly `3 * w * h` bytes whose byte
`3 * (r * w + c) + k` is the source byte `4 * ((y + r) * W + (x + c)) + (2 - k)`:
the channels in the order R, G, B, the alpha byte never copied. -/
theorem save_format0_is_rgb (w : World) (m : Machine) (x y wd ht : Int) (W H : Nat)
    (bits : List BYTE)
    (hdev : m.g.device ≠ none) (hctx : m.g.device_context ≠ none)
    (hdup : m.g.duplication_texture = some (Texture2D.mk W H bits))
    (htex : staging_matches m.g W H) (hinv : buffer_ok m.g)
    (hst : staging_ok (w.staging m.n_save))
    (hox : 0 ≤ x) (hoy : 0 ≤ y) (hw : 0 < wd) (hh : 0 < ht)
    (hx : x + wd ≤ W) (hy : y + ht ≤ H)
    (hb : bits.length = 4 * W * H) (hbl : bits.length < 2147483648) :
    ∃ hr m1 img,
      grabber.save w m x y wd ht 0 = .ok (hr, m1) ∧ FAILED hr = false
      ∧ m1.g.output_image = some img
      ∧ img.cells.length = 3 * wd.toNat * ht.toNat
      ∧ ∀ r c k : Nat, r < ht.toNat → c < wd.toNat → k < 3 →
          ∃ b, bits.get? (4 * ((y.toNat + r) * W + (x.toNat + c)) + (2 - k)) = some b
            ∧ img.cells.get? (3 * (r * wd.toNat + c) + k) = some (Cell.byte b) := by
  obtain ⟨dh, id, na, tr, hs⟩ := save_rgb_state w m x y wd ht W H bits hdev hctx hdup htex
    hinv hst hox hoy hw hh hx hy hb hbl
  refine ⟨_, _, _, hs, hst.2.2.2, rfl, ?_, ?_⟩
  · simp only [length_rgb_image]; ring
  · intro r c k hr hc hk
    obtain ⟨e, hin⟩ := source_pixel_in_range x y wd ht W H r c hox hoy hx hy hr hc
    refine ⟨bits.getD (4 * ((y.toNat + r) * W + (x.toNat + c)) + (2 - k)) 0,
      get?_eq_some_getD _ _ (by omega), ?_⟩
    simp only []
    rw [get?_rgb_image bits W x y wd.toNat ht.toNat r c k hr hc hk, e, rgb_block]
    have i2 : ((((y.toNat + r) * W + (x.toNat + c) : Nat) : Int) * 4 + 2).toNat
        = 4 * ((y.toNat + r) * W + (x.toNat + c)) + 2 := by omega
    have i1 : ((((y.toNat + r) * W + (x.toNat + c) : Nat) : Int) * 4 + 1).toNat
        = 4 * ((y.toNat + r) * W + (x.toNat + c)) + 1 := by omega
    have i0 : ((((y.toNat + r) * W + (x.toNat + c) : Nat) : Int) * 4).toNat
        = 4 * ((y.toNat + r) * W + (x.toNat + c)) := by omega
    rw [i2, i1, i0]
    interval_cases k <;> rfl

theorem save_format0_is_rgb_witness :
    ∃ hr m1 img,
      grabber.save healthy_world captured_machine 0 0 2 2 0 = .ok (hr, m1)
      ∧ FAILED hr = false
      ∧ m1.g.output_image = some img
      ∧ img.cells.length = 3 * (2 : Int).toNat * (2 : Int).toNat
      ∧ ∀ r c k : Nat, r < (2 : Int).toNat → c < (2 : Int).toNat → k < 3 →
          ∃ b, frame2x2.bits.get? (4 * (((0 : Int).toNat + r) * 2 + ((0 : Int).toNat + c))
                + (2 - k)) = some b
            ∧ img.cells.get? (3 * (r * (2 : Int).toNat + c) + k) = some (Cell.byte b) :=
  save_format0_is_rgb healthy_world captured_machine 0 0 2 2 2 2 frame2x2.bits
    (by decide) (by decide) rfl (by intro t h; cases h) (by intro i h; cases h)
    ⟨rfl, rfl, rfl, rfl⟩ (by decide) (by decide) (by decide) (by decide) (by decide)
    (by decide) rfl (by decide)

theorem for_loop_inv {σ : Type} (body : Int → σ → Option σ) (P : Int → σ → Prop)
    (hstep : ∀ i s s1, P i s → body i s = some s1 → P (i + 1) s1) :
    ∀ (n : Nat) (i : Int) (s s1 : σ), P i s → for_loop body n i s = some s1 →
      P (i + n) s1
  | 0, i, s, s1, hP, h => by
    rw [for_loop] at h
    cases h
    simpa using hP
  | n + 1, i, s, s1, hP, h => by
    rw [for_loop] at h
    cases hb : body i s with
    | none => rw [hb] at h; cases h
    | some s2 =>
      rw [hb] at h
      have := for_loop_inv body P hstep n (i + 1) s2 s1 (hstep i s s2 hP hb) h
      rwa [show i + ((n + 1 : Nat) : Int) = i + 1 + (n : Int) by push_cast; ring]

theorem write_cell_length (cs cs1 : List Cell) (i : Int) (c : Cell)
    (h : write_cell cs i c = some cs1) : cs1.length = cs.length := by
  rw [write_cell] at h
  split at h
  · cases h; simp
  · cases h

theorem write_float_length (cs cs1 : List Cell) (i : Int) (b : ℚ)
    (h : write_float cs i b = some cs1) : cs1.length = cs.length := by
  rw [write_float] at h
  cases h1 : write_cell cs (4 * i) (Cell.float_part b 0) with
  | none => rw [h1] at h; cases h
  | some c1 =>
    rw [h1] at h
    simp only [] at h
    cases h2 : write_cell c1 (4 * i + 1) (Cell.float_part b 1) with
    | none => rw [h2] at h; cases h
    | some c2 =>
      rw [h2] at h
      simp only [] at h
      cases h3 : write_cell c2 (4 * i + 2) (Cell.float_part b 2) with
      | none => rw [h3] at h; cases h
      | some c3 =>
        rw [h3] at h
        simp only [] at h
        rw [write_cell_length _ _ _ _ h, write_cell_length _ _ _ _ h3,
          write_cell_length _ _ _ _ h2, write_cell_length _ _ _ _ h1]

theorem save_rgb_pixel_length (bits : List BYTE) (rs x : Int) (s s1 : List Cell × Int)
    (h : save_rgb_pixel bits rs x s = some s1) : s1.1.length = s.1.length := by
  rw [save_rgb_pixel] at h
  cases r1 : read_byte bits (INT_add (INT_mul (INT_add rs x) 4) 2) with
  | none => rw [r1] at h; cases h
  | some v1 =>
    rw [r1] at h
    simp only [] at h
    cases w1 : write_cell s.1 s.2 (Cell.byte v1) with
    | none => rw [w1] at h; cases h
    | some c1 =>
      rw [w1] at h
      simp only [] at h
      cases r2 : read_byte bits (INT_add (INT_mul (INT_add rs x) 4) 1) with
      | none => rw [r2] at h; cases h
      | some v2 =>
        rw [r2] at h
        simp only [] at h
        cases w2 : write_cell c1 (INT_add s.2 1) (Cell.byte v2) with
        | none => rw [w2] at h; cases h
        | some c2 =>
          rw [w2] at h
          simp only [] at h
          cases r3 : read_byte bits (INT_mul (INT_add rs x) 4) with
          | none => rw [r3] at h; cases h
          | some v3 =>
            rw [r3] at h
            simp only [] at h
            cases w3 : write_cell c2 (INT_add (INT_add s.2 1) 1) (Cell.byte v3) with
            | none => rw [w3] at h; cases h
            | some c3 =>
              rw [w3] at h
              cases h
              rw [write_cell_length _ _ _ _ w3, write_cell_length _ _ _ _ w2,
                write_cell_length _ _ _ _ w1]

theorem save_darknet_pixel_length (bits : List BYTE) (rs c x : Int) (s s1 : List Cell × Int)
    (h : save_darknet_pixel bits rs c x s = some s1) : s1.1.length = s.1.length := by
  rw [save_darknet_pixel] at h
  cases r1 : read_byte bits (INT_add (INT_mul (INT_add rs x) 4) (INT_sub 2 c)) with
  | none => rw [r1] at h; cases h
  | some v1 =>
    rw [r1] at h
    simp only [] at h
    cases w1 : write_float s.1 s.2 (sample_value v1) with
    | none => rw [w1] at h; cases h
    | some c1 =>
      rw [w1] at h
      cases h
      exact write_float_length _ _ _ _ w1

theorem save_rgb_length (bits : List BYTE) (W : Nat) (x y wd ht : Int) (cs cs1 : List Cell)
    (k : Int) (h : save_rgb bits W x y wd ht cs = some (cs1, k)) : cs1.length = cs.length := by
  rw [save_rgb] at h
  have := for_loop_inv (save_rgb_row bits W x y wd) (fun _ s => s.1.length = cs.length)
    (fun i s s1 hP hb => by
      rw [save_rgb_row] at hb
      have := for_loop_inv (save_rgb_pixel bits (in_row_start y i W x))
        (fun _ t => t.1.length = cs.length)
        (fun j t t1 hQ hc => by
          simp only [] at hQ ⊢
          rw [save_rgb_pixel_length _ _ _ _ _ hc, hQ])
        _ _ _ _ hP hb
      exact this)
    _ _ _ _ rfl h
  exact this

theorem save_darknet_length (bits : List BYTE) (W : Nat) (x y wd ht : Int)
    (cs cs1 : List Cell) (k : Int) (h : save_darknet bits W x y wd ht cs = some (cs1, k)) :
    cs1.length = cs.length := by
  rw [save_darknet] at h
  have := for_loop_inv (save_darknet_plane bits W x y wd ht)
    (fun _ s => s.1.length = cs.length)
    (fun c s s1 hP hb => by
      rw [save_darknet_plane] at hb
      have := for_loop_inv (save_darknet_row bits W x y wd c)
        (fun _ s => s.1.length = cs.length)
        (fun i s s1 hP hb => by
          rw [save_darknet_row] at hb
          have := for_loop_inv (save_darknet_pixel bits (in_row_start y i W x) c)
            (fun _ t => t.1.length = cs.length)
            (fun j t t1 hQ hc => by
              simp only [] at hQ ⊢
              rw [save_darknet_pixel_length _ _ _ _ _ _ hc, hQ])
            _ _ _ _ hP hb
          exact this)
        _ _ _ _ hP hb
      exact this)
    _ _ _ _ rfl h
  exact this

theorem toINT_lt (z : Int) : toINT z < 2147483648 := by
  rw [toINT]; omega

theorem cleanup_true_g (m : Machine) :
    (grabber.cleanup m true).g
      = { m.g with dda_wrapper := none, duplication_texture := none, output_texture := none,
                   device := none, device_context := none, output_image := none } := by
  obtain ⟨g, ni, nc, ns, na, tr, fs⟩ := m
  obtain ⟨dda, dev, ctx, dup, otex, oimg, olen, dw, dh⟩ := g
  cases dda <;> cases oimg <;> rfl

theorem cleanup_counters (m : Machine) (e : Bool) :
    (grabber.cleanup m e).n_init = m.n_init ∧ (grabber.cleanup m e).n_capture = m.n_capture
      ∧ (grabber.cleanup m e).n_save = m.n_save
      ∧ (grabber.cleanup m e).next_alloc = m.next_alloc
      ∧ (grabber.cleanup m e).files = m.files := by
  obtain ⟨g, ni, nc, ns, na, tr, fs⟩ := m
  obtain ⟨dda, dev, ctx, dup, otex, oimg, olen, dw, dh⟩ := g
  cases dda <;> cases oimg <;> cases e <;> simp [grabber.cleanup, Machine.log]

theorem cleanup_false_g (m : Machine) :
    (grabber.cleanup m false).g
      = { m.g with dda_wrapper := none, duplication_texture := none } := by
  obtain ⟨g, ni, nc, ns, na, tr, fs⟩ := m
  obtain ⟨dda, dev, ctx, dup, otex, oimg, olen, dw, dh⟩ := g
  cases dda <;> rfl

theorem cleanup_buffer_ok (m : Machine) (e : Bool) (h : buffer_ok m.g) :
    buffer_ok (grabber.cleanup m e).g := by
  cases e
  · rw [cleanup_false_g]; exact h
  · rw [cleanup_true_g]; intro img hi; cases hi

theorem init_frame_trans (a b c : Machine) (h1 : init_frame a b) (h2 : init_frame b c) :
    init_frame a c := by
  obtain ⟨a1, a2, a3, a4, a5, a6, a7, a8, a9⟩ := h1
  obtain ⟨b1, b2, b3, b4, b5, b6, b7, b8, b9⟩ := h2
  exact ⟨b1.trans a1, b2.trans a2, b3.trans a3, b4.trans a4, b5.trans a5, b6.trans a6,
    b7.trans a7, b8.trans a8, b9.trans a9⟩

theorem init_dxgi_loop_frame (w : World) (n : Nat) :
    ∀ (l : List Nat) (hr : HRESULT) (m : Machine),
      init_frame m (init_dxgi_loop w n l hr m).2
        ∧ (init_dxgi_loop w n l hr m).2.n_init = m.n_init
        ∧ (init_dxgi_loop w n l hr m).2.g.dda_wrapper = m.g.dda_wrapper
  | [], hr, m => by
    rw [init_dxgi_loop]
    exact ⟨⟨rfl, rfl, rfl, rfl, rfl, rfl, rfl, rfl, rfl⟩, rfl, rfl⟩
  | i :: rest, hr, m => by
    rw [init_dxgi_loop]
    simp only []
    split
    · exact ⟨⟨rfl, rfl, rfl, rfl, rfl, rfl, rfl, rfl, rfl⟩, rfl, rfl⟩
    · obtain ⟨h1, h2, h3⟩ := init_dxgi_loop_frame w n rest (w.D3D11CreateDevice n i).hr
        { m with g := { m.g with device := (w.D3D11CreateDevice n i).device,
                                 device_context := (w.D3D11CreateDevice n i).device_context },
                 trace := m.trace ++ [Event.create_device i (w.D3D11CreateDevice n i).hr] }
      exact ⟨init_frame_trans _ _ _ ⟨rfl, rfl, rfl, rfl, rfl, rfl, rfl, rfl, rfl⟩ h1, h2, h3⟩

theorem init_duplication_frame (w : World) (n : Nat) (m : Machine) :
    init_frame m (grabber.init_duplication w n m).2
      ∧ (grabber.init_duplication w n m).2.n_init = m.n_init
      ∧ (grabber.init_duplication w n m).2.g.dda_wrapper ≠ none
      ∧ (grabber.init_duplication w n m).2.g.device = m.g.device
      ∧ (grabber.init_duplication w n m).2.g.device_context = m.g.device_context := by
  rw [grabber.init_duplication]
  cases h : m.g.dda_wrapper with
  | none => exact ⟨⟨rfl, rfl, rfl, rfl, rfl, rfl, rfl, rfl, rfl⟩, rfl, by simp, rfl, rfl⟩
  | some d => exact ⟨⟨rfl, rfl, rfl, rfl, rfl, rfl, rfl, rfl, rfl⟩, rfl, by simp [h], rfl, rfl⟩

theorem init_spec (w : World) (m : Machine) :
    init_frame m (grabber.init w m).2
      ∧ (grabber.init w m).2.n_init = m.n_init + 1
      ∧ (FAILED (grabber.init w m).1 = false → (grabber.init w m).2.g.dda_wrapper ≠ none) := by
  rw [grabber.init, grabber.init_dxgi]
  simp only []
  obtain ⟨h1, h2, h3⟩ := init_dxgi_loop_frame w m.n_init [0, 1, 2] S_OK
    { m with n_init := m.n_init + 1, trace := m.trace ++ [Event.init] }
  split
  · rename_i hf
    refine ⟨init_frame_trans _ _ _ ⟨rfl, rfl, rfl, rfl, rfl, rfl, rfl, rfl, rfl⟩ h1, h2, ?_⟩
    intro hn
    simp only [] at hn
    rw [hf] at hn
    cases hn
  · obtain ⟨d1, d2, d3, _, _⟩ := init_duplication_frame w m.n_init
      (init_dxgi_loop w m.n_init [0, 1, 2] S_OK
        { m with n_init := m.n_init + 1, trace := m.trace ++ [Event.init] }).2
    refine ⟨init_frame_trans _ _ _ (init_frame_trans _ _ _
      ⟨rfl, rfl, rfl, rfl, rfl, rfl, rfl, rfl, rfl⟩ h1) d1, d2.trans h2, fun _ => d3⟩

theorem init_healthy (w : World) (m : Machine) (hr0 : HRESULT) (d c : Nat)
    (hdev : w.D3D11CreateDevice m.n_init 0 = DeviceOutcome.mk hr0 (some d) (some c))
    (hok : FAILED hr0 = false) (hdda : m.g.dda_wrapper = none) :
    grabber.init w m = (w.dda_Init m.n_init,
      { m with g := { m.g with device := some d, device_context := some c,
                               dda_wrapper := some (DDAImpl.mk (some d) (some c)) },
               n_init := m.n_init + 1,
               trace := m.trace ++ [Event.init] ++ [Event.create_device 0 hr0]
                 ++ [Event.new_dda, Event.dda_init (w.dda_Init m.n_init)] }) := by
  have hs : SUCCEEDED hr0 = true := by
    simpa [FAILED, SUCCEEDED] using hok
  rw [grabber.init, grabber.init_dxgi, init_dxgi_loop]
  simp only [hdev, hs, if_true, hok]
  rw [grabber.init_duplication]
  simp only [hdda]
  rfl

theorem capture_eq (w : World) (m : Machine) (wait : Int) (h : m.g.dda_wrapper ≠ none) :
    grabber.capture w m wait = .ok
      (((w.GetCapturedFrame m.n_capture wait).hr,
        (w.GetCapturedFrame m.n_capture wait).accumulated_frames),
       { m with g := { m.g with
                  duplication_texture := (w.GetCapturedFrame m.n_capture wait).texture },
                n_capture := m.n_capture + 1,
                trace := m.trace ++ [Event.capture (w.GetCapturedFrame m.n_capture wait).hr
                  (w.GetCapturedFrame m.n_capture wait).accumulated_frames] }) := by
  obtain ⟨d, hd⟩ := Option.ne_none_iff_exists'.mp h
  rw [grabber.capture, hd]

theorem capture_null (w : World) (m : Machine) (wait : Int) (h : m.g.dda_wrapper = none) :
    grabber.capture w m wait = .error Fault.undefined_behaviour := by
  rw [grabber.capture, h]

theorem save_frame_trans (a b c : Machine) (h1 : save_frame a b) (h2 : save_frame b c) :
    save_frame a c := by
  obtain ⟨ini, cap, fil, dda, dev, ctx⟩ := h1
  obtain ⟨ini2, cap2, fil2, dda2, dev2, ctx2⟩ := h2
  exact ⟨ini2.trans ini, cap2.trans cap, fil2.trans fil, dda2.trans dda, dev2.trans dev,
    ctx2.trans ctx⟩

theorem init_output_image_general (m m1 : Machine) (wd ht bpp : Int)
    (h : grabber.init_output_image m wd ht bpp = .ok m1) :
    ∃ img, m1.g = { m.g with output_image := some img,
                             output_image_length := INT_mul (INT_mul wd ht) bpp }
      ∧ (buffer_ok m.g → (img.cells.length : Int) = INT_mul (INT_mul wd ht) bpp)
      ∧ save_frame m m1 ∧ m1.n_save = m.n_save := by
  obtain ⟨g, ni, nc, ns, na, tr, fs⟩ := m
  obtain ⟨dda, dev, ctx, dup, otex, oimg, olen, dw, dh⟩ := g
  rw [grabber.init_output_image] at h
  cases oimg with
  | none =>
    simp only [] at h
    split at h
    · cases h
    · rename_i hn
      cases h
      exact ⟨_, rfl, fun _ => by simp; omega, ⟨rfl, rfl, rfl, rfl, rfl, rfl⟩, rfl⟩
  | some img =>
    by_cases hl : olen = INT_mul (INT_mul wd ht) bpp
    · simp only [hl, ne_eq, not_true_eq_false, if_false] at h
      cases h
      refine ⟨img, rfl, ?_, ⟨rfl, rfl, rfl, rfl, rfl, rfl⟩, rfl⟩
      intro hinv
      have := hinv img rfl
      simp only [] at this
      omega
    · simp only [ne_eq, hl, not_false_eq_true, if_true] at h
      split at h
      · cases h
      · rename_i hn
        cases h
        exact ⟨_, rfl, fun _ => by simp; omega, ⟨rfl, rfl, rfl, rfl, rfl, rfl⟩, rfl⟩

theorem save_switch_general (m m3 : Machine) (bits : List BYTE) (x y wd ht format : Int)
    (h : grabber.save_switch m bits x y wd ht format = .ok m3) :
    save_frame m m3 ∧ m3.n_save = m.n_save ∧ (buffer_ok m.g → buffer_ok m3.g)
      ∧ output_shape m3.g wd ht format
      ∧ m3.g.output_texture = m.g.output_texture
      ∧ m3.g.duplication_texture = m.g.duplication_texture
      ∧ m3.g.duplication_width = m.g.duplication_width := by
  rw [grabber.save_switch] at h
  by_cases h0 : format = 0
  · rw [if_pos h0] at h
    cases hi : grabber.init_output_image m wd ht 3 with
    | error f => rw [hi] at h; cases h
    | ok m1 =>
      rw [hi] at h
      obtain ⟨img, hg, hl, hf, hs⟩ := init_output_image_general m m1 wd ht 3 hi
      simp only [hg] at h
      cases hc : save_rgb bits m.g.duplication_width x y wd ht img.cells with
      | none => rw [hc] at h; cases h
      | some r =>
        obtain ⟨cells, k⟩ := r
        rw [hc] at h
        cases h
        have hlen := save_rgb_length _ _ _ _ _ _ _ _ _ hc
        refine ⟨⟨hf.1, hf.2.1, hf.2.2.1, rfl, rfl, rfl⟩, hs, ?_,
          ⟨fun _ => ⟨by simp, rfl⟩,
          fun h1 => absurd (h0.symm.trans h1) (by decide), fun hn _ => absurd h0 hn⟩,
          rfl, rfl, rfl⟩
        intro hinv i hi2
        cases hi2
        simp only []
        rw [hlen]; exact hl hinv
  · rw [if_neg h0] at h
    by_cases h1 : format = 1
    · rw [if_pos h1] at h
      cases hi : grabber.init_output_image m wd ht 12 with
      | error f => rw [hi] at h; cases h
      | ok m1 =>
        rw [hi] at h
        obtain ⟨img, hg, hl, hf, hs⟩ := init_output_image_general m m1 wd ht 12 hi
        simp only [hg] at h
        cases hc : save_darknet bits m.g.duplication_width x y wd ht img.cells with
        | none => rw [hc] at h; cases h
        | some r =>
          obtain ⟨cells, k⟩ := r
          rw [hc] at h
          cases h
          have hlen := save_darknet_length _ _ _ _ _ _ _ _ _ hc
          refine ⟨⟨hf.1, hf.2.1, hf.2.2.1, rfl, rfl, rfl⟩, hs, ?_, ⟨fun hn => absurd hn h0,
            fun _ => ⟨by simp, rfl⟩,
            fun _ hn => absurd h1 hn⟩, rfl, rfl, rfl⟩
          intro hinv i hi2
          cases hi2
          simp only []
          rw [hlen]; exact hl hinv
    · rw [if_neg h1] at h
      cases ho : m.g.output_image with
      | none =>
        rw [ho] at h
        cases h
        exact ⟨⟨rfl, rfl, rfl, rfl, rfl, rfl⟩, rfl, (fun _ i hi => by rw [ho] at hi; cases hi),
          ⟨fun hn => absurd hn h0, fun hn => absurd hn h1, fun _ _ => ⟨ho, rfl⟩⟩, rfl, rfl, rfl⟩
      | some img =>
        rw [ho] at h
        cases h
        exact ⟨⟨rfl, rfl, rfl, rfl, rfl, rfl⟩, rfl, (fun _ i hi => by cases hi),
          ⟨fun hn => absurd hn h0, fun hn => absurd hn h1, fun _ _ => ⟨rfl, rfl⟩⟩, rfl, rfl, rfl⟩

theorem init_output_texture_general (create : HRESULT) (m m1 : Machine) (hr : HRESULT)
    (h : grabber.init_output_texture create m = .ok (hr, m1)) :
    save_frame m m1 ∧ m1.n_save = m.n_save ∧ m1.g.output_image = m.g.output_image
      ∧ m1.g.output_image_length = m.g.output_image_length ∧ m1.trace = m.trace
      ∧ m1.next_alloc = m.next_alloc := by
  rw [grabber.init_output_texture] at h
  cases ho : m.g.output_texture with
  | some t =>
    rw [ho] at h
    cases h
    exact ⟨⟨rfl, rfl, rfl, rfl, rfl, rfl⟩, rfl, rfl, rfl, rfl, rfl⟩
  | none =>
    rw [ho] at h
    simp only [] at h
    cases hd : m.g.duplication_texture with
    | none => rw [hd] at h; cases h
    | some d =>
      rw [hd] at h
      simp only [] at h
      cases hv : m.g.device with
      | none => rw [hv] at h; cases h
      | some v =>
        rw [hv] at h
        simp only [] at h
        cases h
        cases hs : SUCCEEDED create with
        | true => simp [save_frame, hv]
        | false => simp [save_frame, hv]

theorem save_general (w : World) (m m1 : Machine) (x y wd ht format : Int) (hr : HRESULT)
    (h : grabber.save w m x y wd ht format = .ok (hr, m1)) :
    save_frame m m1 ∧ m1.n_save = m.n_save + 1 ∧ (buffer_ok m.g → buffer_ok m1.g)
      ∧ (FAILED hr = false → output_shape m1.g wd ht format) := by
  rw [grabber.save] at h
  simp only [] at h
  cases hi : grabber.init_output_texture (w.staging m.n_save).create_texture
      { m with n_save := m.n_save + 1, trace := m.trace ++ [Event.save format] } with
  | error f => rw [hi] at h; cases h
  | ok r =>
    obtain ⟨hr1, ma⟩ := r
    rw [hi] at h
    simp only [] at h
    obtain ⟨f1, f2, f3, f4, _, _⟩ := init_output_texture_general _ _ _ _ hi
    have hinva : buffer_ok m.g → buffer_ok ma.g := by
      intro hinv img hh
      rw [f3] at hh
      rw [f4]
      exact hinv img hh
    by_cases hF : FAILED hr1 = true
    · rw [if_pos hF] at h
      cases h
      exact ⟨f1, f2, hinva, fun hn => by rw [hF] at hn; cases hn⟩
    · rw [if_neg hF] at h
      obtain ⟨g, ni, nc, ns, na, tr, fs⟩ := ma
      obtain ⟨dda, dev, ctx, dup, otex, oimg, olen, dw, dh⟩ := g
      simp only [] at h
      cases ctx with
      | none => cases h
      | some c =>
        cases otex with
        | none => cases h
        | some out =>
          cases dup with
          | none => cases h
          | some dup =>
            simp only [] at h
            by_cases hq : FAILED (w.staging m.n_save).query_interface = true
            · rw [if_pos hq] at h
              cases h
              exact ⟨f1, f2, hinva, fun hn => by rw [hq] at hn; cases hn⟩
            · rw [if_neg hq] at h
              by_cases hm : FAILED (w.staging m.n_save).map = true
              · rw [if_pos hm] at h
                cases h
                exact ⟨f1, f2, hinva, fun hn => by rw [hm] at hn; cases hn⟩
              · rw [if_neg hm] at h
                by_cases hu : FAILED (w.staging m.n_save).unmap = true
                · rw [if_pos hu] at h
                  cases h
                  exact ⟨f1, f2, hinva, fun hn => by rw [hu] at hn; cases hn⟩
                · rw [if_neg hu] at h
                  split at h
                  · cases h
                  · rename_i m3 hsw
                    cases h
                    obtain ⟨s1, s2, s3, s4, _, _, _⟩ :=
                      save_switch_general _ _ _ _ _ _ _ _ hsw
                    exact ⟨save_frame_trans _ _ _ f1 s1, s2.trans f2, fun hv => s3 (hinva hv),
                      fun _ => s4⟩

theorem save_inv (w : World) (m m1 : Machine) (x y wd ht format : Int) (hr : HRESULT)
    (h : grabber.save w m x y wd ht format = .ok (hr, m1)) (hok : FAILED hr = false) :
    ∃ ma bits, grabber.save_switch ma bits x y wd ht format = .ok m1
      ∧ ma.g.output_image = m.g.output_image
      ∧ ma.g.output_image_length = m.g.output_image_length
      ∧ ma.next_alloc = m.next_alloc ∧ ma.trace = m.trace ++ [Event.save format] := by
  rw [grabber.save] at h
  simp only [] at h
  cases hi : grabber.init_output_texture (w.staging m.n_save).create_texture
      { m with n_save := m.n_save + 1, trace := m.trace ++ [Event.save format] } with
  | error f => rw [hi] at h; cases h
  | ok r =>
    obtain ⟨hr1, ma⟩ := r
    rw [hi] at h
    simp only [] at h
    obtain ⟨_, _, f3, f4, f5, f6⟩ := init_output_texture_general _ _ _ _ hi
    by_cases hF : FAILED hr1 = true
    · rw [if_pos hF] at h
      cases h
      rw [hF] at hok
      cases hok
    · rw [if_neg hF] at h
      obtain ⟨g, ni, nc, ns, na, tr, fs⟩ := ma
      obtain ⟨dda, dev, ctx, dup, otex, oimg, olen, dw, dh⟩ := g
      simp only [] at h
      cases ctx with
      | none => cases h
      | some c =>
        cases otex with
        | none => cases h
        | some out =>
          cases dup with
          | none => cases h
          | some dup =>
            simp only [] at h
            by_cases hq : FAILED (w.staging m.n_save).query_interface = true
            · rw [if_pos hq] at h
              cases h
              rw [hq] at hok
              cases hok
            · rw [if_neg hq] at h
              by_cases hm : FAILED (w.staging m.n_save).map = true
              · rw [if_pos hm] at h
                cases h
                rw [hm] at hok
                cases hok
              · rw [if_neg hm] at h
                by_cases hu : FAILED (w.staging m.n_save).unmap = true
                · rw [if_pos hu] at h
                  cases h
                  rw [hu] at hok
                  cases hok
                · rw [if_neg hu] at h
                  split at h
                  · cases h
                  · rename_i m3 hsw
                    cases h
                    exact ⟨_, _, hsw, f3, f4, f6, f5⟩

theorem init_output_image_reuse (m : Machine) (wd ht bpp : Int) (img : OutputImage)
    (hi : m.g.output_image = some img)
    (hl : m.g.output_image_length = INT_mul (INT_mul wd ht) bpp) :
    grabber.init_output_image m wd ht bpp = .ok m := by
  obtain ⟨g, ni, nc, ns, na, tr, fs⟩ := m
  obtain ⟨dda, dev, ctx, dup, otex, oimg, olen, dw, dh⟩ := g
  simp only [] at hi hl
  subst hi hl
  rw [grabber.init_output_image]
  simp only [ne_eq, not_true_eq_false, if_false]

theorem init_output_image_realloc (m m1 : Machine) (wd ht bpp : Int) (img : OutputImage)
    (hi : m.g.output_image = some img)
    (hl : m.g.output_image_length ≠ INT_mul (INT_mul wd ht) bpp)
    (h : grabber.init_output_image m wd ht bpp = .ok m1) :
    (∃ cells, m1.g.output_image = some (OutputImage.mk m.next_alloc cells))
      ∧ m1.next_alloc = m.next_alloc + 1
      ∧ m1.trace = m.trace ++ [Event.delete_image img.id,
          Event.new_image m.next_alloc (INT_mul (INT_mul wd ht) bpp)] := by
  obtain ⟨g, ni, nc, ns, na, tr, fs⟩ := m
  obtain ⟨dda, dev, ctx, dup, otex, oimg, olen, dw, dh⟩ := g
  simp only [] at hi hl
  subst hi
  rw [grabber.init_output_image] at h
  simp only [ne_eq, hl, not_false_eq_true, if_true] at h
  split at h
  · cases h
  · cases h
    exact ⟨⟨_, rfl⟩, rfl, by simp⟩

theorem save_switch_alloc (m m3 : Machine) (bits : List BYTE) (x y wd ht format : Int)
    (img : OutputImage) (hf : format = 0 ∨ format = 1)
    (hi : m.g.output_image = some img)
    (h : grabber.save_switch m bits x y wd ht format = .ok m3) :
    (m.g.output_image_length = INT_mul (INT_mul wd ht) (bytes_per_pixel format) →
        (∃ cells, m3.g.output_image = some (OutputImage.mk img.id cells))
          ∧ m3.next_alloc = m.next_alloc ∧ m3.trace = m.trace)
      ∧ (m.g.output_image_length ≠ INT_mul (INT_mul wd ht) (bytes_per_pixel format) →
        (∃ cells, m3.g.output_image = some (OutputImage.mk m.next_alloc cells))
          ∧ m3.next_alloc = m.next_alloc + 1
          ∧ m3.trace = m.trace ++ [Event.delete_image img.id,
              Event.new_image m.next_alloc
                (INT_mul (INT_mul wd ht) (bytes_per_pixel format))]) := by
  rw [grabber.save_switch] at h
  rcases hf with rfl | rfl
  · rw [if_pos rfl] at h
    rw [show bytes_per_pixel 0 = 3 from rfl]
    cases hq : grabber.init_output_image m wd ht 3 with
    | error f => rw [hq] at h; cases h
    | ok m1 =>
      rw [hq] at h
      simp only [] at h
      constructor
      · intro hl
        rw [init_output_image_reuse m wd ht 3 img hi hl] at hq
        cases hq
        rw [hi] at h
        simp only [] at h
        split at h
        · cases h
        · cases h
          exact ⟨⟨_, rfl⟩, rfl, rfl⟩
      · intro hl
        obtain ⟨⟨cells, a1⟩, a2, a3⟩ := init_output_image_realloc m m1 wd ht 3 img hi hl hq
        rw [a1] at h
        simp only [] at h
        split at h
        · cases h
        · cases h
          exact ⟨⟨_, rfl⟩, a2, a3⟩
  · rw [if_neg (by decide), if_pos rfl] at h
    rw [show bytes_per_pixel 1 = 12 from rfl]
    cases hq : grabber.init_output_image m wd ht 12 with
    | error f => rw [hq] at h; cases h
    | ok m1 =>
      rw [hq] at h
      simp only [] at h
      constructor
      · intro hl
        rw [init_output_image_reuse m wd ht 12 img hi hl] at hq
        cases hq
        rw [hi] at h
        simp only [] at h
        split at h
        · cases h
        · cases h
          exact ⟨⟨_, rfl⟩, rfl, rfl⟩
      · intro hl
        obtain ⟨⟨cells, a1⟩, a2, a3⟩ := init_output_image_realloc m m1 wd ht 12 img hi hl hq
        rw [a1] at h
        simp only [] at h
        split at h
        · cases h
        · cases h
          exact ⟨⟨_, rfl⟩, a2, a3⟩

theorem save_alloc (w : World) (m m1 : Machine) (x y wd ht format : Int) (hr : HRESULT)
    (img : OutputImage) (hf : format = 0 ∨ format = 1)
    (hi : m.g.output_image = some img)
    (h : grabber.save w m x y wd ht format = .ok (hr, m1)) (hok : FAILED hr = false) :
    (m.g.output_image_length = INT_mul (INT_mul wd ht) (bytes_per_pixel format) →
        (∃ cells, m1.g.output_image = some (OutputImage.mk img.id cells))
          ∧ m1.next_alloc = m.next_alloc ∧ m1.trace = m.trace ++ [Event.save format])
      ∧ (m.g.output_image_length ≠ INT_mul (INT_mul wd ht) (bytes_per_pixel format) →
        (∃ cells, m1.g.output_image = some (OutputImage.mk m.next_alloc cells))
          ∧ m1.next_alloc = m.next_alloc + 1
          ∧ m1.trace = m.trace ++ [Event.save format, Event.delete_image img.id,
              Event.new_image m.next_alloc
                (INT_mul (INT_mul wd ht) (bytes_per_pixel format))]) := by
  obtain ⟨ma, bits, hsw, a1, a2, a3, a4⟩ := save_inv w m m1 x y wd ht format hr h hok
  obtain ⟨p1, p2⟩ := save_switch_alloc ma m1 bits x y wd ht format img hf (a1.trans hi) hsw
  rw [a2, a3, a4] at p1 p2
  refine ⟨p1, fun hl => ?_⟩
  obtain ⟨q1, q2, q3⟩ := p2 hl
  exact ⟨q1, q2, by rw [q3]; simp⟩

theorem capture_captured (w : World) (m : Machine) (t : Int) (h : m.g.dda_wrapper ≠ none) :
    grabber.capture w m t = .ok
      (((w.GetCapturedFrame m.n_capture t).hr,
        (w.GetCapturedFrame m.n_capture t).accumulated_frames), captured w t m) :=
  capture_eq w m t h

theorem recovered_dda (w : World) (t : Int) (m : Machine)
    (h : FAILED (recovered w t m).1 = false) : (recovered w t m).2.g.dda_wrapper ≠ none :=
  (init_spec w (grabber.cleanup (captured w t m) true)).2.2 h

theorem grab_attempt_null (w : World) (t : Int) (m : Machine) (h : m.g.dda_wrapper = none) :
    grab_attempt w t m = .error Fault.undefined_behaviour := by
  rw [grab_attempt, capture_null w m t h]

theorem grab_attempt_eq (w : World) (t : Int) (m : Machine) (h : m.g.dda_wrapper ≠ none) :
    grab_attempt w t m =
      if (w.GetCapturedFrame m.n_capture t).hr = DXGI_ERROR_WAIT_TIMEOUT then
        .ok (none, captured w t m)
      else if FAILED (w.GetCapturedFrame m.n_capture t).hr then
        if FAILED (recovered w t m).1 then .ok (none, (recovered w t m).2)
        else if FAILED (w.GetCapturedFrame (recovered w t m).2.n_capture t).hr then
          .ok (none, captured w t (recovered w t m).2)
        else
          .ok (some (w.GetCapturedFrame (recovered w t m).2.n_capture t).accumulated_frames,
            captured w t (recovered w t m).2)
      else .ok (some (w.GetCapturedFrame m.n_capture t).accumulated_frames, captured w t m) := by
  rw [grab_attempt, capture_captured w m t h]
  simp only []
  by_cases h1 : (w.GetCapturedFrame m.n_capture t).hr = DXGI_ERROR_WAIT_TIMEOUT
  · rw [if_pos h1, if_pos h1]
  · rw [if_neg h1, if_neg h1]
    by_cases h2 : FAILED (w.GetCapturedFrame m.n_capture t).hr = true
    · rw [if_pos h2, if_pos h2]
      show (match recovered w t m with
        | (hr2, m3) =>
          if FAILED hr2 = true then Except.ok (none, m3)
          else
            match grabber.capture w m3 t with
            | .error f => .error f
            | .ok ((hr3, accumulated_frames3), m4) =>
              if FAILED hr3 = true then .ok (none, m4) else .ok (some accumulated_frames3, m4))
        = _
      by_cases h3 : FAILED (recovered w t m).1 = true
      · rw [if_pos h3]
        generalize recovered w t m = r at h3
        obtain ⟨hr2, m3⟩ := r
        simp only [] at h3 ⊢
        rw [if_pos h3]
      · rw [if_neg h3]
        have hd := recovered_dda w t m (by simpa using h3)
        have hc := capture_captured w (recovered w t m).2 t hd
        generalize recovered w t m = r at h3 hc
        obtain ⟨hr2, m3⟩ := r
        simp only [] at h3 hc ⊢
        rw [if_neg h3, hc]
    · rw [if_neg h2, if_neg h2]

theorem recovered_spec (w : World) (t : Int) (m : Machine) :
    (recovered w t m).2.n_init = m.n_init + 1
      ∧ (recovered w t m).2.n_capture = m.n_capture + 1
      ∧ (recovered w t m).2.n_save = m.n_save
      ∧ (recovered w t m).2.next_alloc = m.next_alloc
      ∧ (recovered w t m).2.files = m.files
      ∧ (recovered w t m).2.g.output_image = none
      ∧ (recovered w t m).2.g.output_texture = none
      ∧ (recovered w t m).2.g.duplication_texture = none
      ∧ (recovered w t m).2.g.output_image_length = m.g.output_image_length
      ∧ (recovered w t m).2.g.duplication_width = m.g.duplication_width := by
  obtain ⟨⟨a1, a2, a3, a4, a5, a6, a7, a8, a9⟩, b, _⟩ :=
    init_spec w (grabber.cleanup (captured w t m) true)
  obtain ⟨c1, c2, c3, c4, c5⟩ := cleanup_counters (captured w t m) true
  have hg := cleanup_true_g (captured w t m)
  rw [recovered]
  refine ⟨by rw [b, c1]; rfl, by rw [a1, c2]; rfl, by rw [a2, c3]; rfl, by rw [a3, c4]; rfl,
    by rw [a4, c5]; rfl, by rw [a5, hg], by rw [a7, hg], by rw [a8, hg], by rw [a6, hg]; rfl,
    by rw [a9, hg]; rfl⟩

theorem pass_frame_trans (a b c : Machine) (h1 : pass_frame a b) (h2 : pass_frame b c) :
    pass_frame a c := by
  obtain ⟨a1, a2, a3, a4, a5, a6, a7, a8⟩ := h1
  obtain ⟨b1, b2, b3, b4, b5, b6, b7, b8⟩ := h2
  refine ⟨b1.trans a1, b2.trans a2, b3.trans a3, le_trans a4 b4, lt_trans a5 b5, b6.trans a6,
    ?_, ?_⟩
  · rcases b7 with e | e
    · rcases a7 with e2 | e2
      · exact Or.inl (e.trans e2)
      · exact Or.inr (e.trans e2)
    · exact Or.inr e
  · intro hn
    have hb : b.n_init = a.n_init := by omega
    have hc : c.n_init = b.n_init := by omega
    obtain ⟨p1, p2, p3, p4, p5, p6⟩ := a8 hb
    obtain ⟨q1, q2, q3, q4, q5, q6⟩ := b8 hc
    exact ⟨q1.trans p1, q2.trans p2, q3.trans p3, q4.trans p4, q5.trans p5, q6.trans p6⟩

theorem pass_frame_buffer_ok (m m1 : Machine) (h : pass_frame m m1) (hinv : buffer_ok m.g) :
    buffer_ok m1.g := by
  obtain ⟨_, _, _, _, _, a6, a7, _⟩ := h
  intro img hi
  rcases a7 with e | e
  · rw [a6]; exact hinv img (e ▸ hi)
  · rw [e] at hi; cases hi

theorem pass_frame_captured (w : World) (t : Int) (m : Machine) :
    pass_frame m (captured w t m) ∧ (captured w t m).n_init = m.n_init
      ∧ (captured w t m).n_capture = m.n_capture + 1 :=
  ⟨⟨rfl, rfl, rfl, le_refl _, Nat.lt_succ_self _, rfl, Or.inl rfl,
    fun _ => ⟨rfl, rfl, rfl, rfl, rfl, rfl⟩⟩, rfl, rfl⟩

theorem pass_frame_recovered (w : World) (t : Int) (m : Machine) :
    pass_frame m (recovered w t m).2 := by
  obtain ⟨r1, r2, r3, r4, r5, r6, r7, r8, r9, r10⟩ := recovered_spec w t m
  exact ⟨r3, r5, r4, by omega, by omega, r9, Or.inr r6, fun hn => by omega⟩

theorem grab_attempt_dda (w : World) (t : Int) (m : Machine) (r : Option Int × Machine)
    (h : grab_attempt w t m = .ok r) : m.g.dda_wrapper ≠ none := by
  intro hn
  rw [grab_attempt_null w t m hn] at h
  cases h

theorem grab_attempt_frame (w : World) (t : Int) (m m1 : Machine) (r : Option Int)
    (h : grab_attempt w t m = .ok (r, m1)) :
    pass_frame m m1 ∧ m1.n_init ≤ m.n_init + 1 ∧ m1.n_capture ≤ m.n_capture + 2 := by
  have hd := grab_attempt_dda w t m _ h
  rw [grab_attempt_eq w t m hd] at h
  obtain ⟨c1, c2, c3⟩ := pass_frame_captured w t m
  obtain ⟨d1, d2, d3⟩ := pass_frame_captured w t (recovered w t m).2
  have hr := pass_frame_recovered w t m
  obtain ⟨r1, r2, _⟩ := recovered_spec w t m
  split at h
  · cases h; exact ⟨c1, by omega, by omega⟩
  · split at h
    · split at h
      · cases h; exact ⟨hr, by omega, by omega⟩
      · split at h
        · cases h; exact ⟨pass_frame_trans _ _ _ hr d1, by omega, by omega⟩
        · cases h; exact ⟨pass_frame_trans _ _ _ hr d1, by omega, by omega⟩
    · cases h; exact ⟨c1, by omega, by omega⟩

theorem grab_loop_frame (w : World) (t : Int) (wait : Bool) :
    ∀ (fuel : Nat) (m m1 : Machine) (r : Option Int),
      grab_loop w t wait fuel m = .ok (r, m1) → pass_frame m m1
  | 0, m, m1, r, h => by
    rw [grab_loop] at h
    cases h
  | fuel + 1, m, m1, r, h => by
    rw [grab_loop] at h
    cases ha : grab_attempt w t m with
    | error f => rw [ha] at h; cases h
    | ok p =>
      obtain ⟨q, m2⟩ := p
      have hf := (grab_attempt_frame w t m m2 q ha).1
      rw [ha] at h
      cases q with
      | none =>
        simp only [] at h
        cases h
        exact hf
      | some af =>
        simp only [] at h
        split at h
        · exact pass_frame_trans _ _ _ hf (grab_loop_frame w t wait fuel m2 m1 r h)
        · cases h
          exact hf

theorem timeout_failed : FAILED DXGI_ERROR_WAIT_TIMEOUT = true := by decide

theorem grab_attempt_some (w : World) (t : Int) (m m1 : Machine) (af : Int)
    (h : grab_attempt w t m = .ok (some af, m1)) :
    ∃ m0, m1 = captured w t m0 ∧ m0.g.dda_wrapper ≠ none ∧ m.n_capture ≤ m0.n_capture
      ∧ FAILED (w.GetCapturedFrame m0.n_capture t).hr = false
      ∧ af = (w.GetCapturedFrame m0.n_capture t).accumulated_frames
      ∧ ∀ k, m.n_capture ≤ k → k < m0.n_capture →
          FAILED (w.GetCapturedFrame k t).hr = true := by
  have hd := grab_attempt_dda w t m _ h
  rw [grab_attempt_eq w t m hd] at h
  obtain ⟨r1, r2, _⟩ := recovered_spec w t m
  split at h
  · cases h
  · split at h
    · rename_i h1 h2
      split at h
      · cases h
      · rename_i h3
        split at h
        · cases h
        · rename_i h4
          cases h
          refine ⟨(recovered w t m).2, rfl, recovered_dda w t m (by simpa using h3), by omega,
            by simpa using h4, rfl, ?_⟩
          intro k hk1 hk2
          have : k = m.n_capture := by omega
          rw [this]; exact h2
    · rename_i h1 h2
      cases h
      exact ⟨m, rfl, hd, le_refl _, by simpa using h2, rfl, fun k hk1 hk2 => by omega⟩

theorem grab_loop_some (w : World) (t : Int) (wait : Bool) :
    ∀ (fuel : Nat) (m m1 : Machine) (af : Int),
      grab_loop w t wait fuel m = .ok (some af, m1) →
      ∃ m0, m1 = captured w t m0 ∧ m0.g.dda_wrapper ≠ none ∧ m.n_capture ≤ m0.n_capture
        ∧ accepted wait (w.GetCapturedFrame m0.n_capture t)
        ∧ af = (w.GetCapturedFrame m0.n_capture t).accumulated_frames
        ∧ ∀ k, m.n_capture ≤ k → k < m0.n_capture →
            ¬ accepted wait (w.GetCapturedFrame k t)
  | 0, m, m1, af, h => by
    rw [grab_loop] at h
    cases h
  | fuel + 1, m, m1, af, h => by
    rw [grab_loop] at h
    cases ha : grab_attempt w t m with
    | error f => rw [ha] at h; cases h
    | ok p =>
      obtain ⟨q, m2⟩ := p
      rw [ha] at h
      cases q with
      | none =>
        simp only [] at h
        cases h
      | some af2 =>
        simp only [] at h
        obtain ⟨m0, e1, e2, e3, e4, e5, e6⟩ := grab_attempt_some w t m m2 af2 ha
        split at h
        · rename_i hc
          obtain ⟨n0, f1, f2, f3, f4, f5, f6⟩ := grab_loop_some w t wait fuel m2 m1 af h
          have hm2 : m2.n_capture = m0.n_capture + 1 := by rw [e1]; rfl
          refine ⟨n0, f1, f2, by omega, f4, f5, ?_⟩
          intro k hk1 hk2
          by_cases hlt : k < m0.n_capture
          · intro hacc
            have := hacc.1
            rw [e6 k hk1 hlt] at this
            cases this
          · by_cases heq : k = m0.n_capture
            · intro hacc
              rw [heq] at hacc
              have := hacc.2 hc.1
              rw [← e5] at this
              omega
            · exact f6 k (by omega) hk2
        · rename_i hc
          cases h
          refine ⟨m0, e1, e2, e3, ⟨e4, ?_⟩, e5, ?_⟩
          · intro hw
            rw [← e5]
            by_contra hn
            exact hc ⟨hw, by omega⟩
          · intro k hk1 hk2 hacc
            have := hacc.1
            rw [e6 k hk1 hk2] at this
            cases this

theorem grab_loop_none (w : World) (t : Int) (wait : Bool) (fuel : Nat) (m m1 : Machine)
    (h : grab_attempt w t m = .ok (none, m1)) :
    grab_loop w t wait (fuel + 1) m = .ok (none, m1) := by
  rw [grab_loop, h]

theorem grab_loop_done (w : World) (t : Int) (wait : Bool) (fuel : Nat) (m m1 : Machine)
    (af : Int) (h : grab_attempt w t m = .ok (some af, m1))
    (hc : ¬ (wait = true ∧ af ≤ 0)) :
    grab_loop w t wait (fuel + 1) m = .ok (some af, m1) := by
  rw [grab_loop, h]
  simp only []
  rw [if_neg hc]

theorem grab_loop_again (w : World) (t : Int) (wait : Bool) (fuel : Nat) (m m1 : Machine)
    (af : Int) (h : grab_attempt w t m = .ok (some af, m1))
    (hc : wait = true ∧ af ≤ 0) :
    grab_loop w t wait (fuel + 1) m = grab_loop w t wait fuel m1 := by
  rw [grab_loop, h]
  simp only []
  rw [if_pos hc]

theorem grab_of_loop_none (w : World) (fuel : Nat) (m m1 : Machine)
    (x y wd ht format t : Int) (wait : Bool) (hw : 0 < wd) (hh : 0 < ht)
    (h : grab_loop w t wait fuel m = .ok (none, m1)) :
    grab w fuel (some m) x y wd ht format t wait = .ok (GrabResult.mk none 0, some m1) := by
  rw [grab, if_neg (by omega), h]

theorem grab_of_loop_some (w : World) (fuel : Nat) (m m1 m2 : Machine)
    (x y wd ht format t : Int) (wait : Bool) (af : Int) (hr : HRESULT)
    (hw : 0 < wd) (hh : 0 < ht)
    (h : grab_loop w t wait fuel m = .ok (some af, m1))
    (hs : grabber.save w m1 x y wd ht format = .ok (hr, m2)) :
    grab w fuel (some m) x y wd ht format t wait =
      if FAILED hr then .ok (GrabResult.mk none 0, some m2)
      else .ok (GrabResult.mk m2.g.output_image af, some m2) := by
  rw [grab, if_neg (by omega), h]
  simp only []
  rw [hs]

theorem grab_inv (w : World) (fuel : Nat) (m : Machine) (x y wd ht format t : Int)
    (wait : Bool) (r : GrabResult) (p : Option Machine) (hw : 0 < wd) (hh : 0 < ht)
    (h : grab w fuel (some m) x y wd ht format t wait = .ok (r, p)) :
    (∃ m1, grab_loop w t wait fuel m = .ok (none, m1) ∧ r = GrabResult.mk none 0
        ∧ p = some m1)
      ∨ (∃ af m1 hr m2, grab_loop w t wait fuel m = .ok (some af, m1)
        ∧ grabber.save w m1 x y wd ht format = .ok (hr, m2) ∧ p = some m2
        ∧ r = if FAILED hr then GrabResult.mk none 0
              else GrabResult.mk m2.g.output_image af) := by
  rw [grab, if_neg (by omega)] at h
  cases hl : grab_loop w t wait fuel m with
  | error f => rw [hl] at h; cases h
  | ok q =>
    obtain ⟨o, m1⟩ := q
    rw [hl] at h
    cases o with
    | none =>
      simp only [] at h
      cases h
      exact Or.inl ⟨m1, rfl, rfl, rfl⟩
    | some af =>
      simp only [] at h
      cases hs : grabber.save w m1 x y wd ht format with
      | error f => rw [hs] at h; cases h
      | ok q2 =>
        obtain ⟨hr, m2⟩ := q2
        rw [hs] at h
        simp only [] at h
        refine Or.inr ⟨af, m1, hr, m2, rfl, hs, ?_⟩
        split at h
        · rename_i hf
          cases h
          exact ⟨rfl, by rw [if_pos hf]⟩
        · rename_i hf
          cases h
          exact ⟨rfl, by rw [if_neg hf]⟩

theorem length_darknet_image (bits : List BYTE) (W : Nat) (ox oy : Int) (wd ht : Nat) :
    (darknet_image bits W ox oy wd ht).length = 3 * (4 * (ht * wd)) := by
  rw [darknet_image, length_cat _ (4 * (ht * wd)) 3 0
    (fun i _ => length_darknet_plane _ _ _ _ _ _ _)]

theorem save_healthy (w : World) (m : Machine) (x y wd ht format : Int) (W H : Nat)
    (bits : List BYTE)
    (hdev : m.g.device ≠ none) (hctx : m.g.device_context ≠ none)
    (hdup : m.g.duplication_texture = some (Texture2D.mk W H bits))
    (htex : staging_matches m.g W H) (hinv : buffer_ok m.g)
    (hst : staging_ok (w.staging m.n_save)) (hin : in_frame x y wd ht W H)
    (hb : bits.length = 4 * W * H) (hbl : bits.length < 2147483648)
    (hf : format = 0 ∨ format = 1) (hfit : format = 1 → wd * ht * 12 < 2147483648) :
    ∃ m2 id, grabber.save w m x y wd ht format = .ok ((w.staging m.n_save).unmap, m2)
      ∧ m2.g.output_image = some (OutputImage.mk id (converted format bits W x y wd ht))
      ∧ save_frame m m2 ∧ m2.n_save = m.n_save + 1
      ∧ staging_matches m2.g W H ∧ buffer_ok m2.g := by
  obtain ⟨hox, hoy, hw, hh, hx, hy⟩ := hin
  have hpos : 0 ≤ wd * ht := by positivity
  rcases hf with rfl | rfl
  · obtain ⟨dh, id, na, tr, hs⟩ := save_rgb_state w m x y wd ht W H bits hdev hctx hdup htex
      hinv hst hox hoy hw hh hx hy hb hbl
    refine ⟨_, id, hs, rfl, ⟨rfl, rfl, rfl, rfl, rfl, rfl⟩, rfl, ?_, ?_⟩
    · intro tx htx
      cases htx
      exact ⟨rfl, rfl, rfl⟩
    · intro img hi
      cases hi
      show (((rgb_image bits W x y wd.toNat ht.toNat).length : Nat) : Int) = wd * ht * 3
      rw [length_rgb_image, ← toNat_area wd ht 3 (by omega) (by omega)]
      exact Int.toNat_of_nonneg (by omega)
  · obtain ⟨dh, id, na, tr, hs⟩ := save_darknet_state w m x y wd ht W H bits hdev hctx hdup
      htex hinv hst hox hoy hw hh hx hy hb hbl (hfit rfl)
    refine ⟨_, id, hs, rfl, ⟨rfl, rfl, rfl, rfl, rfl, rfl⟩, rfl, ?_, ?_⟩
    · intro tx htx
      cases htx
      exact ⟨rfl, rfl, rfl⟩
    · intro img hi
      cases hi
      show (((darknet_image bits W x y wd.toNat ht.toNat).length : Nat) : Int) = wd * ht * 12
      have e : 3 * (4 * (ht.toNat * wd.toNat)) = ht.toNat * (wd.toNat * 12) := by ring
      rw [length_darknet_image, e, ← toNat_area wd ht 12 (by omega) (by omega)]
      exact Int.toNat_of_nonneg (by omega)

theorem grab_attempt_healthy (w : World) (t : Int) (m : Machine)
    (hd : m.g.dda_wrapper ≠ none)
    (hok : FAILED (w.GetCapturedFrame m.n_capture t).hr = false) :
    grab_attempt w t m
      = .ok (some (w.GetCapturedFrame m.n_capture t).accumulated_frames, captured w t m) := by
  have h1 : (w.GetCapturedFrame m.n_capture t).hr ≠ DXGI_ERROR_WAIT_TIMEOUT := by
    intro e
    rw [e, timeout_failed] at hok
    cases hok
  rw [grab_attempt_eq w t m hd, if_neg h1, hok]
  rfl

theorem grab_healthy (w : World) (fuel : Nat) (m : Machine) (x y wd ht format t : Int)
    (wait : Bool) (W H : Nat) (bits : List BYTE) (af : Int)
    (hu : usable m.g W H) (hd : delivers w m.n_capture t W H bits af)
    (hacc : wait = false ∨ 0 < af) (hst : staging_ok (w.staging m.n_save))
    (hin : in_frame x y wd ht W H)
    (hf : format = 0 ∨ format = 1) (hfit : format = 1 → wd * ht * 12 < 2147483648) :
    ∃ m2 id, grab w (fuel + 1) (some m) x y wd ht format t wait
        = .ok (GrabResult.mk (some (OutputImage.mk id (converted format bits W x y wd ht))) af,
            some m2)
      ∧ usable m2.g W H ∧ m2.n_init = m.n_init ∧ m2.n_capture = m.n_capture + 1
      ∧ m2.n_save = m.n_save + 1 := by
  obtain ⟨u1, u2, u3, u4, u5⟩ := hu
  obtain ⟨d1, d2, d3, d4, d5⟩ := hd
  have ha := grab_attempt_healthy w t m u1 d1
  rw [d3] at ha
  have hl := grab_loop_done w t wait fuel m _ af ha (by
    rintro ⟨hw1, hw2⟩
    rcases hacc with e | e
    · rw [e] at hw1; cases hw1
    · omega)
  obtain ⟨m2, id, hs, ho, hfr, hns, hsm, hbo⟩ := save_healthy w (captured w t m) x y wd ht
    format W H bits u2 u3 d2 u4 u5 hst hin d4 d5 hf hfit
  have hg := grab_of_loop_some w (fuel + 1) m _ m2 x y wd ht format t wait af _ hin.2.2.1
    hin.2.2.2.1 hl hs
  have hun : ¬ FAILED (w.staging (captured w t m).n_save).unmap = true := by
    have := hst.2.2.2
    intro hn
    rw [show (captured w t m).n_save = m.n_save from rfl, this] at hn
    cases hn
  rw [if_neg hun, ho] at hg
  obtain ⟨f1, f2, f3, f4, f5, f6⟩ := hfr
  refine ⟨m2, id, hg, ⟨?_, ?_, ?_, hsm, hbo⟩, f1, f2, hns⟩
  · rw [f4]; exact u1
  · rw [f5]; exact u2
  · rw [f6]; exact u3

theorem cleanup_trace (m : Machine) (e : Bool) :
    ∃ rest, (grabber.cleanup m e).trace = m.trace ++ Event.cleanup e :: rest := by
  obtain ⟨g, ni, nc, ns, na, tr, fs⟩ := m
  obtain ⟨dda, dev, ctx, dup, otex, oimg, olen, dw, dh⟩ := g
  cases dda <;> cases oimg <;> cases e <;>
    simp [grabber.cleanup, Machine.log]

theorem init_dxgi_loop_trace (w : World) (n : Nat) :
    ∀ (l : List Nat) (hr : HRESULT) (m : Machine),
      ∃ rest, (init_dxgi_loop w n l hr m).2.trace = m.trace ++ rest
  | [], hr, m => by
    rw [init_dxgi_loop]
    exact ⟨[], by simp⟩
  | i :: rest, hr, m => by
    rw [init_dxgi_loop]
    simp only []
    split
    · exact ⟨_, rfl⟩
    · obtain ⟨r2, h2⟩ := init_dxgi_loop_trace w n rest (w.D3D11CreateDevice n i).hr
        { m with g := { m.g with device := (w.D3D11CreateDevice n i).device,
                                 device_context := (w.D3D11CreateDevice n i).device_context },
                 trace := m.trace ++ [Event.create_device i (w.D3D11CreateDevice n i).hr] }
      exact ⟨_, by rw [h2, List.append_assoc]⟩

theorem init_duplication_trace (w : World) (n : Nat) (m : Machine) :
    ∃ rest, (grabber.init_duplication w n m).2.trace = m.trace ++ rest := by
  rw [grabber.init_duplication]
  cases h : m.g.dda_wrapper with
  | none => exact ⟨_, rfl⟩
  | some d => exact ⟨[], by simp⟩

theorem init_trace (w : World) (m : Machine) :
    ∃ rest, (grabber.init w m).2.trace = m.trace ++ Event.init :: rest := by
  rw [grabber.init, grabber.init_dxgi]
  simp only []
  obtain ⟨r1, h1⟩ := init_dxgi_loop_trace w m.n_init [0, 1, 2] S_OK
    { m with n_init := m.n_init + 1, trace := m.trace ++ [Event.init] }
  split
  · exact ⟨r1, by rw [h1]; simp⟩
  · obtain ⟨r2, h2⟩ := init_duplication_trace w m.n_init
      (init_dxgi_loop w m.n_init [0, 1, 2] S_OK
        { m with n_init := m.n_init + 1, trace := m.trace ++ [Event.init] }).2
    exact ⟨r1 ++ r2, by rw [h2, h1]; simp⟩

theorem recovered_trace (w : World) (t : Int) (m : Machine) :
    ∃ rest, (recovered w t m).2.trace
      = m.trace ++ [Event.capture (w.GetCapturedFrame m.n_capture t).hr
          (w.GetCapturedFrame m.n_capture t).accumulated_frames, Event.cleanup true] ++ rest := by
  obtain ⟨r1, h1⟩ := cleanup_trace (captured w t m) true
  obtain ⟨r2, h2⟩ := init_trace w (grabber.cleanup (captured w t m) true)
  refine ⟨r1 ++ Event.init :: r2, ?_⟩
  rw [recovered, h2, h1]
  simp [captured]

theorem grab_loop_nowait (w : World) (t : Int) (fuel : Nat) (m m1 : Machine) (r : Option Int)
    (h : grab_loop w t false fuel m = .ok (r, m1)) : grab_attempt w t m = .ok (r, m1) := by
  cases fuel with
  | zero => rw [grab_loop] at h; cases h
  | succ fuel =>
    rw [grab_loop] at h
    cases ha : grab_attempt w t m with
    | error f => rw [ha] at h; cases h
    | ok p =>
      obtain ⟨q, m2⟩ := p
      rw [ha] at h
      cases q with
      | none =>
        simp only [] at h
        exact h
      | some af =>
        simp only [] at h
        rw [if_neg (by simp)] at h
        exact h

/-- C3 (as the code has it): when the capture of a pass through the loop of
`grab` fails with an error other than the timeout, the pass returns, and the
event right after the failed capture is `cleanup(true)`, the full cleanup: run
on the session that the capture left, it releases the backend, the captured
frame, the staging texture, the device, the device context and the output
image; after the pass the session holds no output image and no staging texture,
and `init` has run once more. -/
theorem recovery_runs_full_cleanup (w : World) (t : Int) (m : Machine)
    (hd : m.g.dda_wrapper ≠ none)
    (hne : (w.GetCapturedFrame m.n_capture t).hr ≠ DXGI_ERROR_WAIT_TIMEOUT)
    (hf : FAILED (w.GetCapturedFrame m.n_capture t).hr = true) :
    ∃ r m1 rest, grab_attempt w t m = .ok (r, m1)
      ∧ m1.trace = m.trace ++ [Event.capture (w.GetCapturedFrame m.n_capture t).hr
            (w.GetCapturedFrame m.n_capture t).accumulated_frames, Event.cleanup true] ++ rest
      ∧ m1.n_init = m.n_init + 1
      ∧ m1.g.output_image = none ∧ m1.g.output_texture = none
      ∧ (grabber.cleanup (captured w t m) true).g
          = { m.g with dda_wrapper := none, duplication_texture := none,
                       output_texture := none, device := none, device_context := none,
                       output_image := none } := by
  have hcl : (grabber.cleanup (captured w t m) true).g
      = { m.g with dda_wrapper := none, duplication_texture := none,
                   output_texture := none, device := none, device_context := none,
                   output_image := none } := by
    rw [cleanup_true_g]
    rfl
  obtain ⟨rest, htr⟩ := recovered_trace w t m
  obtain ⟨r1, r2, r3, r4, r5, r6, r7, r8, r9, r10⟩ := recovered_spec w t m
  rw [grab_attempt_eq w t m hd, if_neg hne, if_pos hf]
  by_cases h3 : FAILED (recovered w t m).1 = true
  · rw [if_pos h3]
    exact ⟨_, _, rest, rfl, htr, r1, r6, r7, hcl⟩
  · rw [if_neg h3]
    by_cases h4 : FAILED (w.GetCapturedFrame (recovered w t m).2.n_capture t).hr = true
    · rw [if_pos h4]
      refine ⟨_, _, rest ++ [Event.capture
        (w.GetCapturedFrame (recovered w t m).2.n_capture t).hr
        (w.GetCapturedFrame (recovered w t m).2.n_capture t).accumulated_frames], rfl, ?_, r1,
        r6, r7, hcl⟩
      show (recovered w t m).2.trace ++ _ = _
      rw [htr, List.append_assoc]
    · rw [if_neg h4]
      refine ⟨_, _, rest ++ [Event.capture
        (w.GetCapturedFrame (recovered w t m).2.n_capture t).hr
        (w.GetCapturedFrame (recovered w t m).2.n_capture t).accumulated_frames], rfl, ?_, r1,
        r6, r7, hcl⟩
      show (recovered w t m).2.trace ++ _ = _
      rw [htr, List.append_assoc]

/-- C3, an instance: in `recovering_world` the failed capture of the second
`grab` is followed by `cleanup(true)`. -/
theorem recovery_runs_full_cleanup_witness :
    ∃ r m1 rest, grab_attempt recovering_world 0 grabbed_session = .ok (r, m1)
      ∧ m1.trace = grabbed_session.trace
          ++ [Event.capture (recovering_world.GetCapturedFrame grabbed_session.n_capture 0).hr
            (recovering_world.GetCapturedFrame grabbed_session.n_capture 0).accumulated_frames,
            Event.cleanup true] ++ rest
      ∧ m1.n_init = grabbed_session.n_init + 1
      ∧ m1.g.output_image = none ∧ m1.g.output_texture = none
      ∧ (grabber.cleanup (captured recovering_world 0 grabbed_session) true).g
          = { grabbed_session.g with
              dda_wrapper := none, duplication_texture := none, output_texture := none,
              device := none, device_context := none, output_image := none } :=
  recovery_runs_full_cleanup recovering_world 0 grabbed_session (by decide) (by decide)
    (by decide)

/-- C3, the counterexample to the partial cleanup: `grabbed_session` is what a
first `grab` leaves; it has the device 1, the context 2, a staging texture and an
output image.  The next pass, whose capture fails with `E_FAIL`, runs
`cleanup(true)`: it deletes the output image, and it ends with a new device 3, a
new context 4, no staging texture and no output image. -/
theorem recovery_partial_cleanup_counterexample :
    grab recovering_world 1 (create recovering_world 0) 0 0 2 2 0 0 false
        = .ok (GrabResult.mk grabbed_session.g.output_image 1, some grabbed_session)
      ∧ (grab_attempt recovering_world 0 grabbed_session).toOption.map
          (fun p => (p.2.g.device, p.2.g.device_context, p.2.g.output_texture,
            p.2.g.output_image, p.2.trace.drop grabbed_session.trace.length))
        = some (some 3, some 4, none, none,
            [Event.capture (-2147467259) 0, Event.cleanup true, Event.delete_dda,
             Event.delete_image 0, Event.init, Event.create_device 0 0, Event.new_dda,
             Event.dda_init 0, Event.capture 0 1]) :=
  ⟨rfl, rfl⟩

/-- C4 (as the code has it): one pass through the loop of `grab` runs `init`,
that is the recovery, at most once; and a call of `grab` with `wait = false`,
which makes one pass, runs it at most once. -/
theorem recovery_at_most_once_per_pass (w : World) (t : Int) :
    (∀ (m m1 : Machine) (r : Option Int), grab_attempt w t m = .ok (r, m1) →
        m1.n_init ≤ m.n_init + 1)
      ∧ (∀ (fuel : Nat) (m m1 : Machine) (x y wd ht format : Int) (r : GrabResult),
          grab w fuel (some m) x y wd ht format t false = .ok (r, some m1) →
          m1.n_init ≤ m.n_init + 1) := by
  refine ⟨fun m m1 r h => (grab_attempt_frame w t m m1 r h).2.1, ?_⟩
  intro fuel m m1 x y wd ht format r h
  by_cases hv : wd ≤ 0 ∨ ht ≤ 0
  · rw [grab, if_pos hv] at h
    cases h
    omega
  · rcases grab_inv w fuel m x y wd ht format t false r (some m1) (by omega) (by omega) h with
      ⟨m2, hl, _, hp⟩ | ⟨af, m2, hr, m3, hl, hs, hp, _⟩
    · cases hp
      exact (grab_attempt_frame w t m m1 none (grab_loop_nowait w t fuel m m1 none hl)).2.1
    · cases hp
      have h1 := (grab_attempt_frame w t m m2 _ (grab_loop_nowait w t fuel m m2 _ hl)).2.1
      have h2 := (save_general w m2 m1 x y wd ht format hr hs).1.1
      omega

/-- C4, an instance: the second `grab` in `recovering_world`, with `wait = false`,
runs `init` once. -/
theorem recovery_at_most_once_per_pass_witness :
    recovered_session.n_init ≤ grabbed_session.n_init + 1 :=
  (recovery_at_most_once_per_pass recovering_world 0).2 1 grabbed_session recovered_session
    0 0 2 2 0 (GrabResult.mk recovered_session.g.output_image 1) rfl

/-- C4, the counterexample to a single recovery per call: in `flaky_world` one
call of `grab` with `wait = true` on the session made by `create` (one `init` so
far) runs the recovery twice, `cleanup(true)` and `init` after the capture 0 and
again after the capture 2, and returns with three `init` calls made. -/
theorem recovery_twice_counterexample :
    (create flaky_world 0).map (fun m => (m.n_init, m.trace))
        = some (1, [Event.init, Event.create_device 0 0, Event.new_dda, Event.dda_init 0])
      ∧ (grab flaky_world 2 (create flaky_world 0) 0 0 2 2 0 0 true).toOption.map
          (fun p => (p.1.frames, p.2.map (fun m => (m.n_init, m.trace))))
        = some (1, some (3,
            [Event.init, Event.create_device 0 0, Event.new_dda, Event.dda_init 0,
             Event.capture (-2147467259) 0, Event.cleanup true, Event.delete_dda,
             Event.init, Event.create_device 0 0, Event.new_dda, Event.dda_init 0,
             Event.capture 0 0,
             Event.capture (-2147467259) 0, Event.cleanup true, Event.delete_dda,
             Event.init, Event.create_device 0 0, Event.new_dda, Event.dda_init 0,
             Event.capture 0 1, Event.save 0, Event.new_image 0 12])) :=
  ⟨rfl, rfl⟩

/-- C5: if the first capture of a call of `grab` with a non-empty region reports
`DXGI_ERROR_WAIT_TIMEOUT`, then `grab` returns null with the frame count 0,
whatever `wait` and the format are, and all it has done is that one capture: the
session differs only by the captured-frame pointer, the count of captures and
the one capture event; no `cleanup`, `init`, second `capture` or `save` ran. -/
theorem grab_timeout_not_retried (w : World) (fuel : Nat) (m : Machine)
    (x y wd ht format t : Int) (wait : Bool) (hw : 0 < wd) (hh : 0 < ht)
    (hd : m.g.dda_wrapper ≠ none)
    (hto : (w.GetCapturedFrame m.n_capture t).hr = DXGI_ERROR_WAIT_TIMEOUT) :
    grab w (fuel + 1) (some m) x y wd ht format t wait
      = .ok (GrabResult.mk none 0,
          some { m with
            g := { m.g with
              duplication_texture := (w.GetCapturedFrame m.n_capture t).texture },
            n_capture := m.n_capture + 1,
            trace := m.trace ++ [Event.capture DXGI_ERROR_WAIT_TIMEOUT
              (w.GetCapturedFrame m.n_capture t).accumulated_frames] }) := by
  have ha : grab_attempt w t m = .ok (none, captured w t m) := by
    rw [grab_attempt_eq w t m hd, if_pos hto]
  have hg := grab_of_loop_none w (fuel + 1) m _ x y wd ht format t wait hw hh
    (grab_loop_none w t wait fuel m _ ha)
  rw [hg, captured, hto]

/-- C5, an instance: in `timeout_world`, with `wait = true`. -/
theorem grab_timeout_not_retried_witness :
    grab timeout_world 1 (some grabbed_session) 0 0 2 2 0 0 true
      = .ok (GrabResult.mk none 0,
          some { grabbed_session with
            g := { grabbed_session.g with
              duplication_texture :=
                (timeout_world.GetCapturedFrame grabbed_session.n_capture 0).texture },
            n_capture := grabbed_session.n_capture + 1,
            trace := grabbed_session.trace ++ [Event.capture DXGI_ERROR_WAIT_TIMEOUT
              (timeout_world.GetCapturedFrame grabbed_session.n_capture 0).accumulated_frames] }) :=
  grab_timeout_not_retried timeout_world 0 grabbed_session 0 0 2 2 0 0 true (by decide)
    (by decide) (by decide) rfl

/-- C6: with `width <= 0` or `height <= 0`, `grab` returns null with the frame
count 0 and hands the session back exactly as it was (for a null session too):
no `capture`, `cleanup`, `init` or `save` ran, and the output image is
untouched. -/
theorem grab_rejects_empty_region (w : World) (fuel : Nat) (handle : Option Machine)
    (x y wd ht format t : Int) (wait : Bool) (h : wd ≤ 0 ∨ ht ≤ 0) :
    grab w fuel handle x y wd ht format t wait = .ok (GrabResult.mk none 0, handle) := by
  cases handle with
  | none => rw [grab]
  | some m => rw [grab, if_pos h]

/-- C6, an instance: a region of width 0. -/
theorem grab_rejects_empty_region_witness :
    grab healthy_world 1 (some grabbed_session) 0 0 0 2 0 0 true
      = .ok (GrabResult.mk none 0, some grabbed_session) :=
  grab_rejects_empty_region healthy_world 1 (some grabbed_session) 0 0 0 2 0 0 true
    (Or.inl (by decide))

theorem usable_after_reset (w : World) (m : Machine) (W H : Nat)
    (hok : FAILED (grabber.init w (grabber.cleanup m true)).1 = false)
    (hdev : (grabber.init w (grabber.cleanup m true)).2.g.device ≠ none)
    (hctx : (grabber.init w (grabber.cleanup m true)).2.g.device_context ≠ none) :
    usable (grabber.init w (grabber.cleanup m true)).2.g W H := by
  obtain ⟨⟨a1, a2, a3, a4, a5, a6, a7, a8, a9⟩, b, c⟩ := init_spec w (grabber.cleanup m true)
  have hg := cleanup_true_g m
  refine ⟨c hok, hdev, hctx, ?_, ?_⟩
  · intro tx htx
    rw [a7, hg] at htx
    cases htx
  · intro img hi
    rw [a5, hg] at hi
    cases hi

theorem grab_attempt_recovered (w : World) (t : Int) (m : Machine)
    (hd : m.g.dda_wrapper ≠ none)
    (hne : (w.GetCapturedFrame m.n_capture t).hr ≠ DXGI_ERROR_WAIT_TIMEOUT)
    (hf : FAILED (w.GetCapturedFrame m.n_capture t).hr = true)
    (hinit : FAILED (recovered w t m).1 = false)
    (hcap : FAILED (w.GetCapturedFrame (m.n_capture + 1) t).hr = false) :
    grab_attempt w t m
      = .ok (some (w.GetCapturedFrame (m.n_capture + 1) t).accumulated_frames,
          captured w t (recovered w t m).2) := by
  have hn := (recovered_spec w t m).2.1
  rw [grab_attempt_eq w t m hd, if_neg hne, if_pos hf, hinit, hn, hcap]
  rfl

theorem grab_attempt_recovery_failed (w : World) (t : Int) (m : Machine)
    (hd : m.g.dda_wrapper ≠ none)
    (hne : (w.GetCapturedFrame m.n_capture t).hr ≠ DXGI_ERROR_WAIT_TIMEOUT)
    (hf : FAILED (w.GetCapturedFrame m.n_capture t).hr = true)
    (hbad : FAILED (recovered w t m).1 = true
      ∨ FAILED (w.GetCapturedFrame (m.n_capture + 1) t).hr = true) :
    ∃ m1, grab_attempt w t m = .ok (none, m1) ∧ m1.n_save = m.n_save
      ∧ m1.files = m.files ∧ m1.n_init = m.n_init + 1 := by
  obtain ⟨r1, r2, r3, r4, r5, _⟩ := recovered_spec w t m
  rw [grab_attempt_eq w t m hd, if_neg hne, if_pos hf]
  by_cases h3 : FAILED (recovered w t m).1 = true
  · rw [if_pos h3]
    exact ⟨_, rfl, r3, r5, r1⟩
  · rw [if_neg h3]
    rcases hbad with hb | hb
    · exact absurd hb h3
    · rw [r2, if_pos hb]
      exact ⟨_, rfl, r3, r5, r1⟩

theorem iterate_captured (w : World) (t : Int) :
    ∀ (j : Nat) (m : Machine),
      (Nat.iterate (captured w t) j m).n_capture = m.n_capture + j
        ∧ (Nat.iterate (captured w t) j m).n_save = m.n_save
        ∧ (Nat.iterate (captured w t) j m).n_init = m.n_init
        ∧ (Nat.iterate (captured w t) j m).g.dda_wrapper = m.g.dda_wrapper
        ∧ (Nat.iterate (captured w t) j m).g.device = m.g.device
        ∧ (Nat.iterate (captured w t) j m).g.device_context = m.g.device_context
        ∧ (Nat.iterate (captured w t) j m).g.output_texture = m.g.output_texture
        ∧ (Nat.iterate (captured w t) j m).g.duplication_width = m.g.duplication_width
        ∧ (Nat.iterate (captured w t) j m).g.output_image = m.g.output_image
        ∧ (Nat.iterate (captured w t) j m).g.output_image_length = m.g.output_image_length
  | 0, m => ⟨rfl, rfl, rfl, rfl, rfl, rfl, rfl, rfl, rfl, rfl⟩
  | j + 1, m => by
    obtain ⟨a1, a2, a3, a4, a5, a6, a7, a8, a9, a10⟩ := iterate_captured w t j (captured w t m)
    rw [Function.iterate_succ_apply]
    refine ⟨?_, a2, a3, a4, a5, a6, a7, a8, a9, a10⟩
    rw [a1]
    show m.n_capture + 1 + j = m.n_capture + (j + 1)
    omega

theorem usable_iterate_captured (w : World) (t : Int) (j : Nat) (m : Machine) (W H : Nat)
    (h : usable m.g W H) : usable (Nat.iterate (captured w t) j m).g W H := by
  obtain ⟨a1, a2, a3, a4, a5, a6, a7, a8, a9, a10⟩ := iterate_captured w t j m
  obtain ⟨u1, u2, u3, u4, u5⟩ := h
  refine ⟨by rw [a4]; exact u1, by rw [a5]; exact u2, by rw [a6]; exact u3, ?_, ?_⟩
  · intro tx htx
    rw [a7] at htx
    rw [a8]
    exact u4 tx htx
  · intro img hi
    rw [a9] at hi
    rw [a10]
    exact u5 img hi

theorem grab_loop_skip (w : World) (t : Int) :
    ∀ (j fuel : Nat) (m : Machine), m.g.dda_wrapper ≠ none →
      (∀ i, i < j → FAILED (w.GetCapturedFrame (m.n_capture + i) t).hr = false
        ∧ (w.GetCapturedFrame (m.n_capture + i) t).accumulated_frames ≤ 0) →
      grab_loop w t true (fuel + j) m = grab_loop w t true fuel (Nat.iterate (captured w t) j m)
  | 0, fuel, m, _, _ => rfl
  | j + 1, fuel, m, hd, h => by
    obtain ⟨h0, h1⟩ := h 0 (by omega)
    have ha := grab_attempt_healthy w t m hd h0
    have e : fuel + (j + 1) = (fuel + j) + 1 := by omega
    rw [e, grab_loop_again w t true (fuel + j) m _ _ ha ⟨rfl, h1⟩, Function.iterate_succ_apply]
    exact grab_loop_skip w t j fuel (captured w t m) hd (fun i hi => by
      have := h (i + 1) (by omega)
      rw [show (captured w t m).n_capture + i = m.n_capture + (i + 1) from by
        show m.n_capture + 1 + i = _
        omega]
      exact this)

theorem grab_after_skip (w : World) (j fuel : Nat) (m : Machine) (x y wd ht format t : Int)
    (W H : Nat) (bits : List BYTE) (af : Int)
    (hu : usable m.g W H)
    (hskip : ∀ i, i < j → FAILED (w.GetCapturedFrame (m.n_capture + i) t).hr = false
        ∧ (w.GetCapturedFrame (m.n_capture + i) t).accumulated_frames ≤ 0)
    (hd : delivers w (m.n_capture + j) t W H bits af) (hacc : 0 < af)
    (hst : staging_ok (w.staging m.n_save)) (hin : in_frame x y wd ht W H)
    (hf : format = 0 ∨ format = 1) (hfit : format = 1 → wd * ht * 12 < 2147483648) :
    ∃ m2 id, grab w (fuel + 1 + j) (some m) x y wd ht format t true
        = .ok (GrabResult.mk (some (OutputImage.mk id (converted format bits W x y wd ht))) af,
            some m2)
      ∧ usable m2.g W H ∧ m2.n_capture = m.n_capture + j + 1 := by
  obtain ⟨a1, a2, a3, a4, a5, a6, a7, a8, a9, a10⟩ := iterate_captured w t j m
  have hu2 := usable_iterate_captured w t j m W H hu
  obtain ⟨u1, u2, u3, u4, u5⟩ := hu2
  obtain ⟨d1, d2, d3, d4, d5⟩ := hd
  rw [← a1] at d1 d2 d3
  rw [← a2] at hst
  have hsk := grab_loop_skip w t j (fuel + 1) m hu.1 hskip
  have ha := grab_attempt_healthy w t (Nat.iterate (captured w t) j m) u1 d1
  rw [d3] at ha
  have hl := grab_loop_done w t true fuel _ _ af ha (by
    rintro ⟨_, hw2⟩
    omega)
  rw [← hsk] at hl
  obtain ⟨m2, id, hs, ho, hfr, hns, hsm, hbo⟩ := save_healthy w
    (captured w t (Nat.iterate (captured w t) j m)) x y wd ht format W H bits u2 u3 d2 u4 u5
    hst hin d4 d5 hf hfit
  have hg := grab_of_loop_some w (fuel + 1 + j) m _ m2 x y wd ht format t true af _ hin.2.2.1
    hin.2.2.2.1 hl hs
  have hun : ¬ FAILED (w.staging
      (captured w t (Nat.iterate (captured w t) j m)).n_save).unmap = true := by
    have := hst.2.2.2
    intro hn
    rw [show (captured w t (Nat.iterate (captured w t) j m)).n_save
      = (Nat.iterate (captured w t) j m).n_save from rfl, this] at hn
    cases hn
  rw [if_neg hun, ho] at hg
  obtain ⟨f1, f2, f3, f4, f5, f6⟩ := hfr
  refine ⟨m2, id, hg, ⟨?_, ?_, ?_, hsm, hbo⟩, ?_⟩
  · rw [f4]; exact u1
  · rw [f5]; exact u2
  · rw [f6]; exact u3
  · rw [f2]
    show (Nat.iterate (captured w t) j m).n_capture + 1 = _
    rw [a1]

/-- C7: the capture that `grab` converts is the first one of the call that is
accepted: a successful capture and, when `wait` is set, one with
`accumulated_frames > 0`.  (1) Whenever `grab` returns data, the data is the
output image left by `save` run right after a capture that is accepted, no
earlier capture of the call was accepted, the reported count is that capture's,
and it is positive when `wait` is set.  (2) If the first capture succeeds and
either `wait` is unset or its count is positive (so also with `wait` unset and
the count 0), `grab` returns the conversion of that capture, with its count.
(3) With `wait` set, `grab` passes over `j` successful captures without
accumulated frames and returns the conversion of the next one, which has a
positive count. -/
theorem grab_waits_for_change (w : World) (t : Int) :
    (∀ (wait : Bool) (fuel : Nat) (m : Machine) (x y wd ht format : Int) (r : GrabResult)
        (p : Option Machine), 0 < wd → 0 < ht →
        grab w fuel (some m) x y wd ht format t wait = .ok (r, p) → r.data ≠ none →
        ∃ m0 hr m2, m.n_capture ≤ m0.n_capture
          ∧ accepted wait (w.GetCapturedFrame m0.n_capture t)
          ∧ (∀ k, m.n_capture ≤ k → k < m0.n_capture →
              ¬ accepted wait (w.GetCapturedFrame k t))
          ∧ grabber.save w (captured w t m0) x y wd ht format = .ok (hr, m2)
          ∧ p = some m2 ∧ r.data = m2.g.output_image
          ∧ r.frames = (w.GetCapturedFrame m0.n_capture t).accumulated_frames
          ∧ (wait = true → 0 < r.frames))
      ∧ (∀ (wait : Bool) (fuel : Nat) (m : Machine) (x y wd ht format : Int) (W H : Nat)
          (bits : List BYTE) (af : Int), usable m.g W H →
          delivers w m.n_capture t W H bits af → (wait = false ∨ 0 < af) →
          staging_ok (w.staging m.n_save) → in_frame x y wd ht W H →
          (format = 0 ∨ format = 1) → (format = 1 → wd * ht * 12 < 2147483648) →
          ∃ m2 id, grab w (fuel + 1) (some m) x y wd ht format t wait
            = .ok (GrabResult.mk
                (some (OutputImage.mk id (converted format bits W x y wd ht))) af, some m2))
      ∧ (∀ (j fuel : Nat) (m : Machine) (x y wd ht format : Int) (W H : Nat)
          (bits : List BYTE) (af : Int), usable m.g W H →
          (∀ i, i < j → FAILED (w.GetCapturedFrame (m.n_capture + i) t).hr = false
            ∧ (w.GetCapturedFrame (m.n_capture + i) t).accumulated_frames ≤ 0) →
          delivers w (m.n_capture + j) t W H bits af → 0 < af →
          staging_ok (w.staging m.n_save) → in_frame x y wd ht W H →
          (format = 0 ∨ format = 1) → (format = 1 → wd * ht * 12 < 2147483648) →
          ∃ m2 id, grab w (fuel + 1 + j) (some m) x y wd ht format t true
            = .ok (GrabResult.mk
                (some (OutputImage.mk id (converted format bits W x y wd ht))) af, some m2)) := by
  refine ⟨?_, ?_, ?_⟩
  · intro wait fuel m x y wd ht format r p hw hh h hdata
    rcases grab_inv w fuel m x y wd ht format t wait r p hw hh h with
      ⟨m1, _, hr, _⟩ | ⟨af, m1, hr, m2, hl, hs, hp, hres⟩
    · rw [hr] at hdata
      exact absurd rfl hdata
    · obtain ⟨m0, e1, e2, e3, e4, e5, e6⟩ := grab_loop_some w t wait fuel m m1 af hl
      by_cases hF : FAILED hr = true
      · rw [if_pos hF] at hres
        rw [hres] at hdata
        exact absurd rfl hdata
      · rw [if_neg hF] at hres
        rw [e1] at hs
        refine ⟨m0, hr, m2, e3, e4, e6, hs, hp, by rw [hres], by rw [hres]; exact e5, ?_⟩
        intro hwt
        rw [hres]
        show 0 < af
        rw [e5]
        exact e4.2 hwt
  · intro wait fuel m x y wd ht format W H bits af hu hd hacc hst hin hf hfit
    obtain ⟨m2, id, hg, _⟩ := grab_healthy w fuel m x y wd ht format t wait W H bits af hu hd
      hacc hst hin hf hfit
    exact ⟨m2, id, hg⟩
  · intro j fuel m x y wd ht format W H bits af hu hskip hd hacc hst hin hf hfit
    obtain ⟨m2, id, hg, _⟩ := grab_after_skip w j fuel m x y wd ht format t W H bits af hu
      hskip hd hacc hst hin hf hfit
    exact ⟨m2, id, hg⟩

/-- C7, an instance: in `flaky_world` the capture number 1 succeeds with no
accumulated frame; `grab` with `wait = false` on a session about to make that
capture returns its conversion with the frame count 0. -/
theorem grab_waits_for_change_witness :
    ∃ m2 id, grab flaky_world 1 (some grabbed_session) 0 0 2 2 0 0 false
      = .ok (GrabResult.mk
          (some (OutputImage.mk id (converted 0 frame2x2.bits 2 0 0 2 2))) 0, some m2) :=
  (grab_waits_for_change flaky_world 0).2.1 false 0 grabbed_session 0 0 2 2 0 2 2
    frame2x2.bits 0
    ⟨by decide, by decide, by decide, fun tx h => by cases h; exact ⟨rfl, rfl, rfl⟩,
      fun img h => by cases h; rfl⟩
    ⟨rfl, rfl, rfl, rfl, by decide⟩ (Or.inl rfl) ⟨rfl, rfl, rfl, rfl⟩
    ⟨by decide, by decide, by decide, by decide, by decide, by decide⟩ (Or.inl rfl)
    (fun h => absurd h (by decide))

/-- C8 (as the code has it): whenever `grab` returns, for the formats 0 and 1 a
null result comes with the frame count 0, and data is returned only for the
formats 0 and 1; for any other format the result is always null; and for every
format, when the loop ends with an accepted capture and `save` succeeds, the
reported frame count is the count of that capture (so a null result for an
unsupported format carries that count, which need not be 0). -/
theorem grab_result_dichotomy (w : World) (fuel : Nat) (handle : Option Machine)
    (x y wd ht format t : Int) (wait : Bool) (r : GrabResult) (p : Option Machine)
    (h : grab w fuel handle x y wd ht format t wait = .ok (r, p)) :
    (format = 0 ∨ format = 1 → r.data = none → r.frames = 0)
      ∧ (r.data ≠ none → format = 0 ∨ format = 1)
      ∧ (format ≠ 0 → format ≠ 1 → r.data = none)
      ∧ (∀ (m m1 m2 : Machine) (af : Int) (hr : HRESULT), handle = some m → 0 < wd → 0 < ht →
          grab_loop w t wait fuel m = .ok (some af, m1) →
          grabber.save w m1 x y wd ht format = .ok (hr, m2) → FAILED hr = false →
          r.frames = af) := by
  have hlast : ∀ (m m1 m2 : Machine) (af : Int) (hr : HRESULT), handle = some m → 0 < wd →
      0 < ht → grab_loop w t wait fuel m = .ok (some af, m1) →
      grabber.save w m1 x y wd ht format = .ok (hr, m2) → FAILED hr = false →
      r.frames = af := by
    intro m m1 m2 af hr hm hw hh hl hs hok
    rw [hm, grab_of_loop_some w fuel m m1 m2 x y wd ht format t wait af hr hw hh hl hs,
      if_neg (by rw [hok]; decide)] at h
    cases h
    rfl
  refine ⟨?_, ?_, ?_, hlast⟩ <;> clear hlast
  all_goals
    cases handle with
    | none =>
      rw [grab] at h
      cases h
      first
        | exact fun _ _ => rfl
        | exact fun hn => absurd rfl hn
    | some m =>
      by_cases hv : wd ≤ 0 ∨ ht ≤ 0
      · rw [grab, if_pos hv] at h
        cases h
        first
          | exact fun _ _ => rfl
          | exact fun hn => absurd rfl hn
      · rcases grab_inv w fuel m x y wd ht format t wait r p (by omega) (by omega) h with
          ⟨m1, _, hr, _⟩ | ⟨af, m1, hr, m2, hl, hs, hp, hres⟩
        · rw [hr]
          first
            | exact fun _ _ => rfl
            | exact fun hn => absurd rfl hn
        · by_cases hF : FAILED hr = true
          · rw [if_pos hF] at hres
            rw [hres]
            first
              | exact fun _ _ => rfl
              | exact fun hn => absurd rfl hn
          · rw [if_neg hF] at hres
            obtain ⟨s0, s1, s2⟩ := (save_general w m1 m2 x y wd ht format hr hs).2.2.2
              (by simpa using hF)
            rw [hres]
            first
              | (rintro (hf | hf) hnone
                 · exact absurd hnone (s0 hf).1
                 · exact absurd hnone (s1 hf).1)
              | (intro hdata
                 by_contra hn
                 have := (s2 (fun e => hn (Or.inl e)) (fun e => hn (Or.inr e))).1
                 exact hdata this)
              | (intro h0 h1
                 exact (s2 h0 h1).1)

/-- C8, an instance: the first `grab` in `recovering_world`, which returns
data. -/
theorem grab_result_dichotomy_witness :
    ((0 : Int) = 0 ∨ (0 : Int) = 1 → grabbed_session.g.output_image = none → (1 : Int) = 0)
      ∧ (grabbed_session.g.output_image ≠ none → (0 : Int) = 0 ∨ (0 : Int) = 1)
      ∧ ((0 : Int) ≠ 0 → (0 : Int) ≠ 1 → grabbed_session.g.output_image = none)
      ∧ (∀ (m m1 m2 : Machine) (af : Int) (hr : HRESULT),
          create recovering_world 0 = some m → (0 : Int) < 2 → (0 : Int) < 2 →
          grab_loop recovering_world 0 false 1 m = .ok (some af, m1) →
          grabber.save recovering_world m1 0 0 2 2 0 = .ok (hr, m2) → FAILED hr = false →
          (1 : Int) = af) :=
  grab_result_dichotomy recovering_world 1 (create recovering_world 0) 0 0 2 2 0 0 false
    (GrabResult.mk grabbed_session.g.output_image 1) (some grabbed_session) rfl

/-- C8, the counterexample to "null comes with the count 0": in `healthy_world`
a `grab` with the format 2 on the session made by `create` returns null and
reports the frame count 1. -/
theorem grab_null_with_frames_counterexample :
    (grab healthy_world 1 (create healthy_world 0) 0 0 2 2 2 0 false).toOption.map
        (fun p => (p.1.data, p.1.frames))
      = some (none, 1) := by
  decide

/-- C9: if the first capture of `grab` fails with an error other than the
timeout, the recovery (`cleanup()` then `init()`) succeeds and leaves a device
and a device context, the retried capture delivers a `W × H` frame with the
count `n` (with `wait` unset, or `n > 0`), the Direct3D calls of `save` succeed
and the region lies in the frame, then for the formats 0 and 1 `grab` returns
the conversion of the retried frame and reports `n`; and on the session it
leaves, a following `grab` whose capture delivers a frame returns the conversion
of that frame. -/
theorem grab_recovers (w : World) (fuel : Nat) (m : Machine) (x y wd ht format t : Int)
    (wait : Bool) (W H : Nat) (bits : List BYTE) (n : Int)
    (hd : m.g.dda_wrapper ≠ none)
    (hne : (w.GetCapturedFrame m.n_capture t).hr ≠ DXGI_ERROR_WAIT_TIMEOUT)
    (hfail : FAILED (w.GetCapturedFrame m.n_capture t).hr = true)
    (hinit : FAILED (recovered w t m).1 = false)
    (hdev : (recovered w t m).2.g.device ≠ none)
    (hctx : (recovered w t m).2.g.device_context ≠ none)
    (hcap : delivers w (m.n_capture + 1) t W H bits n) (hacc : wait = false ∨ 0 < n)
    (hst : staging_ok (w.staging m.n_save)) (hin : in_frame x y wd ht W H)
    (hf : format = 0 ∨ format = 1) (hfit : format = 1 → wd * ht * 12 < 2147483648) :
    ∃ m2 id, grab w (fuel + 1) (some m) x y wd ht format t wait
        = .ok (GrabResult.mk (some (OutputImage.mk id (converted format bits W x y wd ht))) n,
            some m2)
      ∧ m2.n_init = m.n_init + 1 ∧ m2.n_capture = m.n_capture + 2
      ∧ m2.n_save = m.n_save + 1
      ∧ ∀ (fuel2 : Nat) (x2 y2 wd2 ht2 format2 t2 : Int) (wait2 : Bool) (bits2 : List BYTE)
          (n2 : Int), delivers w m2.n_capture t2 W H bits2 n2 → (wait2 = false ∨ 0 < n2) →
          staging_ok (w.staging m2.n_save) → in_frame x2 y2 wd2 ht2 W H →
          (format2 = 0 ∨ format2 = 1) → (format2 = 1 → wd2 * ht2 * 12 < 2147483648) →
          ∃ m3 id3, grab w (fuel2 + 1) (some m2) x2 y2 wd2 ht2 format2 t2 wait2
            = .ok (GrabResult.mk
                (some (OutputImage.mk id3 (converted format2 bits2 W x2 y2 wd2 ht2))) n2,
                some m3) := by
  obtain ⟨r1, r2, r3, _⟩ := recovered_spec w t m
  obtain ⟨u1, u2, u3, u4, u5⟩ := usable_after_reset w (captured w t m) W H hinit hdev hctx
  obtain ⟨d1, d2, d3, d4, d5⟩ := hcap
  have ha := grab_attempt_recovered w t m hd hne hfail hinit d1
  rw [d3] at ha
  have hl := grab_loop_done w t wait fuel m _ n ha (by
    rintro ⟨hw1, hw2⟩
    rcases hacc with e | e
    · rw [e] at hw1; cases hw1
    · omega)
  rw [← r2] at d2
  have hst2 : staging_ok (w.staging (captured w t (recovered w t m).2).n_save) := by
    show staging_ok (w.staging (recovered w t m).2.n_save)
    rw [r3]
    exact hst
  obtain ⟨m2, id, hs, ho, hfr, hns, hsm, hbo⟩ := save_healthy w
    (captured w t (recovered w t m).2) x y wd ht format W H bits u2 u3 d2 u4 u5 hst2 hin d4 d5
    hf hfit
  have hg := grab_of_loop_some w (fuel + 1) m _ m2 x y wd ht format t wait n _ hin.2.2.1
    hin.2.2.2.1 hl hs
  have hun : ¬ FAILED (w.staging (captured w t (recovered w t m).2).n_save).unmap = true := by
    have := hst2.2.2.2
    intro hn
    rw [this] at hn
    cases hn
  rw [if_neg hun, ho] at hg
  obtain ⟨f1, f2, f3, f4, f5, f6⟩ := hfr
  have hu2 : usable m2.g W H :=
    ⟨by rw [f4]; exact u1, by rw [f5]; exact u2, by rw [f6]; exact u3, hsm, hbo⟩
  refine ⟨m2, id, hg, ?_, ?_, ?_, ?_⟩
  · rw [f1]
    exact r1
  · rw [f2]
    show (recovered w t m).2.n_capture + 1 = _
    rw [r2]
  · rw [hns]
    show (recovered w t m).2.n_save + 1 = _
    rw [r3]
  · intro fuel2 x2 y2 wd2 ht2 format2 t2 wait2 bits2 n2 hd2 hacc2 hst3 hin2 hf2 hfit2
    obtain ⟨m3, id3, hg3, _⟩ := grab_healthy w fuel2 m2 x2 y2 wd2 ht2 format2 t2 wait2 W H bits2
      n2 hu2 hd2 hacc2 hst3 hin2 hf2 hfit2
    exact ⟨m3, id3, hg3⟩

/-- C9, an instance: the second `grab` in `recovering_world`, whose first capture
fails with `E_FAIL`; a third `grab` returns data too. -/
theorem grab_recovers_witness :
    (∃ m2 id, grab recovering_world 1 (some grabbed_session) 0 0 2 2 0 0 false
        = .ok (GrabResult.mk
            (some (OutputImage.mk id (converted 0 frame2x2.bits 2 0 0 2 2))) 1, some m2)
      ∧ m2.n_init = grabbed_session.n_init + 1
      ∧ m2.n_capture = grabbed_session.n_capture + 2
      ∧ m2.n_save = grabbed_session.n_save + 1
      ∧ ∀ (fuel2 : Nat) (x2 y2 wd2 ht2 format2 t2 : Int) (wait2 : Bool) (bits2 : List BYTE)
          (n2 : Int), delivers recovering_world m2.n_capture t2 2 2 bits2 n2 →
          (wait2 = false ∨ 0 < n2) →
          staging_ok (recovering_world.staging m2.n_save) → in_frame x2 y2 wd2 ht2 2 2 →
          (format2 = 0 ∨ format2 = 1) → (format2 = 1 → wd2 * ht2 * 12 < 2147483648) →
          ∃ m3 id3, grab recovering_world (fuel2 + 1) (some m2) x2 y2 wd2 ht2 format2 t2 wait2
            = .ok (GrabResult.mk
                (some (OutputImage.mk id3 (converted format2 bits2 2 x2 y2 wd2 ht2))) n2,
                some m3))
      ∧ (grab recovering_world 1 (some recovered_session) 1 0 1 2 1 0 true).toOption.map
          (fun p => (p.1.data.map (fun i => i.cells), p.1.frames))
        = some (some (converted 1 frame2x2.bits 2 1 0 1 2), 1) :=
  ⟨grab_recovers recovering_world 0 grabbed_session 0 0 2 2 0 0 false 2 2 frame2x2.bits 1
    (by decide) (by decide) (by decide) (by decide) (by decide) (by decide)
    ⟨rfl, rfl, rfl, rfl, by decide⟩ (Or.inl rfl) ⟨rfl, rfl, rfl, rfl⟩
    ⟨by decide, by decide, by decide, by decide, by decide, by decide⟩ (Or.inl rfl)
    (fun h => absurd h (by decide)), rfl⟩

/-- C10: if the first capture of `grab` fails with an error other than the
timeout and then the re-initialisation fails or the retried capture fails (with
any error), `grab` returns null with the frame count 0 without having run
`save`; and if on the session it leaves the caller runs `cleanup(true)` and an
`init` that succeeds and leaves a device and a device context, then on the
resulting session a `grab` whose capture delivers a frame returns the conversion
of that frame. -/
theorem grab_failed_recovery (w : World) (fuel : Nat) (m : Machine)
    (x y wd ht format t : Int) (wait : Bool) (hw : 0 < wd) (hh : 0 < ht)
    (hd : m.g.dda_wrapper ≠ none)
    (hne : (w.GetCapturedFrame m.n_capture t).hr ≠ DXGI_ERROR_WAIT_TIMEOUT)
    (hfail : FAILED (w.GetCapturedFrame m.n_capture t).hr = true)
    (hbad : FAILED (recovered w t m).1 = true
      ∨ FAILED (w.GetCapturedFrame (m.n_capture + 1) t).hr = true) :
    ∃ m1, grab w (fuel + 1) (some m) x y wd ht format t wait
        = .ok (GrabResult.mk none 0, some m1)
      ∧ m1.n_save = m.n_save
      ∧ ∀ (W H fuel2 : Nat) (x2 y2 wd2 ht2 format2 t2 : Int) (wait2 : Bool)
          (bits2 : List BYTE) (n2 : Int),
          FAILED (grabber.init w (grabber.cleanup m1 true)).1 = false →
          (grabber.init w (grabber.cleanup m1 true)).2.g.device ≠ none →
          (grabber.init w (grabber.cleanup m1 true)).2.g.device_context ≠ none →
          delivers w (grabber.init w (grabber.cleanup m1 true)).2.n_capture t2 W H bits2 n2 →
          (wait2 = false ∨ 0 < n2) →
          staging_ok (w.staging (grabber.init w (grabber.cleanup m1 true)).2.n_save) →
          in_frame x2 y2 wd2 ht2 W H →
          (format2 = 0 ∨ format2 = 1) → (format2 = 1 → wd2 * ht2 * 12 < 2147483648) →
          ∃ m3 id3, grab w (fuel2 + 1) (some (grabber.init w (grabber.cleanup m1 true)).2)
              x2 y2 wd2 ht2 format2 t2 wait2
            = .ok (GrabResult.mk
                (some (OutputImage.mk id3 (converted format2 bits2 W x2 y2 wd2 ht2))) n2,
                some m3) := by
  obtain ⟨m1, ha, hs, _, _⟩ := grab_attempt_recovery_failed w t m hd hne hfail hbad
  refine ⟨m1, grab_of_loop_none w (fuel + 1) m m1 x y wd ht format t wait hw hh
    (grab_loop_none w t wait fuel m m1 ha), hs, ?_⟩
  intro W H fuel2 x2 y2 wd2 ht2 format2 t2 wait2 bits2 n2 hok hdev hctx hd2 hacc2 hst2 hin2 hf2
    hfit2
  obtain ⟨m3, id3, hg3, _⟩ := grab_healthy w fuel2 _ x2 y2 wd2 ht2 format2 t2 wait2 W H bits2 n2
    (usable_after_reset w m1 W H hok hdev hctx) hd2 hacc2 hst2 hin2 hf2 hfit2
  exact ⟨m3, id3, hg3⟩

/-- C10, an instance: in `broken_world` the capture and the retried capture of
the second `grab` fail; after `cleanup(true)` and `init` a `grab` returns
data. -/
theorem grab_failed_recovery_witness :
    (∃ m1, grab broken_world 1 (some grabbed_session) 0 0 2 2 0 0 false
        = .ok (GrabResult.mk none 0, some m1)
      ∧ m1.n_save = grabbed_session.n_save
      ∧ ∀ (W H fuel2 : Nat) (x2 y2 wd2 ht2 format2 t2 : Int) (wait2 : Bool)
          (bits2 : List BYTE) (n2 : Int),
          FAILED (grabber.init broken_world (grabber.cleanup m1 true)).1 = false →
          (grabber.init broken_world (grabber.cleanup m1 true)).2.g.device ≠ none →
          (grabber.init broken_world (grabber.cleanup m1 true)).2.g.device_context ≠ none →
          delivers broken_world (grabber.init broken_world (grabber.cleanup m1 true)).2.n_capture
            t2 W H bits2 n2 →
          (wait2 = false ∨ 0 < n2) →
          staging_ok (broken_world.staging
            (grabber.init broken_world (grabber.cleanup m1 true)).2.n_save) →
          in_frame x2 y2 wd2 ht2 W H →
          (format2 = 0 ∨ format2 = 1) → (format2 = 1 → wd2 * ht2 * 12 < 2147483648) →
          ∃ m3 id3, grab broken_world (fuel2 + 1)
              (some (grabber.init broken_world (grabber.cleanup m1 true)).2)
              x2 y2 wd2 ht2 format2 t2 wait2
            = .ok (GrabResult.mk
                (some (OutputImage.mk id3 (converted format2 bits2 W x2 y2 wd2 ht2))) n2,
                some m3))
      ∧ ((grab broken_world 1 (some grabbed_session) 0 0 2 2 0 0 false).toOption.bind
            (fun p => p.2)).map
          (fun m1 => (grab broken_world 1
              (some (grabber.init broken_world (grabber.cleanup m1 true)).2)
              0 0 2 2 0 0 false).toOption.map
            (fun q => (q.1.data.map (fun i => i.cells), q.1.frames)))
        = some (some (some (converted 0 frame2x2.bits 2 0 0 2 2), 1)) :=
  ⟨grab_failed_recovery broken_world 0 grabbed_session 0 0 2 2 0 0 false (by decide)
    (by decide) (by decide) (by decide) (by decide) (Or.inr (by decide)), rfl⟩

theorem capture_inv (w : World) (m m1 : Machine) (t : Int) (r : HRESULT × Int)
    (h : grabber.capture w m t = .ok (r, m1)) : m1 = captured w t m := by
  by_cases hd : m.g.dda_wrapper = none
  · rw [capture_null w m t hd] at h
    cases h
  · rw [capture_captured w m t hd] at h
    cases h
    rfl

theorem grab_data_positive (w : World) (fuel : Nat) (m : Machine) (x y wd ht format t : Int)
    (wait : Bool) (r : GrabResult) (p : Option Machine) (img : OutputImage)
    (h : grab w fuel (some m) x y wd ht format t wait = .ok (r, p))
    (hd : r.data = some img) : 0 < wd ∧ 0 < ht := by
  by_contra hn
  rw [grab, if_pos (by omega)] at h
  cases h
  cases hd

theorem grab_data_inv (w : World) (fuel : Nat) (m : Machine) (x y wd ht format t : Int)
    (wait : Bool) (r : GrabResult) (p : Option Machine) (img : OutputImage)
    (h : grab w fuel (some m) x y wd ht format t wait = .ok (r, p))
    (hd : r.data = some img) :
    ∃ af ma hr m2, grab_loop w t wait fuel m = .ok (some af, ma)
      ∧ grabber.save w ma x y wd ht format = .ok (hr, m2) ∧ FAILED hr = false
      ∧ p = some m2 ∧ m2.g.output_image = some img ∧ r.frames = af := by
  obtain ⟨hw, hh⟩ := grab_data_positive w fuel m x y wd ht format t wait r p img h hd
  rcases grab_inv w fuel m x y wd ht format t wait r p hw hh h with
    ⟨m1, _, hr, _⟩ | ⟨af, m1, hr, m2, hl, hs, hp, hres⟩
  · rw [hr] at hd
    cases hd
  · by_cases hF : FAILED hr = true
    · rw [if_pos hF] at hres
      rw [hres] at hd
      cases hd
    · rw [if_neg hF] at hres
      rw [hres] at hd
      exact ⟨af, m1, hr, m2, hl, hs, by simpa using hF, hp, hd, by rw [hres]⟩

theorem two_grabs (w : World) (fuel1 fuel2 : Nat) (m m1 m2 : Machine)
    (x1 y1 wd1 ht1 format1 t1 x2 y2 wd2 ht2 format2 t2 : Int) (wait1 wait2 : Bool)
    (img1 img2 : OutputImage) (n1 n2 : Int)
    (hf1 : format1 = 0 ∨ format1 = 1)
    (h1 : grab w fuel1 (some m) x1 y1 wd1 ht1 format1 t1 wait1
      = .ok (GrabResult.mk (some img1) n1, some m1))
    (h2 : grab w fuel2 (some m1) x2 y2 wd2 ht2 format2 t2 wait2
      = .ok (GrabResult.mk (some img2) n2, some m2))
    (hno : m2.n_init = m1.n_init) :
    ∃ ma hr, ma.g.output_image = some img1
      ∧ ma.g.output_image_length = INT_mul (INT_mul wd1 ht1) (bytes_per_pixel format1)
      ∧ ma.next_alloc = m1.next_alloc
      ∧ grabber.save w ma x2 y2 wd2 ht2 format2 = .ok (hr, m2) ∧ FAILED hr = false
      ∧ m2.g.output_image = some img2 := by
  obtain ⟨af1, ma1, hr1, mb1, hl1, hs1, hok1, hp1, ho1, _⟩ :=
    grab_data_inv w fuel1 m x1 y1 wd1 ht1 format1 t1 wait1 _ _ img1 h1 rfl
  cases hp1
  obtain ⟨af2, ma2, hr2, mb2, hl2, hs2, hok2, hp2, ho2, _⟩ :=
    grab_data_inv w fuel2 m1 x2 y2 wd2 ht2 format2 t2 wait2 _ _ img2 h2 rfl
  cases hp2
  have hshape := (save_general w ma1 m1 x1 y1 wd1 ht1 format1 hr1 hs1).2.2.2 hok1
  have hlen : m1.g.output_image_length
      = INT_mul (INT_mul wd1 ht1) (bytes_per_pixel format1) := by
    rcases hf1 with e | e
    · rw [e]; exact (hshape.1 e).2
    · rw [e]; exact (hshape.2.1 e).2
  obtain ⟨p1, p2, p3, p4, p5, p6, p7, p8⟩ := grab_loop_frame w t2 wait2 fuel2 m1 ma2 _ hl2
  have hsf := (save_general w ma2 m2 x2 y2 wd2 ht2 format2 hr2 hs2).1.1
  have hni : ma2.n_init = m1.n_init := by omega
  obtain ⟨q1, _⟩ := p8 hni
  exact ⟨ma2, hr2, q1.trans ho1, p6.trans hlen, p3, hs2, hok2, ho2⟩

theorem save_file_inv (w : World) (fuel : Nat) (handle : Option Machine)
    (x y wd ht format t : Int) (path : String) (b : Bool) (p : Option Machine)
    (h : save w fuel handle x y wd ht format t path = .ok (b, p)) :
    ∃ r q, grab w fuel handle x y wd ht format t true = .ok (r, q)
      ∧ ((b = false ∧ p = q ∧ (r.data = none ∨ q = none ∨ format ≠ 0))
        ∨ (b = true ∧ format = 0 ∧ w.fopen path = true
          ∧ ∃ img m1 file, r.data = some img ∧ q = some m1
            ∧ for_loop (save_file_row img.cells wd) ht.toNat 0 (ppm_header wd ht) = some file
            ∧ p = some { m1 with files := (path, file) :: m1.files,
                                  trace := m1.trace ++ [Event.fopen path] })) := by
  rw [save] at h
  cases hg : grab w fuel handle x y wd ht format t true with
  | error f => rw [hg] at h; cases h
  | ok rq =>
    obtain ⟨r, q⟩ := rq
    rw [hg] at h
    simp only [] at h
    refine ⟨r, q, rfl, ?_⟩
    cases hd : r.data with
    | none =>
      rw [hd] at h
      simp only [] at h
      cases h
      exact Or.inl ⟨rfl, rfl, Or.inl rfl⟩
    | some img =>
      cases q with
      | none =>
        rw [hd] at h
        simp only [] at h
        cases h
        exact Or.inl ⟨rfl, rfl, Or.inr (Or.inl rfl)⟩
      | some m1 =>
        rw [hd] at h
        simp only [] at h
        by_cases hf : format = 0
        · rw [if_pos hf] at h
          by_cases ho : w.fopen path = true
          · rw [if_pos ho] at h
            cases hl : for_loop (save_file_row img.cells wd) ht.toNat 0 (ppm_header wd ht) with
            | none => rw [hl] at h; cases h
            | some file =>
              rw [hl] at h
              cases h
              exact Or.inr ⟨rfl, hf, ho, img, m1, file, rfl, rfl, hl, rfl⟩
          · rw [if_neg ho] at h
            cases h
        · rw [if_neg hf] at h
          cases h
          exact Or.inl ⟨rfl, rfl, Or.inr (Or.inr hf)⟩

theorem grab_buffer_ok (w : World) (fuel : Nat) (m m1 : Machine) (x y wd ht format t : Int)
    (wait : Bool) (r : GrabResult)
    (h : grab w fuel (some m) x y wd ht format t wait = .ok (r, some m1))
    (hinv : buffer_ok m.g) : buffer_ok m1.g := by
  by_cases hv : wd ≤ 0 ∨ ht ≤ 0
  · rw [grab, if_pos hv] at h
    cases h
    exact hinv
  · rcases grab_inv w fuel m x y wd ht format t wait r (some m1) (by omega) (by omega) h with
      ⟨m2, hl, _, hp⟩ | ⟨af, m2, hr, m3, hl, hs, hp, _⟩
    · cases hp
      exact pass_frame_buffer_ok _ _ (grab_loop_frame w t wait fuel m m1 _ hl) hinv
    · cases hp
      exact (save_general w m2 m1 x y wd ht format hr hs).2.2.1
        (pass_frame_buffer_ok _ _ (grab_loop_frame w t wait fuel m m2 _ hl) hinv)

theorem reachable_buffer_ok (w : World) (m : Machine) (h : Reachable w m) : buffer_ok m.g := by
  induction h with
  | fresh m u hm =>
    intro img hi
    rw [hm] at hi
    cases hi
  | init m _ ih =>
    obtain ⟨⟨_, _, _, _, a5, a6, _, _, _⟩, _, _⟩ := init_spec w m
    intro img hi
    rw [a5] at hi
    rw [a6]
    exact ih img hi
  | cleanup m e _ ih => exact cleanup_buffer_ok m e ih
  | capture m m1 t r _ hc ih =>
    rw [capture_inv w m m1 t r hc]
    exact ih
  | save m m1 x y wd ht format hr _ hs ih =>
    exact (save_general w m m1 x y wd ht format hr hs).2.2.1 ih
  | grab m m1 fuel x y wd ht format t wait r _ hg ih =>
    exact grab_buffer_ok w fuel m m1 x y wd ht format t wait r hg ih
  | save_file m m1 fuel x y wd ht format t path b _ hg ih =>
    obtain ⟨r, q, hgr, hcase⟩ := save_file_inv w fuel (some m) x y wd ht format t path b _ hg
    rcases hcase with ⟨_, hp, _⟩ | ⟨_, _, _, img, m2, file, _, hq, _, hp⟩
    · rw [← hp] at hgr
      exact grab_buffer_ok w fuel m m1 x y wd ht format t true r hgr ih
    · rw [hq] at hgr
      cases hp
      exact grab_buffer_ok w fuel m m2 x y wd ht format t true r hgr ih

/-- C12: in every reachable session that holds an output image, the length of
the image's block is the recorded `output_image_length`; and after a successful
`save` of a non-empty region with the format 0 or 1, `w * h * bpp` fitting a
32-bit `INT`, the session holds an output image whose block has `w * h * bpp`
bytes, with `bpp` 3 for the format 0 and 12 for the format 1. -/
theorem output_buffer_capacity (w : World) (m : Machine) (h : Reachable w m) :
    (∀ img, m.g.output_image = some img → (img.cells.length : Int) = m.g.output_image_length)
      ∧ ∀ (x y wd ht format : Int) (hr : HRESULT) (m1 : Machine),
          grabber.save w m x y wd ht format = .ok (hr, m1) → FAILED hr = false →
          (format = 0 ∨ format = 1) → 0 < wd → 0 < ht →
          wd * ht * bytes_per_pixel format < 2147483648 →
          ∃ img, m1.g.output_image = some img
            ∧ (img.cells.length : Int) = wd * ht * bytes_per_pixel format
            ∧ m1.g.output_image_length = wd * ht * bytes_per_pixel format := by
  have hinv := reachable_buffer_ok w m h
  refine ⟨hinv, ?_⟩
  intro x y wd ht format hr m1 hs hok hf hw hh hfit
  obtain ⟨_, _, hb, hshape⟩ := save_general w m m1 x y wd ht format hr hs
  have hb1 := hb hinv
  have hsh := hshape hok
  have hpos : 0 < wd * ht := Int.mul_pos hw hh
  have hbpp : bytes_per_pixel format = 3 ∨ bytes_per_pixel format = 12 := by
    rcases hf with e | e
    · left; rw [e]; rfl
    · right; rw [e]; rfl
  have hL : INT_mul (INT_mul wd ht) (bytes_per_pixel format)
      = wd * ht * bytes_per_pixel format := by
    have h1 : wd * ht < 2147483648 := by
      rcases hbpp with e | e <;> rw [e] at hfit <;> omega
    have h2 : 0 ≤ wd * ht * bytes_per_pixel format := by
      rcases hbpp with e | e <;> rw [e] <;> omega
    rw [INT_mul_eq wd ht (by omega) (by omega), INT_mul_eq _ _ (by omega) (by omega)]
  have hlen : m1.g.output_image ≠ none
      ∧ m1.g.output_image_length = INT_mul (INT_mul wd ht) (bytes_per_pixel format) := by
    rcases hf with e | e
    · rw [e]; exact hsh.1 e
    · rw [e]; exact hsh.2.1 e
  obtain ⟨img, hi⟩ := Option.ne_none_iff_exists'.mp hlen.1
  refine ⟨img, hi, ?_, ?_⟩
  · rw [hb1 img hi, hlen.2, hL]
  · rw [hlen.2, hL]

/-- C12, an instance: the session `grabbed_session` after one more capture in
`healthy_world`, reached from a fresh object by `init`, `grab` and `capture`; it
holds an image of 12 bytes with the recorded length 12, and `save` of one pixel
with format 0 succeeds on it and leaves `resized_session`, whose image has
`1 * 1 * 3` bytes. -/
theorem output_buffer_capacity_witness :
    ((∀ img, (captured healthy_world 0 grabbed_session).g.output_image = some img →
        (img.cells.length : Int)
          = (captured healthy_world 0 grabbed_session).g.output_image_length)
      ∧ ∃ img, resized_session.g.output_image = some img
          ∧ (img.cells.length : Int) = 1 * 1 * bytes_per_pixel 0
          ∧ resized_session.g.output_image_length = 1 * 1 * bytes_per_pixel 0)
      ∧ (captured healthy_world 0 grabbed_session).g.output_image
          = grabbed_session.g.output_image
      ∧ grabber.save healthy_world (captured healthy_world 0 grabbed_session) 0 0 1 1 0
          = .ok (0, resized_session) :=
  have hreach : Reachable healthy_world (captured healthy_world 0 grabbed_session) :=
    Reachable.capture grabbed_session _ 0 (0, 1)
      (Reachable.grab (grabber.init healthy_world
          { g := grabber.new 0, n_init := 0, n_capture := 0, n_save := 0, next_alloc := 0,
            trace := [], files := [] }).2
        grabbed_session 1 0 0 2 2 0 0 false (GrabResult.mk grabbed_session.g.output_image 1)
        (Reachable.init _ (Reachable.fresh _ 0 rfl)) rfl)
      rfl
  ⟨⟨(output_buffer_capacity healthy_world _ hreach).1,
    (output_buffer_capacity healthy_world _ hreach).2 0 0 1 1 0 0 resized_session rfl
      (by decide) (Or.inl rfl) (by decide) (by decide) (by decide)⟩, rfl, rfl⟩

/-- C13 (as the code has it): if two consecutive calls of `grab` on a session
both return data, for the same width, height and format (0 or 1), and the second
call runs no recovery (no `init`), then the second call allocates nothing and
returns the allocation that the first returned. -/
theorem grab_reuses_buffer (w : World) (fuel1 fuel2 : Nat) (m m1 m2 : Machine)
    (x1 y1 x2 y2 wd ht format t1 t2 : Int) (wait1 wait2 : Bool)
    (img1 img2 : OutputImage) (n1 n2 : Int)
    (hf : format = 0 ∨ format = 1)
    (h1 : grab w fuel1 (some m) x1 y1 wd ht format t1 wait1
      = .ok (GrabResult.mk (some img1) n1, some m1))
    (h2 : grab w fuel2 (some m1) x2 y2 wd ht format t2 wait2
      = .ok (GrabResult.mk (some img2) n2, some m2))
    (hno : m2.n_init = m1.n_init) :
    img2.id = img1.id ∧ m2.next_alloc = m1.next_alloc := by
  obtain ⟨ma, hr, a1, a2, a3, a4, a5, a6⟩ := two_grabs w fuel1 fuel2 m m1 m2 x1 y1 wd ht format
    t1 x2 y2 wd ht format t2 wait1 wait2 img1 img2 n1 n2 hf h1 h2 hno
  obtain ⟨⟨cells, b1⟩, b2, _⟩ := (save_alloc w ma m2 x2 y2 wd ht format hr img1 hf a1 a4 a5).1 a2
  rw [b1] at a6
  cases a6
  exact ⟨rfl, b2.trans a3⟩

/-- C13, an instance: two `grab`s of the whole frame in `healthy_world`. -/
theorem grab_reuses_buffer_witness :
    (OutputImage.mk 0
        [Cell.byte 3, Cell.byte 2, Cell.byte 1, Cell.byte 7, Cell.byte 6, Cell.byte 5,
         Cell.byte 11, Cell.byte 10, Cell.byte 9, Cell.byte 15, Cell.byte 14, Cell.byte 13]).id
        = (OutputImage.mk 0
        [Cell.byte 3, Cell.byte 2, Cell.byte 1, Cell.byte 7, Cell.byte 6, Cell.byte 5,
         Cell.byte 11, Cell.byte 10, Cell.byte 9, Cell.byte 15, Cell.byte 14, Cell.byte 13]).id
      ∧ regrabbed_session.next_alloc = grabbed_session.next_alloc :=
  grab_reuses_buffer healthy_world 1 1 created_session grabbed_session regrabbed_session
    0 0 0 0 2 2 0 0 0 false false _ _ 1 1 (Or.inl rfl) rfl rfl rfl

/-- C13, the counterexample to the reuse in every case: in `recovering_world`
two consecutive calls of `grab` with the same width, height and format both
return data, but the second, which recovers from a failed capture, deletes the
allocation 0 that the first returned and returns a new allocation 1. -/
theorem grab_reallocates_after_recovery_counterexample :
    (grab recovering_world 1 (some created_session) 0 0 2 2 0 0 false).toOption.map
        (fun p => (p.1.data.map (fun i => i.id), p.1.frames, p.2))
      = some (some 0, 1, some grabbed_session)
    ∧ (grab recovering_world 1 (some grabbed_session) 0 0 2 2 0 0 false).toOption.map
        (fun p => (p.1.data.map (fun i => i.id), p.1.frames,
          p.2.map (fun m => m.trace.drop grabbed_session.trace.length)))
      = some (some 1, 1, some
          [Event.capture (-2147467259) 0, Event.cleanup true, Event.delete_dda,
           Event.delete_image 0, Event.init, Event.create_device 0 0, Event.new_dda,
           Event.dda_init 0, Event.capture 0 1, Event.save 0, Event.new_image 1 12]) :=
  ⟨rfl, rfl⟩

/-- C14 (as the code has it): if two consecutive calls of `grab` on a session
both return data, with formats 0 or 1, and the second runs no recovery, then the
second call reallocates exactly when the byte length `w * h * bpp` (computed in
`INT`) differs between the two calls: if the lengths are equal it returns the
allocation of the first call and allocates nothing; if they differ it deletes
that allocation and returns a new one. -/
theorem grab_reallocates_iff_length_changes (w : World) (fuel1 fuel2 : Nat)
    (m m1 m2 : Machine) (x1 y1 wd1 ht1 format1 t1 x2 y2 wd2 ht2 format2 t2 : Int)
    (wait1 wait2 : Bool) (img1 img2 : OutputImage) (n1 n2 : Int)
    (hf1 : format1 = 0 ∨ format1 = 1) (hf2 : format2 = 0 ∨ format2 = 1)
    (h1 : grab w fuel1 (some m) x1 y1 wd1 ht1 format1 t1 wait1
      = .ok (GrabResult.mk (some img1) n1, some m1))
    (h2 : grab w fuel2 (some m1) x2 y2 wd2 ht2 format2 t2 wait2
      = .ok (GrabResult.mk (some img2) n2, some m2))
    (hno : m2.n_init = m1.n_init) :
    (INT_mul (INT_mul wd1 ht1) (bytes_per_pixel format1)
          = INT_mul (INT_mul wd2 ht2) (bytes_per_pixel format2) →
        img2.id = img1.id ∧ m2.next_alloc = m1.next_alloc)
      ∧ (INT_mul (INT_mul wd1 ht1) (bytes_per_pixel format1)
          ≠ INT_mul (INT_mul wd2 ht2) (bytes_per_pixel format2) →
        img2.id = m1.next_alloc ∧ m2.next_alloc = m1.next_alloc + 1
          ∧ ∃ before, m2.trace = before ++ [Event.save format2, Event.delete_image img1.id,
              Event.new_image m1.next_alloc
                (INT_mul (INT_mul wd2 ht2) (bytes_per_pixel format2))]) := by
  obtain ⟨ma, hr, a1, a2, a3, a4, a5, a6⟩ := two_grabs w fuel1 fuel2 m m1 m2 x1 y1 wd1 ht1
    format1 t1 x2 y2 wd2 ht2 format2 t2 wait1 wait2 img1 img2 n1 n2 hf1 h1 h2 hno
  obtain ⟨c1, c2⟩ := save_alloc w ma m2 x2 y2 wd2 ht2 format2 hr img1 hf2 a1 a4 a5
  rw [a2, a3] at c1 c2
  constructor
  · intro he
    obtain ⟨⟨cells, b1⟩, b2, _⟩ := c1 he
    rw [b1] at a6
    cases a6
    exact ⟨rfl, b2⟩
  · intro hne
    obtain ⟨⟨cells, b1⟩, b2, b3⟩ := c2 hne
    rw [b1] at a6
    cases a6
    exact ⟨rfl, b2, ma.trace, b3⟩

/-- C14, an instance: after a `grab` of 2 × 2 pixels, a `grab` of 1 × 1 pixel
(3 bytes instead of 12) in `healthy_world`. -/
theorem grab_reallocates_iff_length_changes_witness :
    (INT_mul (INT_mul 2 2) (bytes_per_pixel 0) = INT_mul (INT_mul 1 1) (bytes_per_pixel 0) →
        (OutputImage.mk 1 [Cell.byte 3, Cell.byte 2, Cell.byte 1]).id
            = (OutputImage.mk 0
              [Cell.byte 3, Cell.byte 2, Cell.byte 1, Cell.byte 7, Cell.byte 6, Cell.byte 5,
               Cell.byte 11, Cell.byte 10, Cell.byte 9, Cell.byte 15, Cell.byte 14,
               Cell.byte 13]).id
          ∧ resized_session.next_alloc = grabbed_session.next_alloc)
      ∧ (INT_mul (INT_mul 2 2) (bytes_per_pixel 0) ≠ INT_mul (INT_mul 1 1) (bytes_per_pixel 0) →
        (OutputImage.mk 1 [Cell.byte 3, Cell.byte 2, Cell.byte 1]).id
            = grabbed_session.next_alloc
          ∧ resized_session.next_alloc = grabbed_session.next_alloc + 1
          ∧ ∃ before, resized_session.trace = before ++ [Event.save 0,
              Event.delete_image (OutputImage.mk 0
                [Cell.byte 3, Cell.byte 2, Cell.byte 1, Cell.byte 7, Cell.byte 6, Cell.byte 5,
                 Cell.byte 11, Cell.byte 10, Cell.byte 9, Cell.byte 15, Cell.byte 14,
                 Cell.byte 13]).id,
              Event.new_image grabbed_session.next_alloc
                (INT_mul (INT_mul 1 1) (bytes_per_pixel 0))]) :=
  grab_reallocates_iff_length_changes healthy_world 1 1 created_session grabbed_session
    resized_session 0 0 2 2 0 0 0 0 1 1 0 0 false false _ _ 1 1 (Or.inl rfl) (Or.inl rfl)
    rfl rfl rfl

/-- C14, the counterexample to "a changed triple reallocates": in
`healthy_world`, after a `grab` of 2 × 2 pixels with format 0 (12 bytes), a
`grab` of 1 × 1 pixel with format 1 (12 bytes too) differs in width, height and
format, yet it returns the same allocation 0 and neither deletes nor allocates
anything. -/
theorem grab_keeps_buffer_of_equal_length_counterexample :
    (grab healthy_world 1 (some created_session) 0 0 2 2 0 0 false).toOption.map
        (fun p => (p.1.data.map (fun i => i.id), p.2))
      = some (some 0, some grabbed_session)
    ∧ (grab healthy_world 1 (some grabbed_session) 0 0 1 1 1 0 false).toOption.map
        (fun p => (p.1.data.map (fun i => i.id),
          p.2.map (fun m => (m.next_alloc, m.trace.drop grabbed_session.trace.length))))
      = some (some 0, some (1, [Event.capture 0 1, Event.save 1])) :=
  ⟨rfl, rfl⟩

/-- C15: whenever the exported `save` returns, it returns `true` only if the
format is 0 and the `grab` it ran returned a buffer, and then the session is
what `grab` left plus one file written at the path; when it returns `false` the
session is exactly what `grab` left, so no file was opened or written; and with
the format 1 it returns `false`. -/
theorem save_file_only_rgb (w : World) (fuel : Nat) (handle : Option Machine)
    (x y wd ht format t : Int) (path : String) (b : Bool) (p : Option Machine)
    (h : save w fuel handle x y wd ht format t path = .ok (b, p)) :
    (b = true → format = 0 ∧ ∃ img n m1 file,
        grab w fuel handle x y wd ht format t true
          = .ok (GrabResult.mk (some img) n, some m1)
        ∧ p = some { m1 with files := (path, file) :: m1.files,
                              trace := m1.trace ++ [Event.fopen path] })
      ∧ (b = false → ∃ r, grab w fuel handle x y wd ht format t true = .ok (r, p))
      ∧ (format = 1 → b = false) := by
  obtain ⟨r, q, hg, hcase⟩ := save_file_inv w fuel handle x y wd ht format t path b p h
  rcases hcase with ⟨hb, hp, _⟩ | ⟨hb, hf, _, img, m1, file, hd, hq, _, hp⟩
  · refine ⟨fun e => ?_, fun _ => ⟨r, by rw [hp]; exact hg⟩, fun _ => hb⟩
    rw [hb] at e
    cases e
  · refine ⟨fun _ => ⟨hf, img, r.frames, m1, file, ?_, hp⟩, fun e => ?_, fun e => ?_⟩
    · rw [hg, hq]
      obtain ⟨d, n⟩ := r
      simp only [] at hd
      rw [hd]
    · rw [hb] at e
      cases e
    · rw [hf] at e
      exact absurd e (by decide)

/-- C15, an instance: in `healthy_world` the exported `save` of the whole
`frame2x2` with the format 1 runs a `grab` that returns the 48 bytes of the
converted frame, and returns `false`; the session is the one that `grab` left,
`float_session`, with no file. -/
theorem save_file_only_rgb_witness :
    ((false = true → (1 : Int) = 0 ∧ ∃ img n m1 file,
          grab healthy_world 1 (some created_session) 0 0 2 2 1 0 true
            = .ok (GrabResult.mk (some img) n, some m1)
          ∧ some float_session
            = some { m1 with files := ("frame.ppm", file) :: m1.files,
                             trace := m1.trace ++ [Event.fopen "frame.ppm"] })
        ∧ (false = false → ∃ r, grab healthy_world 1 (some created_session) 0 0 2 2 1 0 true
            = .ok (r, some float_session))
        ∧ ((1 : Int) = 1 → false = false))
      ∧ grab healthy_world 1 (some created_session) 0 0 2 2 1 0 true
          = .ok (GrabResult.mk float_session.g.output_image 1, some float_session)
      ∧ float_session.g.output_image
          = some (OutputImage.mk 0 (converted 1 frame2x2.bits 2 0 0 2 2))
      ∧ float_session.files = [] :=
  ⟨save_file_only_rgb healthy_world 1 (some created_session) 0 0 2 2 1 0 "frame.ppm" false
    (some float_session) rfl, rfl, rfl, rfl⟩

theorem write_cell_some (cs cs1 : List Cell) (i : Int) (c : Cell)
    (h : write_cell cs i c = some cs1) : 0 ≤ i ∧ i < cs.length ∧ cs1.length = cs.length := by
  rw [write_cell] at h
  split at h
  · rename_i hb
    cases h
    exact ⟨hb.1, hb.2, by simp⟩
  · cases h

theorem save_rgb_pixel_writes (bits : List BYTE) (rs x : Int) (s s1 : List Cell × Int)
    (h : save_rgb_pixel bits rs x s = some s1) :
    (0 ≤ s.2 ∧ s.2 < s.1.length)
      ∧ (0 ≤ INT_add s.2 1 ∧ INT_add s.2 1 < s.1.length)
      ∧ (0 ≤ INT_add (INT_add s.2 1) 1 ∧ INT_add (INT_add s.2 1) 1 < s.1.length)
      ∧ s1.2 = INT_add (INT_add (INT_add s.2 1) 1) 1 ∧ s1.1.length = s.1.length := by
  rw [save_rgb_pixel] at h
  cases r1 : read_byte bits (INT_add (INT_mul (INT_add rs x) 4) 2) with
  | none => rw [r1] at h; cases h
  | some v1 =>
    rw [r1] at h
    simp only [] at h
    cases w1 : write_cell s.1 s.2 (Cell.byte v1) with
    | none => rw [w1] at h; cases h
    | some c1 =>
      rw [w1] at h
      simp only [] at h
      cases r2 : read_byte bits (INT_add (INT_mul (INT_add rs x) 4) 1) with
      | none => rw [r2] at h; cases h
      | some v2 =>
        rw [r2] at h
        simp only [] at h
        cases w2 : write_cell c1 (INT_add s.2 1) (Cell.byte v2) with
        | none => rw [w2] at h; cases h
        | some c2 =>
          rw [w2] at h
          simp only [] at h
          cases r3 : read_byte bits (INT_mul (INT_add rs x) 4) with
          | none => rw [r3] at h; cases h
          | some v3 =>
            rw [r3] at h
            simp only [] at h
            cases w3 : write_cell c2 (INT_add (INT_add s.2 1) 1) (Cell.byte v3) with
            | none => rw [w3] at h; cases h
            | some c3 =>
              rw [w3] at h
              cases h
              obtain ⟨a1, a2, a3⟩ := write_cell_some _ _ _ _ w1
              obtain ⟨b1, b2, b3⟩ := write_cell_some _ _ _ _ w2
              obtain ⟨d1, d2, d3⟩ := write_cell_some _ _ _ _ w3
              refine ⟨⟨a1, a2⟩, ⟨b1, ?_⟩, ⟨d1, ?_⟩, rfl, ?_⟩
              · rw [← a3]; exact b2
              · rw [← a3, ← b3]; exact d2
              · simp only []
                rw [d3, b3, a3]

theorem toINT_step (n L : Int) (h0 : 0 ≤ n) (h1 : n ≤ 2147483648)
    (ha : 0 ≤ toINT n) (hb : toINT n < L) :
    toINT n = n ∧ n < 2147483648 ∧ n < L := by
  have hn : n < 2147483648 := by
    by_contra hc
    have e : n = 2147483648 := by omega
    rw [e] at ha
    exact absurd ha (by decide)
  have := toINT_eq n (by omega) hn
  rw [this] at hb
  exact ⟨this, hn, hb⟩

theorem save_rgb_pixel_count (bits : List BYTE) (rs x : Int) (s s1 : List Cell × Int)
    (n : Int) (h0 : 0 ≤ n) (h1 : n ≤ 2147483648) (hs : s.2 = toINT n)
    (h : save_rgb_pixel bits rs x s = some s1) :
    s1.2 = toINT (n + 3) ∧ n + 3 ≤ s.1.length ∧ n + 3 ≤ 2147483648
      ∧ s1.1.length = s.1.length := by
  obtain ⟨⟨a1, a2⟩, ⟨b1, b2⟩, ⟨c1, c2⟩, e, hl⟩ := save_rgb_pixel_writes bits rs x s s1 h
  rw [hs] at a1 a2
  obtain ⟨p1, p2, p3⟩ := toINT_step n _ h0 h1 a1 a2
  have e1 : INT_add s.2 1 = toINT (n + 1) := by rw [hs, p1, INT_add]
  rw [e1] at b1 b2
  obtain ⟨q1, q2, q3⟩ := toINT_step (n + 1) _ (by omega) (by omega) b1 b2
  have e2 : INT_add (INT_add s.2 1) 1 = toINT (n + 1 + 1) := by rw [e1, q1, INT_add]
  rw [e2] at c1 c2
  obtain ⟨r1, r2, r3⟩ := toINT_step (n + 1 + 1) _ (by omega) (by omega) c1 c2
  have e3 : INT_add (INT_add (INT_add s.2 1) 1) 1 = toINT (n + 3) := by
    rw [e2, r1, INT_add]
    congr 1
    ring
  exact ⟨by rw [e, e3], by omega, by omega, hl⟩

theorem save_rgb_row_count (bits : List BYTE) (W : Nat) (ox oy wd y : Int)
    (s s1 : List Cell × Int) (n : Int) (h0 : 0 ≤ n) (h1 : n ≤ 2147483648)
    (hn : n ≤ s.1.length)
    (hs : s.2 = toINT n) (h : save_rgb_row bits W ox oy wd y s = some s1) :
    s1.2 = toINT (n + 3 * wd.toNat) ∧ n + 3 * wd.toNat ≤ s.1.length
      ∧ n + 3 * wd.toNat ≤ 2147483648 ∧ s1.1.length = s.1.length := by
  rw [save_rgb_row] at h
  have := for_loop_inv (save_rgb_pixel bits (in_row_start oy y W ox))
    (fun i t => 0 ≤ i ∧ t.2 = toINT (n + 3 * i) ∧ n + 3 * i ≤ s.1.length
      ∧ n + 3 * i ≤ 2147483648 ∧ t.1.length = s.1.length)
    (fun i t t1 hP hb => by
      obtain ⟨i0, e1, e2, e3, e4⟩ := hP
      obtain ⟨f1, f2, f3, f4⟩ := save_rgb_pixel_count bits _ i t t1 (n + 3 * i) (by omega)
        e3 e1 hb
      refine ⟨by omega, ?_, ?_, ?_, by rw [f4, e4]⟩
      · rw [f1]; congr 1; ring
      · rw [e4] at f2; omega
      · omega)
    wd.toNat 0 s s1 ⟨le_refl 0, by rw [hs]; congr 1; ring, by omega, by omega, rfl⟩ h
  obtain ⟨_, g1, g2, g3, g4⟩ := this
  simp only [zero_add] at g1 g2 g3
  exact ⟨g1, g2, g3, g4⟩

theorem save_rgb_count (bits : List BYTE) (W : Nat) (ox oy wd ht : Int) (cs cs1 : List Cell)
    (k : Int) (h : save_rgb bits W ox oy wd ht cs = some (cs1, k)) :
    3 * (wd.toNat : Int) * ht.toNat ≤ cs1.length
      ∧ 3 * (wd.toNat : Int) * ht.toNat ≤ 2147483648 ∧ cs1.length = cs.length := by
  rw [save_rgb] at h
  have := for_loop_inv (save_rgb_row bits W ox oy wd)
    (fun i t => 0 ≤ i ∧ t.2 = toINT (3 * wd.toNat * i) ∧ 3 * wd.toNat * i ≤ cs.length
      ∧ 3 * (wd.toNat : Int) * i ≤ 2147483648 ∧ t.1.length = cs.length)
    (fun i t t1 hP hb => by
      obtain ⟨i0, e1, e2, e3, e4⟩ := hP
      have hnn : (0 : Int) ≤ 3 * wd.toNat * i := by positivity
      obtain ⟨f1, f2, f3, f4⟩ := save_rgb_row_count bits W ox oy wd i t t1 (3 * wd.toNat * i)
        hnn e3 (by rw [e4]; exact e2) e1 hb
      have e5 : 3 * (wd.toNat : Int) * i + 3 * wd.toNat = 3 * wd.toNat * (i + 1) := by ring
      rw [e5] at f1 f2 f3
      refine ⟨by omega, f1, ?_, f3, by rw [f4, e4]⟩
      rw [e4] at f2
      exact f2)
    ht.toNat 0 (cs, 0) (cs1, k) ⟨le_refl 0, by simp [toINT], by simp, by simp, rfl⟩ h
  obtain ⟨_, g1, g2, g3, g4⟩ := this
  simp only [zero_add] at g1 g2 g3 g4
  exact ⟨by rw [g4]; exact g2, g3, g4⟩

theorem save_switch_rgb_inv (m m3 : Machine) (bits : List BYTE) (x y wd ht : Int)
    (h : grabber.save_switch m bits x y wd ht 0 = .ok m3) :
    ∃ (dw id : Nat) (cs0 cells : List Cell) (k : Int),
      save_rgb bits dw x y wd ht cs0 = some (cells, k)
        ∧ m3.g.output_image = some (OutputImage.mk id cells) := by
  rw [grabber.save_switch, if_pos rfl] at h
  cases hi : grabber.init_output_image m wd ht 3 with
  | error f => rw [hi] at h; cases h
  | ok m1 =>
    rw [hi] at h
    simp only [] at h
    cases ho : m1.g.output_image with
    | none => rw [ho] at h; cases h
    | some img =>
      rw [ho] at h
      simp only [] at h
      cases hc : save_rgb bits m1.g.duplication_width x y wd ht img.cells with
      | none => rw [hc] at h; cases h
      | some r =>
        obtain ⟨cells, k⟩ := r
        rw [hc] at h
        cases h
        exact ⟨_, _, _, _, _, hc, rfl⟩

theorem grab_rgb_inv (w : World) (fuel : Nat) (m m1 : Machine) (x y wd ht t : Int)
    (wait : Bool) (img : OutputImage) (n : Int)
    (h : grab w fuel (some m) x y wd ht 0 t wait = .ok (GrabResult.mk (some img) n, some m1)) :
    0 < wd ∧ 0 < ht ∧ ∃ (bits : List BYTE) (dw : Nat) (cs0 : List Cell) (k : Int),
      save_rgb bits dw x y wd ht cs0 = some (img.cells, k) := by
  obtain ⟨hw, hh⟩ := grab_data_positive w fuel m x y wd ht 0 t wait _ _ img h rfl
  obtain ⟨af, ma, hr, m2, _, hs, hok, _, ho, _⟩ :=
    grab_data_inv w fuel m x y wd ht 0 t wait _ _ img h rfl
  obtain ⟨mb, bits, hsw, _⟩ := save_inv w ma m2 x y wd ht 0 hr hs hok
  obtain ⟨dw, id, cs0, cells, k, hc, hi⟩ := save_switch_rgb_inv mb m2 bits x y wd ht hsw
  rw [hi] at ho
  cases ho
  exact ⟨hw, hh, bits, dw, cs0, k, hc⟩

theorem for_loop_append (body : Int → List Cell → Option (List Cell)) (blk : Int → List Cell) :
    ∀ (n : Nat) (s : Int) (f : List Cell),
      (∀ i : Nat, i < n → ∀ f1 : List Cell, body (s + i) f1 = some (f1 ++ blk (s + i))) →
      for_loop body n s f = some (f ++ cat blk n s)
  | 0, s, f, _ => by simp [for_loop, cat]
  | n + 1, s, f, h => by
    have h0 := h 0 (by omega) f
    simp only [Nat.cast_zero, add_zero] at h0
    rw [for_loop, h0]
    simp only []
    rw [for_loop_append body blk n (s + 1) (f ++ blk s) (fun i hi f1 => by
      have := h (i + 1) (by omega) f1
      rwa [show s + 1 + (i : Int) = s + ((i + 1 : Nat) : Int) by push_cast; ring]), cat,
      List.append_assoc]

theorem cat_drop_take (data : List Cell) (u : Nat) :
    ∀ (n s : Nat), u * (s + n) ≤ data.length →
      cat (fun i : Int => (data.drop (u * i.toNat)).take u) n (s : Int)
        = (data.drop (u * s)).take (u * n)
  | 0, s, _ => by simp [cat]
  | n + 1, s, h => by
    have ih := cat_drop_take data u n (s + 1) (by
      have : u * (s + 1 + n) = u * (s + (n + 1)) := by ring
      omega)
    rw [cat, show ((s : Int) + 1) = ((s + 1 : Nat) : Int) by push_cast; ring, ih]
    simp only [Int.toNat_ofNat]
    have e : u * (n + 1) = u + u * n := by ring
    rw [e, List.take_add, List.drop_drop]
    congr 2

theorem fwrite3_eq (data : List Cell) (start : Int) (file : List Cell) (h0 : 0 ≤ start)
    (h : start.toNat + 3 ≤ data.length) :
    fwrite3 data start file = some (file ++ (data.drop start.toNat).take 3) := by
  rw [fwrite3, if_pos h0]
  have e0 : data.get? start.toNat = some (data.get ⟨start.toNat, by omega⟩) :=
    List.get?_eq_get (by omega)
  have e1 : data.get? (start.toNat + 1) = some (data.get ⟨start.toNat + 1, by omega⟩) :=
    List.get?_eq_get (by omega)
  have e2 : data.get? (start.toNat + 2) = some (data.get ⟨start.toNat + 2, by omega⟩) :=
    List.get?_eq_get (by omega)
  rw [e0, e1, e2]
  simp only []
  congr 2
  apply List.ext_get?
  intro i
  rcases i with _ | _ | _ | i
  · simp [List.getElem?_take, List.getElem?_drop, List.getElem?_eq_getElem, h]
  · simp [List.getElem?_take, List.getElem?_drop, List.getElem?_eq_getElem, h]
  · simp [List.getElem?_take, List.getElem?_drop, List.getElem?_eq_getElem, h]
  · simp [List.getElem?_take, List.getElem?_drop, List.getElem?_eq_getElem, h]
    rw [if_neg (by omega)]

theorem cat_shift (g : Int → List Cell) (c : Int) :
    ∀ (n : Nat) (s : Int), cat (fun i => g (c + i)) n s = cat g n (c + s)
  | 0, _ => by simp [cat]
  | n + 1, s => by
    rw [cat, cat, cat_shift g c n (s + 1), add_assoc]

theorem save_file_row_eq (data : List Cell) (wd ht row : Int) (file : List Cell)
    (hw : 0 < wd) (hr0 : 0 ≤ row) (hr : row < ht)
    (hlen : 3 * wd * ht ≤ data.length) (hfit : 3 * wd * ht ≤ 2147483648) :
    save_file_row data wd row file
      = some (file ++ (data.drop (3 * wd.toNat * row.toNat)).take (3 * wd.toNat)) := by
  have hrw : 0 ≤ row * wd := by positivity
  have hle : (row + 1) * wd ≤ ht * wd := Int.mul_le_mul_of_nonneg_right (by omega) (by omega)
  have e1 : (row + 1) * wd = row * wd + wd := by ring
  have e2 : 3 * wd * ht = 3 * (ht * wd) := by ring
  rw [save_file_row]
  rw [for_loop_append _
    (fun col : Int => (fun i : Int => (data.drop (3 * i.toNat)).take 3) (row * wd + col))
    wd.toNat 0 file (fun i hi f1 => by
      have hi2 : (i : Int) < wd := by omega
      simp only [zero_add]
      rw [INT_mul_eq row wd (by omega) (by omega),
        INT_add_eq (row * wd) i (by omega) (by omega),
        INT_mul_eq 3 (row * wd + i) (by omega) (by omega)]
      have e3 : (3 * (row * wd + (i : Int))).toNat = 3 * (row * wd + (i : Int)).toNat := by
        omega
      rw [fwrite3_eq data _ f1 (by omega) (by omega), e3])]
  rw [cat_shift (fun i : Int => (data.drop (3 * i.toNat)).take 3) (row * wd) wd.toNat 0]
  have e4 : row * wd + 0 = ((row.toNat * wd.toNat : Nat) : Int) := by
    push_cast
    rw [Int.toNat_of_nonneg hr0, Int.toNat_of_nonneg (by omega)]
    ring
  rw [e4, cat_drop_take data 3 wd.toNat (row.toNat * wd.toNat) (by
    have : ((3 * (row.toNat * wd.toNat + wd.toNat) : Nat) : Int) = 3 * (row * wd + wd) := by
      push_cast
      rw [Int.toNat_of_nonneg hr0, Int.toNat_of_nonneg (by omega)]
    omega)]
  have e5 : 3 * (row.toNat * wd.toNat) = 3 * wd.toNat * row.toNat := by ring
  rw [e5]

theorem save_file_loop (data : List Cell) (wd ht : Int) (file : List Cell)
    (hw : 0 < wd) (hh : 0 < ht)
    (hlen : 3 * wd * ht ≤ data.length) (hfit : 3 * wd * ht ≤ 2147483648) :
    for_loop (save_file_row data wd) ht.toNat 0 file
      = some (file ++ data.take (3 * wd.toNat * ht.toNat)) := by
  rw [for_loop_append _
    (fun row : Int => (data.drop (3 * wd.toNat * row.toNat)).take (3 * wd.toNat))
    ht.toNat 0 file (fun i hi f1 => by
      simp only [zero_add]
      exact save_file_row_eq data wd ht i f1 hw (by omega) (by omega) hlen hfit)]
  have := cat_drop_take data (3 * wd.toNat) ht.toNat 0 (by
    have : ((3 * wd.toNat * (0 + ht.toNat) : Nat) : Int) = 3 * wd * ht := by
      push_cast
      rw [Int.toNat_of_nonneg (by omega), Int.toNat_of_nonneg (by omega)]
      ring
    omega)
  simp only [Nat.cast_zero, Nat.mul_zero, List.drop_zero] at this
  rw [this]

/-- C16: whenever the exported `save` returns `true`, the format is 0, the
`grab` it ran returned a buffer, and the file written at the path holds exactly
the header `P6\n<width> <height>\n255\n` (the bytes of `ppm_header`, the numbers
in decimal) followed by the first `3 * w * h` bytes of that buffer in index
order; its length is the length of the header plus `3 * w * h`. -/
theorem save_file_writes_ppm (w : World) (fuel : Nat) (handle : Option Machine)
    (x y wd ht format t : Int) (path : String) (p : Option Machine)
    (h : save w fuel handle x y wd ht format t path = .ok (true, p)) :
    format = 0 ∧ ∃ img n m1,
      grab w fuel handle x y wd ht format t true = .ok (GrabResult.mk (some img) n, some m1)
      ∧ p = some { m1 with
            files := (path, ppm_header wd ht ++ img.cells.take (3 * wd.toNat * ht.toNat))
              :: m1.files,
            trace := m1.trace ++ [Event.fopen path] }
      ∧ (ppm_header wd ht ++ img.cells.take (3 * wd.toNat * ht.toNat)).length
          = (ppm_header wd ht).length + 3 * wd.toNat * ht.toNat := by
  obtain ⟨r, q, hg, hcase⟩ := save_file_inv w fuel handle x y wd ht format t path true p h
  rcases hcase with ⟨hb, _, _⟩ | ⟨_, hf, _, img, m1, file, hd, hq, hl, hp⟩
  · cases hb
  · subst hf
    obtain ⟨d, n⟩ := r
    simp only [] at hd
    subst hd hq
    cases handle with
    | none =>
      rw [grab] at hg
      cases hg
    | some m =>
      obtain ⟨hw, hh, bits, dw, cs0, k, hc⟩ := grab_rgb_inv w fuel m m1 x y wd ht t true img n hg
      obtain ⟨c1, c2, _⟩ := save_rgb_count bits dw x y wd ht cs0 img.cells k hc
      have ew : ((wd.toNat : Nat) : Int) = wd := Int.toNat_of_nonneg (by omega)
      have eh : ((ht.toNat : Nat) : Int) = ht := Int.toNat_of_nonneg (by omega)
      rw [ew, eh] at c1 c2
      rw [save_file_loop img.cells wd ht (ppm_header wd ht) hw hh c1 c2] at hl
      cases hl
      refine ⟨rfl, img, n, m1, hg, hp, ?_⟩
      rw [List.length_append, List.length_take]
      have : 3 * wd.toNat * ht.toNat ≤ img.cells.length := by
        have e : ((3 * wd.toNat * ht.toNat : Nat) : Int) = 3 * wd * ht := by
          push_cast
          rw [ew, eh]
        omega
      omega

/-- C16, an instance: the exported `save` of the whole `frame2x2` in
`healthy_world` writes the 23 bytes recorded in `written_session`. -/
theorem save_file_writes_ppm_witness :
    (0 : Int) = 0 ∧ ∃ img n m1,
      grab healthy_world 1 (some created_session) 0 0 2 2 0 0 true
        = .ok (GrabResult.mk (some img) n, some m1)
      ∧ some written_session = some { m1 with
            files := ("frame.ppm",
              ppm_header 2 2 ++ img.cells.take (3 * (2 : Int).toNat * (2 : Int).toNat))
              :: m1.files,
            trace := m1.trace ++ [Event.fopen "frame.ppm"] }
      ∧ (ppm_header 2 2 ++ img.cells.take (3 * (2 : Int).toNat * (2 : Int).toNat)).length
          = (ppm_header 2 2).length + 3 * (2 : Int).toNat * (2 : Int).toNat :=
  save_file_writes_ppm healthy_world 1 (some created_session) 0 0 2 2 0 0 "frame.ppm"
    (some written_session) rfl

/-- C19: for a source of `W × H` pixels (`4 * W * H` bytes, addressable with
32-bit indices) and a non-empty region inside the frame, the pixel index that
`save` computes for row `r` and column `c` of the region is exactly
`(y + r) * W + (x + c)`, its four bytes lie inside the source, and both
conversions run to their end without an out-of-range access.  But neither
`save` nor `grab` checks the region against the frame: in `healthy_world` a
region that sticks out of the 2 × 2 frame on the right is converted (from the
pixels that follow in memory), and a region below the frame makes the
conversion read outside the source. -/
theorem source_reads_in_bounds (bits : List BYTE) (W H : Nat) (x y wd ht : Int)
    (hin : in_frame x y wd ht W H) (hb : bits.length = 4 * W * H)
    (hbl : bits.length < 2147483648) :
    (∀ r c : Nat, r < ht.toNat → c < wd.toNat →
        INT_add (in_row_start y r W x) c = (((y.toNat + r) * W + (x.toNat + c) : Nat) : Int)
          ∧ 4 * ((y.toNat + r) * W + (x.toNat + c)) + 3 < bits.length)
      ∧ (∀ cs : List Cell, cs.length = 3 * wd.toNat * ht.toNat →
          save_rgb bits W x y wd ht cs ≠ none)
      ∧ (wd * ht * 12 < 2147483648 → ∀ cs : List Cell, cs.length = 12 * wd.toNat * ht.toNat →
          save_darknet bits W x y wd ht cs ≠ none)
      ∧ (¬ in_frame 1 0 2 1 2 2
          ∧ (grab healthy_world 1 (some created_session) 1 0 2 1 0 0 false).toOption.map
              (fun p => p.1.data.map (fun i => i.cells))
            = some (some [Cell.byte 7, Cell.byte 6, Cell.byte 5,
                Cell.byte 11, Cell.byte 10, Cell.byte 9]))
      ∧ (¬ in_frame 0 2 1 1 2 2
          ∧ grab healthy_world 1 (some created_session) 0 2 1 1 0 0 false
            = .error Fault.undefined_behaviour) := by
  obtain ⟨hox, hoy, hw, hh, hx, hy⟩ := hin
  have hW : 0 < W := by omega
  refine ⟨?_, ?_, ?_, ⟨fun hn => absurd hn.2.2.2.2.1 (by decide), rfl⟩,
    ⟨fun hn => absurd hn.2.2.2.2.2 (by decide), rfl⟩⟩
  · intro r c hr hc
    obtain ⟨e, hlt⟩ := source_pixel_in_range x y wd ht W H r c hox hoy hx hy hr hc
    have hlt2 : 4 * ((y.toNat + r) * W + (x.toNat + c)) + 3 < bits.length := by
      rw [hb]; exact hlt
    have hrow : (y + (r : Int)) * W + x < 2147483648 := by omega
    rw [in_row_start_eq y r x W hoy (by omega) hox hrow hW,
      INT_add_eq _ _ (by omega) (by omega)]
    exact ⟨e, hlt2⟩
  · intro cs hc
    rw [save_rgb_eq bits W H x y wd ht cs hox hoy hw hx hy hb hbl (by rw [hc]; ring)]
    exact fun hn => by cases hn
  · intro hfit cs hc
    have hlen : cs.length = 4 * (3 * (ht.toNat * wd.toNat)) := by rw [hc]; ring
    have hcl : cs.length < 2147483648 := by
      have e : ((12 * wd.toNat * ht.toNat : Nat) : Int) = wd * ht * 12 := by
        push_cast
        rw [Int.toNat_of_nonneg (by omega), Int.toNat_of_nonneg (by omega)]
        ring
      omega
    rw [save_darknet_eq bits W H x y wd ht cs hox hoy hw hx hy hb hbl hlen hcl]
    exact fun hn => by cases hn

/-- C19, an instance: the whole of `frame2x2`. -/
theorem source_reads_in_bounds_witness :
    (∀ r c : Nat, r < (2 : Int).toNat → c < (2 : Int).toNat →
        INT_add (in_row_start 0 r 2 0) c
            = ((((0 : Int).toNat + r) * 2 + ((0 : Int).toNat + c) : Nat) : Int)
          ∧ 4 * (((0 : Int).toNat + r) * 2 + ((0 : Int).toNat + c)) + 3 < frame2x2.bits.length)
      ∧ (∀ cs : List Cell, cs.length = 3 * (2 : Int).toNat * (2 : Int).toNat →
          save_rgb frame2x2.bits 2 0 0 2 2 cs ≠ none)
      ∧ ((2 : Int) * 2 * 12 < 2147483648 → ∀ cs : List Cell,
          cs.length = 12 * (2 : Int).toNat * (2 : Int).toNat →
          save_darknet frame2x2.bits 2 0 0 2 2 cs ≠ none)
      ∧ (¬ in_frame 1 0 2 1 2 2
          ∧ (grab healthy_world 1 (some created_session) 1 0 2 1 0 0 false).toOption.map
              (fun p => p.1.data.map (fun i => i.cells))
            = some (some [Cell.byte 7, Cell.byte 6, Cell.byte 5,
                Cell.byte 11, Cell.byte 10, Cell.byte 9]))
      ∧ (¬ in_frame 0 2 1 1 2 2
          ∧ grab healthy_world 1 (some created_session) 0 2 1 1 0 0 false
            = .error Fault.undefined_behaviour) :=
  source_reads_in_bounds frame2x2.bits 2 2 0 0 2 2
    ⟨by decide, by decide, by decide, by decide, by decide, by decide⟩ rfl (by decide)

end DXGrabber
